import Mathlib

/-!
# Reader/writer action functions of the NFA layer (`src/nfa/rw/nfa_rw_act.c`)

A shallow embedding of the action functions of the NFA_RW state machine.
The control block `nfa_rw_cb` is an explicit record, every call that leaves
the module (engine primitives, application notifications, timer, allocator)
is appended to an output trace, and the synchronous answers of the
collaborators are read from an environment record.
-/

namespace NfaRw

/-! ## Data model -/

/-- Status codes `tNFC_STATUS` / `tNFA_STATUS` (the NFA names are aliases of the
NFC ones in the headers; the source mixes both freely).  `OTHER` stands for any
code that this file never names. -/
inductive tNFC_STATUS
  | OK
  | FAILED
  | BUSY
  | TIMEOUT
  | BUFFER_FULL
  | OTHER (code : Nat)
deriving DecidableEq, Repr

/-- Protocol of the activated tag, `tNFC_PROTOCOL`.  `OTHER` covers every protocol
the reader/writer module has no case for. -/
inductive tNFC_PROTOCOL
  | NFC_PROTOCOL_T1T
  | NFC_PROTOCOL_T2T
  | NFC_PROTOCOL_T3T
  | NFC_PROTOCOL_ISO_DEP
  | NFC_PROTOCOL_15693
  | OTHER (code : Nat)
deriving DecidableEq, Repr

/-- Operation codes `tNFA_RW_OP`; `NFA_RW_OP_MAX` is the value used for
"no operation" and falls into the `default` arm of every switch. -/
inductive tNFA_RW_OP
  | NFA_RW_OP_DETECT_NDEF
  | NFA_RW_OP_READ_NDEF
  | NFA_RW_OP_WRITE_NDEF
  | NFA_RW_OP_PRESENCE_CHECK
  | NFA_RW_OP_FORMAT_TAG
  | NFA_RW_OP_SEND_RAW_FRAME
  | NFA_RW_OP_DETECT_LOCK_TLV
  | NFA_RW_OP_DETECT_MEM_TLV
  | NFA_RW_OP_SET_TAG_RO
  | NFA_RW_OP_T1T_RID
  | NFA_RW_OP_T1T_RALL
  | NFA_RW_OP_T1T_READ
  | NFA_RW_OP_T1T_WRITE
  | NFA_RW_OP_T1T_RSEG
  | NFA_RW_OP_T1T_READ8
  | NFA_RW_OP_T1T_WRITE8
  | NFA_RW_OP_T2T_READ
  | NFA_RW_OP_T2T_WRITE
  | NFA_RW_OP_T2T_SECTOR_SELECT
  | NFA_RW_OP_T3T_READ
  | NFA_RW_OP_T3T_WRITE
  | NFA_RW_OP_T3T_GET_SYSTEM_CODES
  | NFA_RW_OP_I93_INVENTORY
  | NFA_RW_OP_I93_STAY_QUIET
  | NFA_RW_OP_I93_READ_SINGLE_BLOCK
  | NFA_RW_OP_I93_WRITE_SINGLE_BLOCK
  | NFA_RW_OP_I93_LOCK_BLOCK
  | NFA_RW_OP_I93_READ_MULTI_BLOCK
  | NFA_RW_OP_I93_WRITE_MULTI_BLOCK
  | NFA_RW_OP_I93_SELECT
  | NFA_RW_OP_I93_RESET_TO_READY
  | NFA_RW_OP_I93_WRITE_AFI
  | NFA_RW_OP_I93_LOCK_AFI
  | NFA_RW_OP_I93_WRITE_DSFID
  | NFA_RW_OP_I93_LOCK_DSFID
  | NFA_RW_OP_I93_GET_SYS_INFO
  | NFA_RW_OP_I93_GET_MULTI_BLOCK_STATUS
  | NFA_RW_OP_MAX
deriving DecidableEq, Repr

/-- Connection events handed to `nfa_dm_act_conn_cback_notify`. -/
inductive tNFA_CONN_EVT
  | NFA_READ_CPLT_EVT
  | NFA_WRITE_CPLT_EVT
  | NFA_NDEF_DETECT_EVT
  | NFA_TLV_DETECT_EVT
  | NFA_FORMAT_CPLT_EVT
  | NFA_SELECT_CPLT_EVT
  | NFA_SET_TAG_RO_EVT
  | NFA_I93_CMD_CPLT_EVT
  | NFA_PRESENCE_CHECK_EVT
  | NFA_RW_INTF_ERROR_EVT
  | NFA_DATA_EVT
deriving DecidableEq, Repr

/-- ISO 15693 command identifiers echoed in `i93_cmd_cplt.sent_command`;
`I93_CMD_OTHER` is any command code this file never names (the engine reports
the code of the command it completed). -/
inductive tI93_CMD
  | I93_CMD_INVENTORY
  | I93_CMD_STAY_QUIET
  | I93_CMD_READ_SINGLE_BLOCK
  | I93_CMD_WRITE_SINGLE_BLOCK
  | I93_CMD_LOCK_BLOCK
  | I93_CMD_READ_MULTI_BLOCK
  | I93_CMD_WRITE_MULTI_BLOCK
  | I93_CMD_SELECT
  | I93_CMD_RESET_TO_READY
  | I93_CMD_WRITE_AFI
  | I93_CMD_LOCK_AFI
  | I93_CMD_WRITE_DSFID
  | I93_CMD_LOCK_DSFID
  | I93_CMD_GET_SYS_INFO
  | I93_CMD_GET_MULTI_BLK_SEC
  | I93_CMD_OTHER (code : Nat)
deriving DecidableEq, Repr

/-- The two TLV kinds passed to the locate-TLV primitives. -/
inductive tTLV_TYPE
  | TAG_LOCK_CTRL_TLV
  | TAG_MEM_CTRL_TLV
deriving DecidableEq, Repr

/-- NDEF detection state `nfa_rw_cb.ndef_st`. -/
inductive tNFA_RW_NDEF_ST
  | NFA_RW_NDEF_ST_UNKNOWN
  | NFA_RW_NDEF_ST_TRUE
  | NFA_RW_NDEF_ST_FALSE
deriving DecidableEq, Repr

/-- Modelled from the spec: the values `NFA_RW_TLV_DETECT_ST_*` live in the header
`nfa_rw_int.h`, which is not part of the sources.  The spec describes the state
as two independent detection bits, NotStarted having none and Complete having
both, so the state is the pair of bits; `|=` becomes a bitwise or of the pairs
and `==` is equality of the pairs. -/
structure tNFA_RW_TLV_ST where
  lock_tlv_op_complete : Bool
  mem_tlv_op_complete : Bool
deriving DecidableEq, Repr

/-- Value `NFA_RW_TLV_DETECT_ST_OP_NOT_STARTED`. -/
def NFA_RW_TLV_DETECT_ST_OP_NOT_STARTED : tNFA_RW_TLV_ST := ⟨false, false⟩

/-- Value `NFA_RW_TLV_DETECT_ST_LOCK_TLV_OP_COMPLETE`. -/
def NFA_RW_TLV_DETECT_ST_LOCK_TLV_OP_COMPLETE : tNFA_RW_TLV_ST := ⟨true, false⟩

/-- Value `NFA_RW_TLV_DETECT_ST_MEM_TLV_OP_COMPLETE`. -/
def NFA_RW_TLV_DETECT_ST_MEM_TLV_OP_COMPLETE : tNFA_RW_TLV_ST := ⟨false, true⟩

/-- Value `NFA_RW_TLV_DETECT_ST_COMPLETE`. -/
def NFA_RW_TLV_DETECT_ST_COMPLETE : tNFA_RW_TLV_ST := ⟨true, true⟩

/-- Modelled from the spec: the bit masks `NFA_RW_FL_*` live in the header
`nfa_rw_int.h`, which is not part of the sources.  The spec lists the flag set
as six independent flags; `flags |= F` sets one field, `flags &= ~F` clears it
and `flags & F` reads it. -/
structure tNFA_RW_FLAGS where
  NFA_RW_FL_ACTIVATED : Bool
  NFA_RW_FL_API_BUSY : Bool
  NFA_RW_FL_AUTO_PRESENCE_CHECK_BUSY : Bool
  NFA_RW_FL_NOT_EXCL_RF_MODE : Bool
  NFA_RW_FL_TAG_IS_READONLY : Bool
  NFA_RW_FL_ACTIVATION_NTF_PENDING : Bool
deriving DecidableEq, Repr

/-- Parameters of a Type-1 read request (`params.t1t_read`). -/
structure tNFA_RW_OP_PARAMS_T1T_READ where
  segment_number : Nat := 0
  block_number : Nat := 0
  index : Nat := 0
deriving DecidableEq, Repr

/-- Parameters of a Type-1 write request (`params.t1t_write`). -/
structure tNFA_RW_OP_PARAMS_T1T_WRITE where
  b_erase : Bool := false
  block_number : Nat := 0
  index : Nat := 0
  p_block_data : List Nat := []
deriving DecidableEq, Repr

/-- Parameters of a Type-2 write request (`params.t2t_write`). -/
structure tNFA_RW_OP_PARAMS_T2T_WRITE where
  block_number : Nat := 0
  p_block_data : List Nat := []
deriving DecidableEq, Repr

/-- Parameters of a Type-3 read request (`params.t3t_read`). -/
structure tNFA_RW_OP_PARAMS_T3T_READ where
  num_blocks : Nat := 0
  p_block_desc : List Nat := []
deriving DecidableEq, Repr

/-- Parameters of a Type-3 write request (`params.t3t_write`). -/
structure tNFA_RW_OP_PARAMS_T3T_WRITE where
  num_blocks : Nat := 0
  p_block_desc : List Nat := []
  p_block_data : List Nat := []
deriving DecidableEq, Repr

/-- Parameters of an ISO 15693 request (`params.i93_cmd`). -/
structure tNFA_RW_OP_PARAMS_I93_CMD where
  uid_present : Bool := false
  uid : List Nat := []
  afi : Nat := 0
  dsfid : Nat := 0
  first_block_number : Nat := 0
  number_blocks : Nat := 0
  p_data : List Nat := []
deriving DecidableEq, Repr

/-- The request parameters `tNFA_RW_OP_PARAMS`.  The C type is a union; the record
keeps every member side by side, which only adds behaviours (a handler reads
the member that belongs to its own operation). -/
structure tNFA_RW_OP_PARAMS where
  write_ndef_len : Nat := 0
  write_ndef_p_data : List Nat := []
  send_raw_frame_p_data : List Nat := []
  set_readonly_b_hard_lock : Bool := false
  t1t_read : tNFA_RW_OP_PARAMS_T1T_READ := {}
  t1t_write : tNFA_RW_OP_PARAMS_T1T_WRITE := {}
  t2t_read_block_number : Nat := 0
  t2t_write : tNFA_RW_OP_PARAMS_T2T_WRITE := {}
  t2t_sector_select_sector_number : Nat := 0
  t3t_read : tNFA_RW_OP_PARAMS_T3T_READ := {}
  t3t_write : tNFA_RW_OP_PARAMS_T3T_WRITE := {}
  i93_cmd : tNFA_RW_OP_PARAMS_I93_CMD := {}
deriving DecidableEq, Repr

/-- An operation request, the `op_req` member of `tNFA_RW_MSG`. -/
structure tNFA_RW_OPERATION where
  op : tNFA_RW_OP
  params : tNFA_RW_OP_PARAMS := {}
deriving DecidableEq, Repr

/-- Primitives of the Type-1 tag engine, with the arguments the source passes. -/
inductive tRW_T1T_CALL
  | RW_T1tDetectNDef
  | RW_T1tReadNDef (buf_len : Nat)
  | RW_T1tWriteNDef (len : Nat) (p_data : List Nat)
  | RW_T1tPresenceCheck
  | RW_T1tFormatNDef
  | RW_T1tLocateTlv (tlv : tTLV_TYPE)
  | RW_T1tSetTagReadOnly (b_hard_lock : Bool)
  | RW_T1tRid
  | RW_T1tReadAll
  | RW_T1tRead (block : Nat) (byte : Nat)
  | RW_T1tWriteErase (block : Nat) (byte : Nat) (new_byte : Nat)
  | RW_T1tWriteNoErase (block : Nat) (byte : Nat) (new_byte : Nat)
  | RW_T1tReadSeg (segment : Nat)
  | RW_T1tRead8 (block : Nat)
  | RW_T1tWriteErase8 (block : Nat) (p_new_dat : List Nat)
  | RW_T1tWriteNoErase8 (block : Nat) (p_new_dat : List Nat)
deriving DecidableEq, Repr

/-- Primitives of the Type-2 tag engine. -/
inductive tRW_T2T_CALL
  | RW_T2tDetectNDef
  | RW_T2tReadNDef (buf_len : Nat)
  | RW_T2tWriteNDef (len : Nat) (p_data : List Nat)
  | RW_T2tPresenceCheck
  | RW_T2tFormatNDef
  | RW_T2tLocateTlv (tlv : tTLV_TYPE)
  | RW_T2tSetTagReadOnly (b_hard_lock : Bool)
  | RW_T2tRead (block : Nat)
  | RW_T2tWrite (block : Nat) (p_write_data : List Nat)
  | RW_T2tSectorSelect (sector : Nat)
deriving DecidableEq, Repr

/-- Primitives of the Type-3 tag engine. -/
inductive tRW_T3T_CALL
  | RW_T3tDetectNDef
  | RW_T3tCheckNDef
  | RW_T3tUpdateNDef (len : Nat) (p_data : List Nat)
  | RW_T3tPresenceCheck
  | RW_T3tFormatNDef
  | RW_T3tCheck (num_blocks : Nat) (t3t_blocks : List Nat)
  | RW_T3tUpdate (num_blocks : Nat) (t3t_blocks : List Nat) (p_data : List Nat)
  | RW_T3tGetSystemCodes
deriving DecidableEq, Repr

/-- Primitives of the Type-4 tag engine. -/
inductive tRW_T4T_CALL
  | RW_T4tDetectNDef
  | RW_T4tReadNDef
  | RW_T4tUpdateNDef (len : Nat) (p_data : List Nat)
  | RW_T4tPresenceCheck
  | RW_T4tFormatNDef
deriving DecidableEq, Repr

/-- Primitives of the ISO 15693 tag engine. -/
inductive tRW_I93_CALL
  | RW_I93DetectNDef
  | RW_I93ReadNDef
  | RW_I93UpdateNDef (len : Nat) (p_data : List Nat)
  | RW_I93PresenceCheck
  | RW_I93FormatNDef
  | RW_I93SetTagReadOnly
  | RW_I93Inventory (afi : Nat) (p_uid : Option (List Nat))
  | RW_I93StayQuiet
  | RW_I93ReadSingleBlock (block_number : Nat)
  | RW_I93WriteSingleBlock (block_number : Nat) (p_data : List Nat)
  | RW_I93LockBlock (block_number : Nat)
  | RW_I93ReadMultipleBlocks (first_block_number : Nat) (number_blocks : Nat)
  | RW_I93WriteMultipleBlocks (first_block_number : Nat) (number_blocks : Nat)
      (p_data : List Nat)
  | RW_I93Select (p_uid : List Nat)
  | RW_I93ResetToReady
  | RW_I93WriteAFI (afi : Nat)
  | RW_I93LockAFI
  | RW_I93WriteDSFID (dsfid : Nat)
  | RW_I93LockDSFID
  | RW_I93GetSysInfo (p_uid : Option (List Nat))
  | RW_I93GetMultiBlockSecurityStatus (first_block_number : Nat) (number_blocks : Nat)
deriving DecidableEq, Repr

/-- Every call that returns a synchronous `tNFC_STATUS`: the primitives of the
tag engine (`RW_*`), grouped by tag family, and the generic sleep/wake probe of
the discovery manager (`nfa_dm_disc_presence_check`). -/
inductive tRW_CALL
  | t1t (c : tRW_T1T_CALL)
  | t2t (c : tRW_T2T_CALL)
  | t3t (c : tRW_T3T_CALL)
  | t4t (c : tRW_T4T_CALL)
  | i93 (c : tRW_I93_CALL)
  | nfa_dm_disc_presence_check
deriving DecidableEq, Repr

instance : Coe tRW_T1T_CALL tRW_CALL := ⟨tRW_CALL.t1t⟩

instance : Coe tRW_T2T_CALL tRW_CALL := ⟨tRW_CALL.t2t⟩

instance : Coe tRW_T3T_CALL tRW_CALL := ⟨tRW_CALL.t3t⟩

instance : Coe tRW_T4T_CALL tRW_CALL := ⟨tRW_CALL.t4t⟩

instance : Coe tRW_I93_CALL tRW_CALL := ⟨tRW_CALL.i93⟩

/-- The system information of an ISO 15693 tag (`tRW_I93_SYS_INFO` without its
status, and the `sys_info` member of `tNFA_I93_CMD_CPLT`). -/
structure tI93_SYS_INFO where
  info_flags : Nat := 0
  uid : List Nat := []
  dsfid : Nat := 0
  afi : Nat := 0
  num_block : Nat := 0
  block_size : Nat := 0
  IC_reference : Nat := 0
deriving DecidableEq, Repr

/-- The event data `tNFA_CONN_EVT_DATA` given to the application.  The C type is
a union whose members all start with the status byte, so `status`,
`ndef_detect.status`, `tlv_detect.status` and `i93_cmd_cplt.status` are one
field here; a field the source never assigned before the call is `none`. -/
structure tNFA_CONN_EVT_DATA where
  status : Option tNFC_STATUS := none
  protocol : Option tNFC_PROTOCOL := none
  cur_size : Option Nat := none
  max_size : Option Nat := none
  flags : Option Nat := none
  num_bytes : Option Nat := none
  sent_command : Option tI93_CMD := none
  data : Option (List Nat) := none
  error_code : Option Nat := none
  inventory_dsfid : Option Nat := none
  inventory_uid : Option (List Nat) := none
  sys_info : Option tI93_SYS_INFO := none
deriving DecidableEq, Repr

/-- Activation parameters `tNFA_TAG_PARAMS` reported with the activation status.
The C type is a union of the per-family members; the record keeps the members
the source assigns side by side.  A field of the Type-1 or ISO 15693 member
that the source did not assign before the call is `none`. -/
structure tNFA_TAG_PARAMS where
  t3t_num_system_codes : Nat := 0
  t3t_p_system_codes : Option (List Nat) := none
  t1t_hr : Option (List Nat) := none
  t1t_uid : Option (List Nat) := none
  t2t_uid : Option (List Nat) := none
  i93_info_flags : Option Nat := none
  i93_uid : Option (List Nat) := none
  i93_dsfid : Option Nat := none
  i93_afi : Option Nat := none
  i93_block_size : Option Nat := none
  i93_num_block : Option Nat := none
  i93_IC_reference : Option Nat := none
deriving DecidableEq, Repr

/-- A data buffer `BT_HDR`: the `len` payload bytes that start at `offset`. -/
structure BT_HDR where
  payload : List Nat
deriving DecidableEq, Repr

/-- The buffers returned to the GKI pool: a deferred request or a data buffer. -/
inductive tGKI_BUF
  | pending_msg (m : tNFA_RW_OPERATION)
  | data (b : BT_HDR)
deriving DecidableEq, Repr

/-- The members of the activation parameters `tNFC_ACTIVATE_DEVT` that the module
reads: the protocol, the selector byte `rf_tech_param.param.pa.sel_rsp`, the
`nfcid1_len` bytes of `rf_tech_param.param.pa.nfcid1`, the eight bytes of
`rf_tech_param.param.pi93.uid` and the bytes of
`intf_param.intf_param.frame.param`.  The members of the C union
`rf_tech_param.param` are kept side by side. -/
structure tNFC_ACTIVATE_DEVT where
  protocol : tNFC_PROTOCOL
  pa_sel_rsp : Nat := 0
  pa_nfcid1 : List Nat := []
  pi93_uid : List Nat := []
  intf_frame_param : List Nat := []
deriving DecidableEq, Repr

/-- The activation notification, the `activate_ntf` member of `tNFA_RW_MSG`. -/
structure tNFA_RW_ACTIVATE_NTF where
  p_activate_params : tNFC_ACTIVATE_DEVT
  excl_rf_not_active : Bool
deriving DecidableEq, Repr

/-- The data callbacks this file hands to `NFC_SetStaticRfCback`. -/
inductive tNFC_CONN_CBACK
  | nfa_rw_raw_mode_data_cback
deriving DecidableEq, Repr

/-- One observable action of the module, in program order. -/
inductive Effect
  | call (c : tRW_CALL)
  | NFC_SendData (p_data : List Nat)
  | nfa_dm_act_conn_cback_notify (event : tNFA_CONN_EVT) (data : tNFA_CONN_EVT_DATA)
  | nfa_dm_ndef_handle_message (status : tNFC_STATUS) (p_msg_buf : Option (List Nat))
      (len : Nat)
  | nfa_dm_notify_activation_status (status : tNFC_STATUS) (p_params : Option tNFA_TAG_PARAMS)
  | nfa_dm_rf_deactivate
  | nfa_sys_start_timer
  | nfa_sys_stop_timer
  | nfa_mem_co_alloc (num_bytes : Nat)
  | nfa_mem_co_free
  | GKI_freebuf (p_buf : tGKI_BUF)
  | store_out_of_bounds (index : Nat) (byte : Nat)
  | NFC_SetStaticRfCback (p_cback : Option tNFC_CONN_CBACK)
  | RW_SetActivatedTagType (p_activate_params : tNFC_ACTIVATE_DEVT)
deriving DecidableEq, Repr

/-- The control block `nfa_rw_cb`.  `p_ndef_buf` holds the bytes of the allocated
read buffer (its length is the allocated size) or `none` for `NULL`;
`p_pending_msg` is the deferred request or `none` for `NULL`. -/
structure tNFA_RW_CB where
  protocol : tNFC_PROTOCOL
  pa_sel_res : Nat
  flags : tNFA_RW_FLAGS
  cur_op : tNFA_RW_OP
  ndef_st : tNFA_RW_NDEF_ST
  tlv_st : tNFA_RW_TLV_ST
  ndef_cur_size : Nat
  ndef_max_size : Nat
  p_ndef_wr_buf : List Nat
  ndef_wr_len : Nat
  p_ndef_buf : Option (List Nat)
  ndef_rd_offset : Nat
  p_pending_msg : Option tNFA_RW_OPERATION
  b_hard_lock : Bool
  i93_uid : List Nat
  i93_block_size : Nat
  i93_num_block : Nat
  i93_afi_location : Nat
  i93_dsfid : Nat
deriving DecidableEq, Repr

/-- The control block together with everything the module has done so far. -/
structure World where
  cb : tNFA_RW_CB
  out : List Effect
deriving DecidableEq, Repr

/-- Build switches, constants of missing headers and the synchronous answers of
the collaborators.  `rw c` is the status the engine returns for the call `c`;
`nfa_mem_co_alloc n` tells whether an allocation of `n` bytes succeeds;
`NDEF_MsgValidate` tells whether the validator returns `NDEF_OK`;
`RW_SetActivatedTagType p` is the status of the engine initialisation;
`ARRAY8_TO_STREAM a` is the byte sequence that the header macro of that name
writes for the eight-byte array `a`. -/
structure Env where
  NXP_EXT : Bool
  NFA_DM_AUTO_PRESENCE_CHECK : Bool
  NFC_SEL_RES_NFC_FORUM_T2T : Nat
  RW_NDEF_FL_READ_ONLY : Nat
  RW_NDEF_FL_UNKNOWN : Nat
  T1T_HR_LEN : Nat
  T1T_CMD_UID_LEN : Nat
  I93_INFO_FLAG_DSFID : Nat
  I93_INFO_FLAG_MEM_SIZE : Nat
  I93_INFO_FLAG_AFI : Nat
  NFA_T1T_HR_LEN : Nat
  I93_UID_IC_MFG_CODE_TI : Nat
  I93_UID_TAG_IT_HF_I_PRODUCT_ID_MASK : Nat
  I93_UID_TAG_IT_HF_I_STD_CHIP_INLAY : Nat
  I93_UID_TAG_IT_HF_I_PRO_CHIP_INLAY : Nat
  I93_TAG_IT_HF_I_STD_PRO_CHIP_INLAY_BLK_SIZE : Nat
  I93_TAG_IT_HF_I_STD_PRO_CHIP_INLAY_AFI_LOCATION : Nat
  I93_TAG_IT_HF_I_STD_CHIP_INLAY_NUM_TOTAL_BLK : Nat
  I93_TAG_IT_HF_I_PRO_CHIP_INLAY_NUM_TOTAL_BLK : Nat
  ARRAY8_TO_STREAM : List Nat → List Nat
  rw : tRW_CALL → tNFC_STATUS
  nfa_mem_co_alloc : Nat → Bool
  NDEF_MsgValidate : List Nat → Nat → Bool
  nfa_dm_is_protocol_supported : tNFC_PROTOCOL → Nat → Bool
  RW_SetActivatedTagType : tNFC_ACTIVATE_DEVT → tNFC_STATUS

/-- An engine completion `tRW_DATA`.  The C type is a union whose members all
start with the status byte, so `status`, `data.status`, `ndef.status`,
`tlv.status`, `i93_inventory.status`, `i93_cmd_cmpl.status` and the other
member statuses are one field here; `protocol` is the second byte of both the
`ndef` and the `tlv` member, and `p_data` is the buffer pointer of both the
`data` and the `i93_data` member.  The remaining members are kept side by
side. -/
structure tRW_DATA where
  status : tNFC_STATUS
  protocol : tNFC_PROTOCOL := tNFC_PROTOCOL.OTHER 0
  max_size : Nat := 0
  cur_size : Nat := 0
  flags : Nat := 0
  p_data : Option BT_HDR := none
  tlv_num_bytes : Nat := 0
  t3t_sc_num_system_codes : Nat := 0
  t3t_sc_p_system_codes : Option (List Nat) := none
  i93_inventory_dsfid : Nat := 0
  i93_inventory_uid : List Nat := []
  i93_sys_info : tI93_SYS_INFO := {}
  i93_cmd_cmpl_command : tI93_CMD := tI93_CMD.I93_CMD_STAY_QUIET
  i93_cmd_cmpl_error_code : Nat := 0
deriving DecidableEq, Repr

/-- Completion events of the Type-1 engine; `OTHER` is any event of the Type-1
range that the reader/writer module has no case for. -/
inductive tRW_T1T_EVT
  | RW_T1T_RID_EVT
  | RW_T1T_RALL_CPLT_EVT
  | RW_T1T_READ_CPLT_EVT
  | RW_T1T_RSEG_CPLT_EVT
  | RW_T1T_READ8_CPLT_EVT
  | RW_T1T_WRITE_E_CPLT_EVT
  | RW_T1T_WRITE_NE_CPLT_EVT
  | RW_T1T_WRITE_E8_CPLT_EVT
  | RW_T1T_WRITE_NE8_CPLT_EVT
  | RW_T1T_TLV_DETECT_EVT
  | RW_T1T_NDEF_DETECT_EVT
  | RW_T1T_NDEF_READ_EVT
  | RW_T1T_NDEF_WRITE_EVT
  | RW_T1T_SET_TAG_RO_EVT
  | RW_T1T_RAW_FRAME_EVT
  | RW_T1T_PRESENCE_CHECK_EVT
  | RW_T1T_FORMAT_CPLT_EVT
  | RW_T1T_INTF_ERROR_EVT
  | OTHER
deriving DecidableEq, Repr

/-- Completion events of the Type-2 engine. -/
inductive tRW_T2T_EVT
  | RW_T2T_READ_CPLT_EVT
  | RW_T2T_WRITE_CPLT_EVT
  | RW_T2T_SELECT_CPLT_EVT
  | RW_T2T_NDEF_DETECT_EVT
  | RW_T2T_TLV_DETECT_EVT
  | RW_T2T_NDEF_READ_EVT
  | RW_T2T_NDEF_WRITE_EVT
  | RW_T2T_SET_TAG_RO_EVT
  | RW_T2T_RAW_FRAME_EVT
  | RW_T2T_PRESENCE_CHECK_EVT
  | RW_T2T_FORMAT_CPLT_EVT
  | RW_T2T_INTF_ERROR_EVT
  | OTHER
deriving DecidableEq, Repr

/-- Completion events of the Type-3 engine. -/
inductive tRW_T3T_EVT
  | RW_T3T_NDEF_DETECT_EVT
  | RW_T3T_UPDATE_CPLT_EVT
  | RW_T3T_CHECK_CPLT_EVT
  | RW_T3T_CHECK_EVT
  | RW_T3T_RAW_FRAME_EVT
  | RW_T3T_PRESENCE_CHECK_EVT
  | RW_T3T_GET_SYSTEM_CODES_EVT
  | RW_T3T_FORMAT_CPLT_EVT
  | RW_T3T_INTF_ERROR_EVT
  | OTHER
deriving DecidableEq, Repr

/-- Completion events of the Type-4 engine. -/
inductive tRW_T4T_EVT
  | RW_T4T_NDEF_DETECT_EVT
  | RW_T4T_NDEF_FORMAT_CPLT_EVT
  | RW_T4T_NDEF_READ_EVT
  | RW_T4T_NDEF_READ_CPLT_EVT
  | RW_T4T_NDEF_READ_FAIL_EVT
  | RW_T4T_NDEF_UPDATE_CPLT_EVT
  | RW_T4T_NDEF_UPDATE_FAIL_EVT
  | RW_T4T_RAW_FRAME_EVT
  | RW_T4T_INTF_ERROR_EVT
  | RW_T4T_PRESENCE_CHECK_EVT
  | OTHER
deriving DecidableEq, Repr

/-- Completion events of the ISO 15693 engine. -/
inductive tRW_I93_EVT
  | RW_I93_NDEF_DETECT_EVT
  | RW_I93_NDEF_READ_EVT
  | RW_I93_NDEF_READ_CPLT_EVT
  | RW_I93_NDEF_READ_FAIL_EVT
  | RW_I93_NDEF_UPDATE_CPLT_EVT
  | RW_I93_NDEF_UPDATE_FAIL_EVT
  | RW_I93_RAW_FRAME_EVT
  | RW_I93_INTF_ERROR_EVT
  | RW_I93_PRESENCE_CHECK_EVT
  | RW_I93_FORMAT_CPLT_EVT
  | RW_I93_SET_TAG_RO_EVT
  | RW_I93_INVENTORY_EVT
  | RW_I93_DATA_EVT
  | RW_I93_SYS_INFO_EVT
  | RW_I93_CMD_CMPL_EVT
  | OTHER
deriving DecidableEq, Repr

/-- Modelled from the spec: the numbering of `tRW_EVENT` lives in the header
`rw_api.h`, which is not part of the sources.  The spec says that the family
ranges are contiguous and strictly increasing and that the router compares
the event with the range ends; an event is therefore its family together
with the event inside the family, and `OTHER` is an event at or beyond
`RW_I93_MAX_EVT`. -/
inductive tRW_EVENT
  | t1t (e : tRW_T1T_EVT)
  | t2t (e : tRW_T2T_EVT)
  | t3t (e : tRW_T3T_EVT)
  | t4t (e : tRW_T4T_EVT)
  | i93 (e : tRW_I93_EVT)
  | OTHER
deriving DecidableEq, Repr

open tNFC_STATUS tNFC_PROTOCOL tNFA_RW_OP tNFA_CONN_EVT tI93_CMD tTLV_TYPE tNFA_RW_NDEF_ST

open tRW_T1T_EVT tRW_T2T_EVT tRW_T3T_EVT tRW_T4T_EVT tRW_I93_EVT

/-- Append one action to the trace. -/
def World.emit (w : World) (e : Effect) : World :=
  { w with out := w.out ++ [e] }

/-- Replace the flag set of the control block. -/
def World.setFlags (w : World) (f : tNFA_RW_FLAGS) : World :=
  { w with cb := { w.cb with flags := f } }

/-- Issue a call to a collaborator: it is recorded and its answer is returned. -/
def rw_call (env : Env) (c : tRW_CALL) (w : World) : tNFC_STATUS × World :=
  (env.rw c, w.emit (Effect.call c))

/-! ## Buffers, timer, command completion -/

/-- Function `nfa_rw_free_ndef_rx_buf`: free the read buffer if there is one. -/
def nfa_rw_free_ndef_rx_buf (w : World) : World :=
  match w.cb.p_ndef_buf with
  | some _ => { (w.emit Effect.nfa_mem_co_free) with
                cb := { w.cb with p_ndef_buf := none } }
  | none => w

/-- The `memcpy` of `nfa_rw_store_ndef_rx_buf`: byte `i` of `src` is stored at
index `off + i` of the destination.  A store inside the allocation updates the
buffer; a store at or beyond its end lands outside the buffer and is returned
in the second component (index, byte). -/
def ndef_buf_memcpy : List Nat → Nat → List Nat → List Nat × List (Nat × Nat)
  | buf, _, [] => (buf, [])
  | buf, off, b :: rest =>
    if off < buf.length then ndef_buf_memcpy (buf.set off b) (off + 1) rest
    else
      let r := ndef_buf_memcpy buf (off + 1) rest
      (r.1, (off, b) :: r.2)

/-- Function `nfa_rw_store_ndef_rx_buf`: copy the segment to the read buffer at
`ndef_rd_offset`, advance the offset by the segment length and free the
segment.  There is no comparison of the length with the room left.  A `NULL`
read buffer is an allocation of size zero; a `NULL` segment pointer (a crash in
C) is modelled as no action. -/
def nfa_rw_store_ndef_rx_buf (p_rw_data : tRW_DATA) (w : World) : World :=
  match p_rw_data.p_data with
  | none => w
  | some hdr =>
    let r := ndef_buf_memcpy (w.cb.p_ndef_buf.getD []) w.cb.ndef_rd_offset hdr.payload
    let w1 : World :=
      { cb := { w.cb with
                p_ndef_buf := w.cb.p_ndef_buf.map (fun _ => r.1)
                ndef_rd_offset := w.cb.ndef_rd_offset + hdr.payload.length }
        out := w.out ++ r.2.map (fun iv => Effect.store_out_of_bounds iv.1 iv.2) }
    w1.emit (Effect.GKI_freebuf (tGKI_BUF.data hdr))

/-- Function `nfa_rw_check_start_presence_check_timer`. -/
def nfa_rw_check_start_presence_check_timer (env : Env) (w : World) : World :=
  if env.NFA_DM_AUTO_PRESENCE_CHECK && w.cb.flags.NFA_RW_FL_NOT_EXCL_RF_MODE then
    w.emit Effect.nfa_sys_start_timer
  else w

/-- Function `nfa_rw_stop_presence_check_timer`. -/
def nfa_rw_stop_presence_check_timer (w : World) : World :=
  w.emit Effect.nfa_sys_stop_timer

/-- Function `nfa_rw_command_complete`: clear the busy flag and restart the
presence-check timer if applicable. -/
def nfa_rw_command_complete (env : Env) (w : World) : World :=
  nfa_rw_check_start_presence_check_timer env
    (w.setFlags { w.cb.flags with NFA_RW_FL_API_BUSY := false })

/-- Function `nfa_rw_error_cleanup`: command complete, then notify the
application of `event` with status FAILED. -/
def nfa_rw_error_cleanup (env : Env) (event : tNFA_CONN_EVT) (w : World) : World :=
  (nfa_rw_command_complete env w).emit
    (Effect.nfa_dm_act_conn_cback_notify event { status := some FAILED })

/-! ## NDEF detection, read and write -/

/-- Function `nfa_rw_start_ndef_detection`. -/
def nfa_rw_start_ndef_detection (env : Env) (w : World) : tNFC_STATUS × World :=
  match w.cb.protocol with
  | NFC_PROTOCOL_T1T => rw_call env tRW_T1T_CALL.RW_T1tDetectNDef w
  | NFC_PROTOCOL_T2T =>
    if w.cb.pa_sel_res = env.NFC_SEL_RES_NFC_FORUM_T2T then
      rw_call env tRW_T2T_CALL.RW_T2tDetectNDef w
    else (FAILED, w)
  | NFC_PROTOCOL_T3T => rw_call env tRW_T3T_CALL.RW_T3tDetectNDef w
  | NFC_PROTOCOL_ISO_DEP => rw_call env tRW_T4T_CALL.RW_T4tDetectNDef w
  | NFC_PROTOCOL_15693 => rw_call env tRW_I93_CALL.RW_I93DetectNDef w
  | tNFC_PROTOCOL.OTHER _ => (FAILED, w)

/-- Function `nfa_rw_start_ndef_read`.  The freshly allocated buffer has
`ndef_cur_size` bytes; their indeterminate contents are modelled as zeros. -/
def nfa_rw_start_ndef_read (env : Env) (w : World) : tNFC_STATUS × World :=
  if w.cb.ndef_cur_size = 0 then
    let w1 := w.emit (Effect.nfa_dm_ndef_handle_message OK none 0)
    let w2 := nfa_rw_command_complete env w1
    (OK, w2.emit (Effect.nfa_dm_act_conn_cback_notify NFA_READ_CPLT_EVT { status := some OK }))
  else
    let w1 := nfa_rw_free_ndef_rx_buf w
    let w2 := w1.emit (Effect.nfa_mem_co_alloc w1.cb.ndef_cur_size)
    if env.nfa_mem_co_alloc w1.cb.ndef_cur_size = false then
      let w3 := nfa_rw_command_complete env w2
      (FAILED,
        w3.emit (Effect.nfa_dm_act_conn_cback_notify NFA_READ_CPLT_EVT { status := some FAILED }))
    else
      let w3 : World :=
        { w2 with cb := { w2.cb with
                          p_ndef_buf := some (List.replicate w2.cb.ndef_cur_size 0)
                          ndef_rd_offset := 0 } }
      match w3.cb.protocol with
      | NFC_PROTOCOL_T1T =>
        rw_call env (tRW_T1T_CALL.RW_T1tReadNDef (w3.cb.ndef_cur_size % 65536)) w3
      | NFC_PROTOCOL_T2T =>
        if w3.cb.pa_sel_res = env.NFC_SEL_RES_NFC_FORUM_T2T then
          rw_call env (tRW_T2T_CALL.RW_T2tReadNDef (w3.cb.ndef_cur_size % 65536)) w3
        else (FAILED, w3)
      | NFC_PROTOCOL_T3T => rw_call env tRW_T3T_CALL.RW_T3tCheckNDef w3
      | NFC_PROTOCOL_ISO_DEP => rw_call env tRW_T4T_CALL.RW_T4tReadNDef w3
      | NFC_PROTOCOL_15693 => rw_call env tRW_I93_CALL.RW_I93ReadNDef w3
      | tNFC_PROTOCOL.OTHER _ => (FAILED, w3)

/-- Function `nfa_rw_detect_ndef`, handler of `NFA_RW_OP_DETECT_NDEF`. -/
def nfa_rw_detect_ndef (env : Env) (w : World) : World :=
  let r := nfa_rw_start_ndef_detection env w
  if r.1 ≠ OK then
    (nfa_rw_command_complete env r.2).emit
      (Effect.nfa_dm_act_conn_cback_notify NFA_NDEF_DETECT_EVT
        { status := some r.1, cur_size := some 0, max_size := some 0,
          flags := some env.RW_NDEF_FL_UNKNOWN })
  else r.2

/-- Function `nfa_rw_start_ndef_write`. -/
def nfa_rw_start_ndef_write (env : Env) (w : World) : tNFC_STATUS × World :=
  if w.cb.flags.NFA_RW_FL_TAG_IS_READONLY then (FAILED, w)
  else if w.cb.ndef_max_size < w.cb.ndef_wr_len then (BUFFER_FULL, w)
  else
    match w.cb.protocol with
    | NFC_PROTOCOL_T1T =>
      rw_call env (tRW_T1T_CALL.RW_T1tWriteNDef (w.cb.ndef_wr_len % 65536) w.cb.p_ndef_wr_buf) w
    | NFC_PROTOCOL_T2T =>
      if w.cb.pa_sel_res = env.NFC_SEL_RES_NFC_FORUM_T2T then
        rw_call env (tRW_T2T_CALL.RW_T2tWriteNDef (w.cb.ndef_wr_len % 65536) w.cb.p_ndef_wr_buf) w
      else (FAILED, w)
    | NFC_PROTOCOL_T3T =>
      rw_call env (tRW_T3T_CALL.RW_T3tUpdateNDef w.cb.ndef_wr_len w.cb.p_ndef_wr_buf) w
    | NFC_PROTOCOL_ISO_DEP =>
      rw_call env (tRW_T4T_CALL.RW_T4tUpdateNDef (w.cb.ndef_wr_len % 65536) w.cb.p_ndef_wr_buf) w
    | NFC_PROTOCOL_15693 =>
      rw_call env (tRW_I93_CALL.RW_I93UpdateNDef (w.cb.ndef_wr_len % 65536) w.cb.p_ndef_wr_buf) w
    | tNFC_PROTOCOL.OTHER _ => (FAILED, w)

/-- Function `nfa_rw_read_ndef`, handler of `NFA_RW_OP_READ_NDEF`. -/
def nfa_rw_read_ndef (env : Env) (w : World) : World :=
  let r : tNFC_STATUS × World :=
    if w.cb.ndef_st = NFA_RW_NDEF_ST_UNKNOWN then nfa_rw_start_ndef_detection env w
    else if w.cb.ndef_st = NFA_RW_NDEF_ST_FALSE then (FAILED, w)
    else nfa_rw_start_ndef_read env w
  if r.1 ≠ OK then
    (nfa_rw_command_complete env r.2).emit
      (Effect.nfa_dm_act_conn_cback_notify NFA_READ_CPLT_EVT { status := some r.1 })
  else r.2

/-- Function `nfa_rw_write_ndef`, handler of `NFA_RW_OP_WRITE_NDEF`. -/
def nfa_rw_write_ndef (env : Env) (p_data : tNFA_RW_OPERATION) (w : World) : World :=
  if env.NDEF_MsgValidate p_data.params.write_ndef_p_data p_data.params.write_ndef_len
      = false then
    (nfa_rw_command_complete env w).emit
      (Effect.nfa_dm_act_conn_cback_notify NFA_WRITE_CPLT_EVT { status := some FAILED })
  else
    let w1 : World :=
      { w with cb := { w.cb with
                       p_ndef_wr_buf := p_data.params.write_ndef_p_data
                       ndef_wr_len := p_data.params.write_ndef_len } }
    let r : tNFC_STATUS × World :=
      if w1.cb.ndef_st = NFA_RW_NDEF_ST_UNKNOWN then nfa_rw_start_ndef_detection env w1
      else if w1.cb.ndef_st = NFA_RW_NDEF_ST_FALSE then (FAILED, w1)
      else nfa_rw_start_ndef_write env w1
    if r.1 ≠ OK then
      (nfa_rw_command_complete env r.2).emit
        (Effect.nfa_dm_act_conn_cback_notify NFA_WRITE_CPLT_EVT { status := some r.1 })
    else r.2

/-- Function `nfa_rw_handle_ndef_detect`, handler of the NDEF detection
completion of every tag family. -/
def nfa_rw_handle_ndef_detect (env : Env) (p_rw_data : tRW_DATA) (w : World) : World :=
  if p_rw_data.status = OK then
    let conn_evt_data : tNFA_CONN_EVT_DATA :=
      { status := some OK, protocol := some p_rw_data.protocol,
        cur_size := some p_rw_data.cur_size, max_size := some p_rw_data.max_size,
        flags := some p_rw_data.flags }
    let w1 : World :=
      { w with cb := { w.cb with
                       ndef_st := NFA_RW_NDEF_ST_TRUE
                       ndef_cur_size := p_rw_data.cur_size
                       ndef_max_size := p_rw_data.max_size
                       flags := { w.cb.flags with
                                  NFA_RW_FL_TAG_IS_READONLY :=
                                    (p_rw_data.flags &&& env.RW_NDEF_FL_READ_ONLY) != 0 } } }
    if w1.cb.cur_op = NFA_RW_OP_READ_NDEF then
      let r := nfa_rw_start_ndef_read env w1
      if r.1 ≠ OK then
        (nfa_rw_command_complete env r.2).emit
          (Effect.nfa_dm_act_conn_cback_notify NFA_READ_CPLT_EVT
            { conn_evt_data with status := some r.1 })
      else r.2
    else if w1.cb.cur_op = NFA_RW_OP_WRITE_NDEF then
      let r := nfa_rw_start_ndef_write env w1
      if r.1 ≠ OK then
        (nfa_rw_command_complete env r.2).emit
          (Effect.nfa_dm_act_conn_cback_notify NFA_WRITE_CPLT_EVT
            { conn_evt_data with status := some r.1 })
      else r.2
    else
      let w2 : World := { w1 with cb := { w1.cb with cur_op := NFA_RW_OP_MAX } }
      (nfa_rw_command_complete env w2).emit
        (Effect.nfa_dm_act_conn_cback_notify NFA_NDEF_DETECT_EVT conn_evt_data)
  else
    let w1 := nfa_rw_command_complete env w
    let w2 : World := { w1 with cb := { w1.cb with ndef_st := NFA_RW_NDEF_ST_FALSE } }
    let w3 : World :=
      if w2.cb.cur_op = NFA_RW_OP_READ_NDEF then
        (w2.emit (Effect.nfa_dm_ndef_handle_message FAILED none 0)).emit
          (Effect.nfa_dm_act_conn_cback_notify NFA_READ_CPLT_EVT { status := some FAILED })
      else if w2.cb.cur_op = NFA_RW_OP_WRITE_NDEF then
        w2.emit (Effect.nfa_dm_act_conn_cback_notify NFA_WRITE_CPLT_EVT { status := some FAILED })
      else if w2.cb.cur_op = NFA_RW_OP_DETECT_NDEF then
        if p_rw_data.status = TIMEOUT then
          w2.emit (Effect.nfa_dm_act_conn_cback_notify NFA_NDEF_DETECT_EVT
            { status := some FAILED, protocol := some p_rw_data.protocol,
              cur_size := some 0, max_size := some 0,
              flags := some env.RW_NDEF_FL_UNKNOWN })
        else
          let w2a : World :=
            { w2 with cb := { w2.cb with
                              ndef_cur_size := p_rw_data.cur_size
                              ndef_max_size := p_rw_data.max_size } }
          w2a.emit (Effect.nfa_dm_act_conn_cback_notify NFA_NDEF_DETECT_EVT
            { status := some FAILED, protocol := some p_rw_data.protocol,
              cur_size := some p_rw_data.cur_size, max_size := some p_rw_data.max_size,
              flags := some p_rw_data.flags })
      else w2
    { w3 with cb := { w3.cb with cur_op := NFA_RW_OP_MAX } }

/-! ## Presence check -/

/-- Body of `nfa_rw_handle_presence_check_rsp`, with the entry point
`nfa_rw_handle_event` of the module (file `nfa_rw_main.c`, not part of the
sources) taken as the parameter `handle_event`. -/
def nfa_rw_handle_presence_check_rsp_with (handle_event : tNFA_RW_OPERATION → World → World)
    (env : Env) (status : tNFC_STATUS) (w : World) : World :=
  let w1 : World :=
    if status = OK then nfa_rw_command_complete env w
    else w.setFlags { w.cb.flags with NFA_RW_FL_API_BUSY := false }
  if w1.cb.flags.NFA_RW_FL_AUTO_PRESENCE_CHECK_BUSY then
    let w2 := w1.setFlags { w1.cb.flags with NFA_RW_FL_AUTO_PRESENCE_CHECK_BUSY := false }
    let w3 : World :=
      match w2.cb.p_pending_msg with
      | none => w2
      | some m =>
        if m.op = NFA_RW_OP_PRESENCE_CHECK then
          let w2a := w2.emit
            (Effect.nfa_dm_act_conn_cback_notify NFA_PRESENCE_CHECK_EVT { status := some status })
          let w2b := w2a.emit (Effect.GKI_freebuf (tGKI_BUF.pending_msg m))
          { w2b with cb := { w2b.cb with p_pending_msg := none } }
        else if status = OK then
          handle_event m { w2 with cb := { w2.cb with p_pending_msg := none } }
        else
          let w2b := w2.emit (Effect.GKI_freebuf (tGKI_BUF.pending_msg m))
          { w2b with cb := { w2b.cb with p_pending_msg := none } }
    if status ≠ OK then w3.emit Effect.nfa_dm_rf_deactivate else w3
  else
    let w2 := w1.emit
      (Effect.nfa_dm_act_conn_cback_notify NFA_PRESENCE_CHECK_EVT { status := some status })
    if w2.cb.flags.NFA_RW_FL_NOT_EXCL_RF_MODE && decide (status ≠ OK) then
      w2.emit Effect.nfa_dm_rf_deactivate
    else w2

/-- The `switch` of `nfa_rw_presence_check`: the liveness primitive chosen for the
active protocol and selector value.  Type-2 with a selector other than the
NFC-Forum value falls through to the `default` arm. -/
def nfa_rw_presence_check_select (env : Env) (protocol : tNFC_PROTOCOL) (sel_res : Nat) :
    tRW_CALL :=
  match protocol with
  | NFC_PROTOCOL_T1T => tRW_T1T_CALL.RW_T1tPresenceCheck
  | NFC_PROTOCOL_T3T => tRW_T3T_CALL.RW_T3tPresenceCheck
  | NFC_PROTOCOL_ISO_DEP => tRW_T4T_CALL.RW_T4tPresenceCheck
  | NFC_PROTOCOL_15693 => tRW_I93_CALL.RW_I93PresenceCheck
  | NFC_PROTOCOL_T2T =>
    if sel_res = env.NFC_SEL_RES_NFC_FORUM_T2T then tRW_T2T_CALL.RW_T2tPresenceCheck
    else tRW_CALL.nfa_dm_disc_presence_check
  | tNFC_PROTOCOL.OTHER _ => tRW_CALL.nfa_dm_disc_presence_check

/-- Function `nfa_rw_presence_check`, handler of `NFA_RW_OP_PRESENCE_CHECK`.  A
rejected probe is handled as a response with status FAILED; on that status the
response handler never reaches its call of `nfa_rw_handle_event` (see
`nfa_rw_handle_presence_check_rsp_with_not_ok`), so the parameter has no
influence here. -/
def nfa_rw_presence_check (env : Env) (w : World) : World :=
  let r := rw_call env (nfa_rw_presence_check_select env w.cb.protocol w.cb.pa_sel_res) w
  if r.1 ≠ OK then nfa_rw_handle_presence_check_rsp_with (fun _ x => x) env FAILED r.2
  else r.2

/-- Function `nfa_rw_presence_check_tick`: the presence-check timer expired. -/
def nfa_rw_presence_check_tick (env : Env) (w : World) : Bool × World :=
  let w1 : World :=
    { w with cb := { w.cb with
                     cur_op := NFA_RW_OP_PRESENCE_CHECK
                     flags := { w.cb.flags with NFA_RW_FL_AUTO_PRESENCE_CHECK_BUSY := true } } }
  (true, nfa_rw_presence_check env w1)

/-! ## Format, TLV detection, read-only configuration -/

/-- Function `nfa_rw_format_tag`, handler of `NFA_RW_OP_FORMAT_TAG`. -/
def nfa_rw_format_tag (env : Env) (w : World) : World :=
  let r : tNFC_STATUS × World :=
    if w.cb.protocol = NFC_PROTOCOL_T1T then rw_call env tRW_T1T_CALL.RW_T1tFormatNDef w
    else if w.cb.protocol = NFC_PROTOCOL_T2T
        ∧ w.cb.pa_sel_res = env.NFC_SEL_RES_NFC_FORUM_T2T then
      rw_call env tRW_T2T_CALL.RW_T2tFormatNDef w
    else if w.cb.protocol = NFC_PROTOCOL_T3T then rw_call env tRW_T3T_CALL.RW_T3tFormatNDef w
    else if w.cb.protocol = NFC_PROTOCOL_15693 then rw_call env tRW_I93_CALL.RW_I93FormatNDef w
    else if env.NXP_EXT = true ∧ w.cb.protocol = NFC_PROTOCOL_ISO_DEP then
      rw_call env tRW_T4T_CALL.RW_T4tFormatNDef w
    else (FAILED, w)
  if r.1 ≠ OK then nfa_rw_error_cleanup env NFA_FORMAT_CPLT_EVT r.2 else r.2

/-- Function `nfa_rw_detect_tlv`, handler of the two TLV detection requests. -/
def nfa_rw_detect_tlv (env : Env) (tlv : tTLV_TYPE) (w : World) : World :=
  match w.cb.protocol with
  | NFC_PROTOCOL_T1T =>
    let r := rw_call env (tRW_T1T_CALL.RW_T1tLocateTlv tlv) w
    if r.1 ≠ OK then nfa_rw_error_cleanup env NFA_TLV_DETECT_EVT r.2 else r.2
  | NFC_PROTOCOL_T2T =>
    if w.cb.pa_sel_res = env.NFC_SEL_RES_NFC_FORUM_T2T then
      let r := rw_call env (tRW_T2T_CALL.RW_T2tLocateTlv tlv) w
      if r.1 ≠ OK then nfa_rw_error_cleanup env NFA_TLV_DETECT_EVT r.2 else r.2
    else w
  | _ => w

/-- Function `nfa_rw_config_tag_ro`, handler of `NFA_RW_OP_SET_TAG_RO`. -/
def nfa_rw_config_tag_ro (env : Env) (b_hard_lock : Bool) (w : World) : tNFC_STATUS × World :=
  match w.cb.protocol with
  | NFC_PROTOCOL_T1T =>
    if w.cb.tlv_st = NFA_RW_TLV_DETECT_ST_OP_NOT_STARTED
        ∨ w.cb.tlv_st = NFA_RW_TLV_DETECT_ST_MEM_TLV_OP_COMPLETE then
      rw_call env (tRW_T1T_CALL.RW_T1tLocateTlv TAG_LOCK_CTRL_TLV) w
    else
      let r := rw_call env (tRW_T1T_CALL.RW_T1tSetTagReadOnly b_hard_lock) w
      if r.1 ≠ OK then (r.1, nfa_rw_error_cleanup env NFA_SET_TAG_RO_EVT r.2)
      else (r.1, { r.2 with cb := { r.2.cb with ndef_st := NFA_RW_NDEF_ST_UNKNOWN } })
  | NFC_PROTOCOL_T2T =>
    if w.cb.pa_sel_res = env.NFC_SEL_RES_NFC_FORUM_T2T then
      let r := rw_call env (tRW_T2T_CALL.RW_T2tSetTagReadOnly b_hard_lock) w
      if r.1 ≠ OK then (r.1, nfa_rw_error_cleanup env NFA_SET_TAG_RO_EVT r.2)
      else (r.1, { r.2 with cb := { r.2.cb with ndef_st := NFA_RW_NDEF_ST_UNKNOWN } })
    else (FAILED, w)
  | NFC_PROTOCOL_15693 =>
    let r := rw_call env tRW_I93_CALL.RW_I93SetTagReadOnly w
    if r.1 ≠ OK then (r.1, nfa_rw_error_cleanup env NFA_SET_TAG_RO_EVT r.2) else r
  | _ => (FAILED, w)

/-! ## Type-1, Type-2 and Type-3 primitives -/

/-- Common shape of the primitive handlers: issue the call and, if it is
rejected, clean up and notify `event` with status FAILED. -/
def call_or_cleanup (env : Env) (c : tRW_CALL) (event : tNFA_CONN_EVT) (w : World) : World :=
  let r := rw_call env c w
  if r.1 ≠ OK then nfa_rw_error_cleanup env event r.2 else r.2

/-- Function `nfa_rw_t1t_rid`. -/
def nfa_rw_t1t_rid (env : Env) (w : World) : World :=
  call_or_cleanup env tRW_T1T_CALL.RW_T1tRid NFA_READ_CPLT_EVT w

/-- Function `nfa_rw_t1t_rall`. -/
def nfa_rw_t1t_rall (env : Env) (w : World) : World :=
  call_or_cleanup env tRW_T1T_CALL.RW_T1tReadAll NFA_READ_CPLT_EVT w

/-- Function `nfa_rw_t1t_read`. -/
def nfa_rw_t1t_read (env : Env) (p_data : tNFA_RW_OPERATION) (w : World) : World :=
  call_or_cleanup env
    (tRW_T1T_CALL.RW_T1tRead p_data.params.t1t_read.block_number p_data.params.t1t_read.index)
    NFA_READ_CPLT_EVT w

/-- Function `nfa_rw_t1t_write`. -/
def nfa_rw_t1t_write (env : Env) (p_data : tNFA_RW_OPERATION) (w : World) : World :=
  let p := p_data.params.t1t_write
  let r : tNFC_STATUS × World :=
    if p.b_erase then
      rw_call env (tRW_T1T_CALL.RW_T1tWriteErase p.block_number p.index (p.p_block_data.headD 0)) w
    else
      rw_call env
        (tRW_T1T_CALL.RW_T1tWriteNoErase p.block_number p.index (p.p_block_data.headD 0)) w
  if r.1 ≠ OK then nfa_rw_error_cleanup env NFA_WRITE_CPLT_EVT r.2
  else if p.block_number = 1 then
    { r.2 with cb := { r.2.cb with ndef_st := NFA_RW_NDEF_ST_UNKNOWN } }
  else r.2

/-- Function `nfa_rw_t1t_rseg`. -/
def nfa_rw_t1t_rseg (env : Env) (p_data : tNFA_RW_OPERATION) (w : World) : World :=
  call_or_cleanup env (tRW_T1T_CALL.RW_T1tReadSeg p_data.params.t1t_read.segment_number)
    NFA_READ_CPLT_EVT w

/-- Function `nfa_rw_t1t_read8`. -/
def nfa_rw_t1t_read8 (env : Env) (p_data : tNFA_RW_OPERATION) (w : World) : World :=
  call_or_cleanup env (tRW_T1T_CALL.RW_T1tRead8 p_data.params.t1t_read.block_number)
    NFA_READ_CPLT_EVT w

/-- Function `nfa_rw_t1t_write8`. -/
def nfa_rw_t1t_write8 (env : Env) (p_data : tNFA_RW_OPERATION) (w : World) : World :=
  let p := p_data.params.t1t_write
  let r : tNFC_STATUS × World :=
    if p.b_erase then rw_call env (tRW_T1T_CALL.RW_T1tWriteErase8 p.block_number p.p_block_data) w
    else rw_call env (tRW_T1T_CALL.RW_T1tWriteNoErase8 p.block_number p.p_block_data) w
  if r.1 ≠ OK then nfa_rw_error_cleanup env NFA_WRITE_CPLT_EVT r.2
  else if p.block_number = 1 then
    { r.2 with cb := { r.2.cb with ndef_st := NFA_RW_NDEF_ST_UNKNOWN } }
  else r.2

/-- Function `nfa_rw_t2t_read`. -/
def nfa_rw_t2t_read (env : Env) (p_data : tNFA_RW_OPERATION) (w : World) : World :=
  let r : tNFC_STATUS × World :=
    if w.cb.pa_sel_res = env.NFC_SEL_RES_NFC_FORUM_T2T then
      rw_call env (tRW_T2T_CALL.RW_T2tRead p_data.params.t2t_read_block_number) w
    else (FAILED, w)
  if r.1 ≠ OK then nfa_rw_error_cleanup env NFA_READ_CPLT_EVT r.2 else r.2

/-- Function `nfa_rw_t2t_write`. -/
def nfa_rw_t2t_write (env : Env) (p_data : tNFA_RW_OPERATION) (w : World) : World :=
  let p := p_data.params.t2t_write
  let r := rw_call env (tRW_T2T_CALL.RW_T2tWrite p.block_number p.p_block_data) w
  if r.1 ≠ OK then nfa_rw_error_cleanup env NFA_WRITE_CPLT_EVT r.2
  else if p.block_number = 3 then
    { r.2 with cb := { r.2.cb with ndef_st := NFA_RW_NDEF_ST_UNKNOWN } }
  else r.2

/-- Function `nfa_rw_t2t_sector_select`. -/
def nfa_rw_t2t_sector_select (env : Env) (p_data : tNFA_RW_OPERATION) (w : World) : World :=
  call_or_cleanup env
    (tRW_T2T_CALL.RW_T2tSectorSelect p_data.params.t2t_sector_select_sector_number)
    NFA_SELECT_CPLT_EVT w

/-- Function `nfa_rw_t3t_read`. -/
def nfa_rw_t3t_read (env : Env) (p_data : tNFA_RW_OPERATION) (w : World) : World :=
  call_or_cleanup env
    (tRW_T3T_CALL.RW_T3tCheck p_data.params.t3t_read.num_blocks p_data.params.t3t_read.p_block_desc)
    NFA_READ_CPLT_EVT w

/-- Function `nfa_rw_t3t_write`. -/
def nfa_rw_t3t_write (env : Env) (p_data : tNFA_RW_OPERATION) (w : World) : World :=
  call_or_cleanup env
    (tRW_T3T_CALL.RW_T3tUpdate p_data.params.t3t_write.num_blocks
      p_data.params.t3t_write.p_block_desc p_data.params.t3t_write.p_block_data)
    NFA_WRITE_CPLT_EVT w

/-- Function `nfa_rw_t3t_get_system_codes`. -/
def nfa_rw_t3t_get_system_codes (env : Env) (w : World) : World :=
  let r := rw_call env tRW_T3T_CALL.RW_T3tGetSystemCodes w
  if r.1 ≠ OK then
    (nfa_rw_command_complete env r.2).emit
      (Effect.nfa_dm_notify_activation_status OK
        (some { t3t_num_system_codes := 0, t3t_p_system_codes := none }))
  else r.2

/-! ## ISO 15693 commands -/

/-- The `switch` of `nfa_rw_i93_command`: the command identifier and the engine
call of each operation; an operation without a case keeps the initial values
(`I93_CMD_STAY_QUIET`, no call, status OK). -/
def nfa_rw_i93_command_select (p_data : tNFA_RW_OPERATION) : tI93_CMD × Option tRW_CALL :=
  let p := p_data.params.i93_cmd
  match p_data.op with
  | NFA_RW_OP_I93_INVENTORY =>
    (I93_CMD_INVENTORY,
      some (tRW_I93_CALL.RW_I93Inventory p.afi (if p.uid_present then some p.uid else none)))
  | NFA_RW_OP_I93_STAY_QUIET => (I93_CMD_STAY_QUIET, some tRW_I93_CALL.RW_I93StayQuiet)
  | NFA_RW_OP_I93_READ_SINGLE_BLOCK =>
    (I93_CMD_READ_SINGLE_BLOCK, some (tRW_I93_CALL.RW_I93ReadSingleBlock p.first_block_number))
  | NFA_RW_OP_I93_WRITE_SINGLE_BLOCK =>
    (I93_CMD_WRITE_SINGLE_BLOCK,
      some (tRW_I93_CALL.RW_I93WriteSingleBlock p.first_block_number p.p_data))
  | NFA_RW_OP_I93_LOCK_BLOCK =>
    (I93_CMD_LOCK_BLOCK, some (tRW_I93_CALL.RW_I93LockBlock p.first_block_number))
  | NFA_RW_OP_I93_READ_MULTI_BLOCK =>
    (I93_CMD_READ_MULTI_BLOCK,
      some (tRW_I93_CALL.RW_I93ReadMultipleBlocks p.first_block_number p.number_blocks))
  | NFA_RW_OP_I93_WRITE_MULTI_BLOCK =>
    (I93_CMD_WRITE_MULTI_BLOCK,
      some (tRW_I93_CALL.RW_I93WriteMultipleBlocks p.first_block_number p.number_blocks p.p_data))
  | NFA_RW_OP_I93_SELECT => (I93_CMD_SELECT, some (tRW_I93_CALL.RW_I93Select p.p_data))
  | NFA_RW_OP_I93_RESET_TO_READY => (I93_CMD_RESET_TO_READY, some tRW_I93_CALL.RW_I93ResetToReady)
  | NFA_RW_OP_I93_WRITE_AFI => (I93_CMD_WRITE_AFI, some (tRW_I93_CALL.RW_I93WriteAFI p.afi))
  | NFA_RW_OP_I93_LOCK_AFI => (I93_CMD_LOCK_AFI, some tRW_I93_CALL.RW_I93LockAFI)
  | NFA_RW_OP_I93_WRITE_DSFID => (I93_CMD_WRITE_DSFID, some (tRW_I93_CALL.RW_I93WriteDSFID p.dsfid))
  | NFA_RW_OP_I93_LOCK_DSFID => (I93_CMD_LOCK_DSFID, some tRW_I93_CALL.RW_I93LockDSFID)
  | NFA_RW_OP_I93_GET_SYS_INFO =>
    (I93_CMD_GET_SYS_INFO,
      some (tRW_I93_CALL.RW_I93GetSysInfo (if p.uid_present then some p.uid else none)))
  | NFA_RW_OP_I93_GET_MULTI_BLOCK_STATUS =>
    (I93_CMD_GET_MULTI_BLK_SEC,
      some (tRW_I93_CALL.RW_I93GetMultiBlockSecurityStatus p.first_block_number p.number_blocks))
  | _ => (I93_CMD_STAY_QUIET, none)

/-- Function `nfa_rw_i93_command`, handler of the ISO 15693 requests. -/
def nfa_rw_i93_command (env : Env) (p_data : tNFA_RW_OPERATION) (w : World) : World :=
  let sel := nfa_rw_i93_command_select p_data
  let r : tNFC_STATUS × World :=
    match sel.2 with
    | some c => rw_call env c w
    | none => (OK, w)
  if r.1 ≠ OK then
    (nfa_rw_command_complete env r.2).emit
      (Effect.nfa_dm_act_conn_cback_notify NFA_I93_CMD_CPLT_EVT
        { status := some FAILED, sent_command := some sel.1 })
  else r.2

/-! ## Operation dispatcher and busy gate -/

/-- The `switch` of `nfa_rw_op_req_while_busy`: the event reported for a request
that arrives while busy, with the event data assigned before the call;
`none` is the `default` arm, which returns without a notification. -/
def nfa_rw_op_req_while_busy_event (env : Env) (op : tNFA_RW_OP) :
    Option (tNFA_CONN_EVT × tNFA_CONN_EVT_DATA) :=
  match op with
  | NFA_RW_OP_DETECT_NDEF =>
    some (NFA_NDEF_DETECT_EVT,
      { status := some BUSY, cur_size := some 0, max_size := some 0,
        flags := some env.RW_NDEF_FL_UNKNOWN })
  | NFA_RW_OP_READ_NDEF | NFA_RW_OP_T1T_RID | NFA_RW_OP_T1T_RALL | NFA_RW_OP_T1T_READ
  | NFA_RW_OP_T1T_RSEG | NFA_RW_OP_T1T_READ8 | NFA_RW_OP_T2T_READ | NFA_RW_OP_T3T_READ =>
    some (NFA_READ_CPLT_EVT, { status := some BUSY })
  | NFA_RW_OP_WRITE_NDEF | NFA_RW_OP_T1T_WRITE | NFA_RW_OP_T1T_WRITE8 | NFA_RW_OP_T2T_WRITE
  | NFA_RW_OP_T3T_WRITE =>
    some (NFA_WRITE_CPLT_EVT, { status := some BUSY })
  | NFA_RW_OP_FORMAT_TAG => some (NFA_FORMAT_CPLT_EVT, { status := some BUSY })
  | NFA_RW_OP_DETECT_LOCK_TLV | NFA_RW_OP_DETECT_MEM_TLV =>
    some (NFA_TLV_DETECT_EVT, { status := some BUSY })
  | NFA_RW_OP_SET_TAG_RO => some (NFA_SET_TAG_RO_EVT, { status := some BUSY })
  | NFA_RW_OP_T2T_SECTOR_SELECT => some (NFA_SELECT_CPLT_EVT, { status := some BUSY })
  | NFA_RW_OP_I93_INVENTORY | NFA_RW_OP_I93_STAY_QUIET | NFA_RW_OP_I93_READ_SINGLE_BLOCK
  | NFA_RW_OP_I93_WRITE_SINGLE_BLOCK | NFA_RW_OP_I93_LOCK_BLOCK | NFA_RW_OP_I93_READ_MULTI_BLOCK
  | NFA_RW_OP_I93_WRITE_MULTI_BLOCK | NFA_RW_OP_I93_SELECT | NFA_RW_OP_I93_RESET_TO_READY
  | NFA_RW_OP_I93_WRITE_AFI | NFA_RW_OP_I93_LOCK_AFI | NFA_RW_OP_I93_WRITE_DSFID
  | NFA_RW_OP_I93_LOCK_DSFID | NFA_RW_OP_I93_GET_SYS_INFO
  | NFA_RW_OP_I93_GET_MULTI_BLOCK_STATUS =>
    some (NFA_I93_CMD_CPLT_EVT, { status := some BUSY })
  | NFA_RW_OP_SEND_RAW_FRAME | NFA_RW_OP_PRESENCE_CHECK | NFA_RW_OP_T3T_GET_SYSTEM_CODES
  | NFA_RW_OP_MAX => none

/-- Function `nfa_rw_op_req_while_busy`: handle an operation request while busy. -/
def nfa_rw_op_req_while_busy (env : Env) (p_data : tNFA_RW_OPERATION) (w : World) :
    Bool × World :=
  match nfa_rw_op_req_while_busy_event env p_data.op with
  | some ev => (true, w.emit (Effect.nfa_dm_act_conn_cback_notify ev.1 ev.2))
  | none => (true, w)

/-- The `switch` of `nfa_rw_handle_op_req`: call the handler of the requested
operation. -/
def nfa_rw_handle_op_req_switch (env : Env) (p_data : tNFA_RW_OPERATION) (w : World) : World :=
  match p_data.op with
  | NFA_RW_OP_DETECT_NDEF => nfa_rw_detect_ndef env w
  | NFA_RW_OP_READ_NDEF => nfa_rw_read_ndef env w
  | NFA_RW_OP_WRITE_NDEF => nfa_rw_write_ndef env p_data w
  | NFA_RW_OP_SEND_RAW_FRAME =>
    nfa_rw_command_complete env (w.emit (Effect.NFC_SendData p_data.params.send_raw_frame_p_data))
  | NFA_RW_OP_PRESENCE_CHECK => nfa_rw_presence_check env w
  | NFA_RW_OP_FORMAT_TAG => nfa_rw_format_tag env w
  | NFA_RW_OP_DETECT_LOCK_TLV => nfa_rw_detect_tlv env TAG_LOCK_CTRL_TLV w
  | NFA_RW_OP_DETECT_MEM_TLV => nfa_rw_detect_tlv env TAG_MEM_CTRL_TLV w
  | NFA_RW_OP_SET_TAG_RO =>
    let w1 : World :=
      { w with cb := { w.cb with b_hard_lock := p_data.params.set_readonly_b_hard_lock } }
    (nfa_rw_config_tag_ro env w1.cb.b_hard_lock w1).2
  | NFA_RW_OP_T1T_RID => nfa_rw_t1t_rid env w
  | NFA_RW_OP_T1T_RALL => nfa_rw_t1t_rall env w
  | NFA_RW_OP_T1T_READ => nfa_rw_t1t_read env p_data w
  | NFA_RW_OP_T1T_WRITE => nfa_rw_t1t_write env p_data w
  | NFA_RW_OP_T1T_RSEG => nfa_rw_t1t_rseg env p_data w
  | NFA_RW_OP_T1T_READ8 => nfa_rw_t1t_read8 env p_data w
  | NFA_RW_OP_T1T_WRITE8 => nfa_rw_t1t_write8 env p_data w
  | NFA_RW_OP_T2T_READ => nfa_rw_t2t_read env p_data w
  | NFA_RW_OP_T2T_WRITE => nfa_rw_t2t_write env p_data w
  | NFA_RW_OP_T2T_SECTOR_SELECT => nfa_rw_t2t_sector_select env p_data w
  | NFA_RW_OP_T3T_READ => nfa_rw_t3t_read env p_data w
  | NFA_RW_OP_T3T_WRITE => nfa_rw_t3t_write env p_data w
  | NFA_RW_OP_T3T_GET_SYSTEM_CODES => nfa_rw_t3t_get_system_codes env w
  | NFA_RW_OP_I93_INVENTORY | NFA_RW_OP_I93_STAY_QUIET | NFA_RW_OP_I93_READ_SINGLE_BLOCK
  | NFA_RW_OP_I93_WRITE_SINGLE_BLOCK | NFA_RW_OP_I93_LOCK_BLOCK | NFA_RW_OP_I93_READ_MULTI_BLOCK
  | NFA_RW_OP_I93_WRITE_MULTI_BLOCK | NFA_RW_OP_I93_SELECT | NFA_RW_OP_I93_RESET_TO_READY
  | NFA_RW_OP_I93_WRITE_AFI | NFA_RW_OP_I93_LOCK_AFI | NFA_RW_OP_I93_WRITE_DSFID
  | NFA_RW_OP_I93_LOCK_DSFID | NFA_RW_OP_I93_GET_SYS_INFO
  | NFA_RW_OP_I93_GET_MULTI_BLOCK_STATUS => nfa_rw_i93_command env p_data w
  | NFA_RW_OP_MAX => w

/-- Function `nfa_rw_handle_op_req`, handler of an operation request.  The
result is the returned `freebuf` flag and the new world. -/
def nfa_rw_handle_op_req (env : Env) (p_data : tNFA_RW_OPERATION) (w : World) : Bool × World :=
  if w.cb.flags.NFA_RW_FL_ACTIVATED = false then (true, w)
  else if w.cb.flags.NFA_RW_FL_API_BUSY then nfa_rw_op_req_while_busy env p_data w
  else if w.cb.flags.NFA_RW_FL_AUTO_PRESENCE_CHECK_BUSY then
    (true,
      { w with cb := { w.cb with
                       p_pending_msg := some p_data
                       flags := { w.cb.flags with NFA_RW_FL_API_BUSY := true } } })
  else
    let w1 := w.setFlags { w.cb.flags with NFA_RW_FL_API_BUSY := true }
    let w2 := nfa_rw_stop_presence_check_timer w1
    let w3 : World := { w2 with cb := { w2.cb with cur_op := p_data.op } }
    (true, nfa_rw_handle_op_req_switch env p_data w3)

/-- Modelled from the spec: `nfa_rw_handle_event` is defined in `nfa_rw_main.c`,
which is not part of the sources.  The spec says that a deferred request is
executed "through the normal dispatch entry"; the only messages ever stored in
`p_pending_msg` are operation requests, so the entry point hands the message to
`nfa_rw_handle_op_req`.  Its return value is dropped by the caller in
`nfa_rw_handle_presence_check_rsp`. -/
def nfa_rw_handle_event (env : Env) (p_msg : tNFA_RW_OPERATION) (w : World) : World :=
  (nfa_rw_handle_op_req env p_msg w).2

/-- Function `nfa_rw_handle_presence_check_rsp`, handler of the presence-check
completion of every tag family. -/
def nfa_rw_handle_presence_check_rsp (env : Env) (status : tNFC_STATUS) (w : World) : World :=
  nfa_rw_handle_presence_check_rsp_with (nfa_rw_handle_event env) env status w

/-! ## Engine completions: data to the upper layer, TLV detection -/

/-- Function `nfa_rw_send_data_to_upper`: forward the received data with
`NFA_DATA_EVT` and free the buffer; nothing is done on status TIMEOUT or when
there is no buffer. -/
def nfa_rw_send_data_to_upper (p_rw_data : tRW_DATA) (w : World) : World :=
  if p_rw_data.status = TIMEOUT then w
  else
    match p_rw_data.p_data with
    | none => w
    | some hdr =>
      (w.emit (Effect.nfa_dm_act_conn_cback_notify NFA_DATA_EVT
          { data := some hdr.payload })).emit
        (Effect.GKI_freebuf (tGKI_BUF.data hdr))

/-- Function `nfa_rw_handle_tlv_detect`, handler of the TLV detection completion
of the Type-1 and Type-2 engines.  The TLV state is advanced before the status
is examined. -/
def nfa_rw_handle_tlv_detect (env : Env) (p_rw_data : tRW_DATA) (w : World) : World :=
  let tlv_st : tNFA_RW_TLV_ST :=
    if w.cb.cur_op = NFA_RW_OP_SET_TAG_RO then
      (if w.cb.tlv_st = NFA_RW_TLV_DETECT_ST_OP_NOT_STARTED then
        NFA_RW_TLV_DETECT_ST_LOCK_TLV_OP_COMPLETE
      else NFA_RW_TLV_DETECT_ST_COMPLETE)
    else if w.cb.cur_op = NFA_RW_OP_DETECT_LOCK_TLV then
      { w.cb.tlv_st with lock_tlv_op_complete := true }
    else if w.cb.cur_op = NFA_RW_OP_DETECT_MEM_TLV then
      { w.cb.tlv_st with mem_tlv_op_complete := true }
    else w.cb.tlv_st
  let w1 : World := { w with cb := { w.cb with tlv_st := tlv_st } }
  if p_rw_data.status = OK then
    let conn_evt_data : tNFA_CONN_EVT_DATA :=
      { status := some OK, protocol := some p_rw_data.protocol,
        num_bytes := some p_rw_data.tlv_num_bytes }
    if w1.cb.cur_op = NFA_RW_OP_SET_TAG_RO then
      let r := nfa_rw_config_tag_ro env w1.cb.b_hard_lock w1
      if r.1 ≠ OK then
        r.2.emit (Effect.nfa_dm_act_conn_cback_notify NFA_SET_TAG_RO_EVT
          { conn_evt_data with status := some FAILED })
      else r.2
    else
      (nfa_rw_command_complete env w1).emit
        (Effect.nfa_dm_act_conn_cback_notify NFA_TLV_DETECT_EVT conn_evt_data)
  else
    let w2 := nfa_rw_command_complete env w1
    if w2.cb.cur_op = NFA_RW_OP_DETECT_LOCK_TLV ∨ w2.cb.cur_op = NFA_RW_OP_DETECT_MEM_TLV then
      w2.emit (Effect.nfa_dm_act_conn_cback_notify NFA_TLV_DETECT_EVT { status := some FAILED })
    else if w2.cb.cur_op = NFA_RW_OP_SET_TAG_RO then
      let r := nfa_rw_config_tag_ro env w2.cb.b_hard_lock w2
      if r.1 ≠ OK then
        r.2.emit (Effect.nfa_dm_act_conn_cback_notify NFA_SET_TAG_RO_EVT
          { status := some FAILED })
      else r.2
    else w2

/-- The NDEF read completion shared by the Type-1, Type-2 and Type-3 handlers:
hand the message to the NDEF consumer on status OK, tell it of the failure when
the current operation is read-ndef. -/
def ndef_read_to_consumer (p_rw_data : tRW_DATA) (w : World) : World :=
  if p_rw_data.status = OK then
    w.emit (Effect.nfa_dm_ndef_handle_message OK w.cb.p_ndef_buf w.cb.ndef_cur_size)
  else if w.cb.cur_op = NFA_RW_OP_READ_NDEF then
    w.emit (Effect.nfa_dm_ndef_handle_message FAILED none 0)
  else w

/-- The statement `if (cur_op == NFA_RW_OP_WRITE_NDEF) ndef_cur_size = ndef_wr_len`
shared by the write completions. -/
def update_cur_size_on_write (w : World) : World :=
  if w.cb.cur_op = NFA_RW_OP_WRITE_NDEF then
    { w with cb := { w.cb with ndef_cur_size := w.cb.ndef_wr_len } }
  else w

/-- The status reported by the write and format completions that map the engine
status to OK or FAILED. -/
def ok_or_failed (status : tNFC_STATUS) : tNFC_STATUS :=
  if status = OK then OK else FAILED

/-! ## Type-1 and Type-2 event translators -/

/-- Function `nfa_rw_handle_t1t_evt`, handler of the Type-1 engine events.  In the
`RW_T1T_RID_EVT` arm (compiled with `NXP_EXT` only) a `NULL` buffer, a crash in
C, is read as an empty response. -/
def nfa_rw_handle_t1t_evt (env : Env) (event : tRW_T1T_EVT) (p_rw_data : tRW_DATA)
    (w : World) : World :=
  let conn_evt_data : tNFA_CONN_EVT_DATA := { status := some p_rw_data.status }
  match event with
  | RW_T1T_RID_EVT =>
    if env.NXP_EXT then
      let p_rid_rsp := (p_rw_data.p_data.map (fun h => h.payload)).getD []
      (nfa_rw_command_complete env w).emit
        (Effect.nfa_dm_notify_activation_status OK
          (some { t1t_hr := some (p_rid_rsp.take env.T1T_HR_LEN),
                  t1t_uid := some ((p_rid_rsp.drop env.T1T_HR_LEN).take env.T1T_CMD_UID_LEN) }))
    else w
  | RW_T1T_RALL_CPLT_EVT | RW_T1T_READ_CPLT_EVT | RW_T1T_RSEG_CPLT_EVT
  | RW_T1T_READ8_CPLT_EVT =>
    (nfa_rw_command_complete env (nfa_rw_send_data_to_upper p_rw_data w)).emit
      (Effect.nfa_dm_act_conn_cback_notify NFA_READ_CPLT_EVT conn_evt_data)
  | RW_T1T_WRITE_E_CPLT_EVT | RW_T1T_WRITE_NE_CPLT_EVT | RW_T1T_WRITE_E8_CPLT_EVT
  | RW_T1T_WRITE_NE8_CPLT_EVT =>
    (nfa_rw_command_complete env (nfa_rw_send_data_to_upper p_rw_data w)).emit
      (Effect.nfa_dm_act_conn_cback_notify NFA_WRITE_CPLT_EVT conn_evt_data)
  | RW_T1T_TLV_DETECT_EVT => nfa_rw_handle_tlv_detect env p_rw_data w
  | RW_T1T_NDEF_DETECT_EVT =>
    nfa_rw_handle_ndef_detect env p_rw_data
      { w with cb := { w.cb with tlv_st := NFA_RW_TLV_DETECT_ST_COMPLETE } }
  | RW_T1T_NDEF_READ_EVT =>
    let w1 : World := { w with cb := { w.cb with tlv_st := NFA_RW_TLV_DETECT_ST_COMPLETE } }
    let w2 := ndef_read_to_consumer p_rw_data w1
    let w3 := (nfa_rw_command_complete env w2).emit
      (Effect.nfa_dm_act_conn_cback_notify NFA_READ_CPLT_EVT conn_evt_data)
    nfa_rw_free_ndef_rx_buf w3
  | RW_T1T_NDEF_WRITE_EVT =>
    let w1 : World :=
      if p_rw_data.status ≠ OK then
        { w with cb := { w.cb with ndef_st := NFA_RW_NDEF_ST_UNKNOWN } }
      else w
    let w2 : World := { w1 with cb := { w1.cb with tlv_st := NFA_RW_TLV_DETECT_ST_COMPLETE } }
    let w3 := update_cur_size_on_write (nfa_rw_command_complete env w2)
    w3.emit (Effect.nfa_dm_act_conn_cback_notify NFA_WRITE_CPLT_EVT
      { status := some (ok_or_failed p_rw_data.status) })
  | RW_T1T_SET_TAG_RO_EVT =>
    (nfa_rw_command_complete env w).emit
      (Effect.nfa_dm_act_conn_cback_notify NFA_SET_TAG_RO_EVT conn_evt_data)
  | RW_T1T_RAW_FRAME_EVT =>
    nfa_rw_command_complete env (nfa_rw_send_data_to_upper p_rw_data w)
  | RW_T1T_PRESENCE_CHECK_EVT => nfa_rw_handle_presence_check_rsp env p_rw_data.status w
  | RW_T1T_FORMAT_CPLT_EVT =>
    let w1 : World :=
      if p_rw_data.status = OK then
        { w with cb := { w.cb with ndef_st := NFA_RW_NDEF_ST_UNKNOWN } }
      else w
    (nfa_rw_command_complete env w1).emit
      (Effect.nfa_dm_act_conn_cback_notify NFA_FORMAT_CPLT_EVT conn_evt_data)
  | RW_T1T_INTF_ERROR_EVT =>
    w.emit (Effect.nfa_dm_act_conn_cback_notify NFA_RW_INTF_ERROR_EVT conn_evt_data)
  | tRW_T1T_EVT.OTHER => w

/-- Function `nfa_rw_handle_t2t_evt`, handler of the Type-2 engine events. -/
def nfa_rw_handle_t2t_evt (env : Env) (event : tRW_T2T_EVT) (p_rw_data : tRW_DATA)
    (w : World) : World :=
  let conn_evt_data : tNFA_CONN_EVT_DATA := { status := some p_rw_data.status }
  match event with
  | RW_T2T_READ_CPLT_EVT =>
    (nfa_rw_command_complete env (nfa_rw_send_data_to_upper p_rw_data w)).emit
      (Effect.nfa_dm_act_conn_cback_notify NFA_READ_CPLT_EVT conn_evt_data)
  | RW_T2T_WRITE_CPLT_EVT =>
    (nfa_rw_command_complete env w).emit
      (Effect.nfa_dm_act_conn_cback_notify NFA_WRITE_CPLT_EVT conn_evt_data)
  | RW_T2T_SELECT_CPLT_EVT =>
    (nfa_rw_command_complete env w).emit
      (Effect.nfa_dm_act_conn_cback_notify NFA_SELECT_CPLT_EVT conn_evt_data)
  | RW_T2T_NDEF_DETECT_EVT => nfa_rw_handle_ndef_detect env p_rw_data w
  | RW_T2T_TLV_DETECT_EVT => nfa_rw_handle_tlv_detect env p_rw_data w
  | RW_T2T_NDEF_READ_EVT =>
    let w1 := ndef_read_to_consumer p_rw_data w
    let w2 := w1.emit (Effect.nfa_dm_act_conn_cback_notify NFA_READ_CPLT_EVT conn_evt_data)
    nfa_rw_command_complete env (nfa_rw_free_ndef_rx_buf w2)
  | RW_T2T_NDEF_WRITE_EVT =>
    let w1 := update_cur_size_on_write (nfa_rw_command_complete env w)
    w1.emit (Effect.nfa_dm_act_conn_cback_notify NFA_WRITE_CPLT_EVT
      { status := some (ok_or_failed p_rw_data.status) })
  | RW_T2T_SET_TAG_RO_EVT =>
    (nfa_rw_command_complete env w).emit
      (Effect.nfa_dm_act_conn_cback_notify NFA_SET_TAG_RO_EVT conn_evt_data)
  | RW_T2T_RAW_FRAME_EVT =>
    nfa_rw_command_complete env (nfa_rw_send_data_to_upper p_rw_data w)
  | RW_T2T_PRESENCE_CHECK_EVT => nfa_rw_handle_presence_check_rsp env p_rw_data.status w
  | RW_T2T_FORMAT_CPLT_EVT =>
    let w1 : World :=
      if p_rw_data.status = OK then
        { w with cb := { w.cb with ndef_st := NFA_RW_NDEF_ST_UNKNOWN } }
      else w
    (nfa_rw_command_complete env w1).emit
      (Effect.nfa_dm_act_conn_cback_notify NFA_FORMAT_CPLT_EVT conn_evt_data)
  | RW_T2T_INTF_ERROR_EVT =>
    w.emit (Effect.nfa_dm_act_conn_cback_notify NFA_RW_INTF_ERROR_EVT conn_evt_data)
  | tRW_T2T_EVT.OTHER => w

/-! ## Type-3, Type-4 and ISO 15693 event translators -/

/-- Function `nfa_rw_handle_t3t_evt`, handler of the Type-3 engine events. -/
def nfa_rw_handle_t3t_evt (env : Env) (event : tRW_T3T_EVT) (p_rw_data : tRW_DATA)
    (w : World) : World :=
  match event with
  | RW_T3T_NDEF_DETECT_EVT => nfa_rw_handle_ndef_detect env p_rw_data w
  | RW_T3T_UPDATE_CPLT_EVT =>
    let w1 := update_cur_size_on_write (nfa_rw_command_complete env w)
    w1.emit (Effect.nfa_dm_act_conn_cback_notify NFA_WRITE_CPLT_EVT
      { status := some (ok_or_failed p_rw_data.status) })
  | RW_T3T_CHECK_CPLT_EVT =>
    let w1 := ndef_read_to_consumer p_rw_data w
    let w2 := nfa_rw_free_ndef_rx_buf w1
    (nfa_rw_command_complete env w2).emit
      (Effect.nfa_dm_act_conn_cback_notify NFA_READ_CPLT_EVT { status := some p_rw_data.status })
  | RW_T3T_CHECK_EVT =>
    if w.cb.cur_op = NFA_RW_OP_READ_NDEF then nfa_rw_store_ndef_rx_buf p_rw_data w
    else nfa_rw_send_data_to_upper p_rw_data w
  | RW_T3T_RAW_FRAME_EVT =>
    nfa_rw_command_complete env (nfa_rw_send_data_to_upper p_rw_data w)
  | RW_T3T_PRESENCE_CHECK_EVT => nfa_rw_handle_presence_check_rsp env p_rw_data.status w
  | RW_T3T_GET_SYSTEM_CODES_EVT =>
    let w1 := nfa_rw_command_complete env w
    let tag_params : tNFA_TAG_PARAMS :=
      if p_rw_data.status = OK then
        { t3t_num_system_codes := p_rw_data.t3t_sc_num_system_codes,
          t3t_p_system_codes := p_rw_data.t3t_sc_p_system_codes }
      else { t3t_num_system_codes := 0, t3t_p_system_codes := none }
    w1.emit (Effect.nfa_dm_notify_activation_status OK (some tag_params))
  | RW_T3T_FORMAT_CPLT_EVT =>
    (nfa_rw_command_complete env w).emit
      (Effect.nfa_dm_act_conn_cback_notify NFA_FORMAT_CPLT_EVT
        { status := some (ok_or_failed p_rw_data.status) })
  | RW_T3T_INTF_ERROR_EVT =>
    w.emit (Effect.nfa_dm_act_conn_cback_notify NFA_RW_INTF_ERROR_EVT
      { status := some p_rw_data.status })
  | tRW_T3T_EVT.OTHER => w

/-- Set the current operation to `NFA_RW_OP_MAX` ("clear current operation"). -/
def clear_cur_op (w : World) : World :=
  { w with cb := { w.cb with cur_op := NFA_RW_OP_MAX } }

/-- The notification of an interface error in the Type-4 and ISO 15693
handlers: keyed to the current operation, with the completion status. -/
def intf_error_notify (env : Env) (status : tNFC_STATUS) (w : World) : World :=
  if w.cb.cur_op = NFA_RW_OP_READ_NDEF then
    w.emit (Effect.nfa_dm_act_conn_cback_notify NFA_READ_CPLT_EVT { status := some status })
  else if w.cb.cur_op = NFA_RW_OP_WRITE_NDEF then
    w.emit (Effect.nfa_dm_act_conn_cback_notify NFA_WRITE_CPLT_EVT { status := some status })
  else if w.cb.cur_op = NFA_RW_OP_DETECT_NDEF then
    w.emit (Effect.nfa_dm_act_conn_cback_notify NFA_NDEF_DETECT_EVT
      { status := some status, cur_size := some 0, max_size := some 0,
        flags := some env.RW_NDEF_FL_UNKNOWN })
  else
    w.emit (Effect.nfa_dm_act_conn_cback_notify NFA_RW_INTF_ERROR_EVT { status := some status })

/-- The cleanup of an interface error in the Type-4 and ISO 15693 handlers that
precedes command complete: failure to the NDEF consumer and release of the
buffer for read-ndef, update of the current size for write-ndef. -/
def intf_error_cleanup (w : World) : World :=
  if w.cb.cur_op = NFA_RW_OP_READ_NDEF then
    nfa_rw_free_ndef_rx_buf (w.emit (Effect.nfa_dm_ndef_handle_message FAILED none 0))
  else if w.cb.cur_op = NFA_RW_OP_WRITE_NDEF then
    { w with cb := { w.cb with ndef_cur_size := w.cb.ndef_wr_len } }
  else w

/-- The read completion of the Type-4 and ISO 15693 handlers before command
complete: final segment, message to the NDEF consumer and release of the buffer
for read-ndef, data to the upper layer otherwise. -/
def ndef_read_cplt (p_rw_data : tRW_DATA) (w : World) : World :=
  if w.cb.cur_op = NFA_RW_OP_READ_NDEF then
    let w1 := nfa_rw_store_ndef_rx_buf p_rw_data w
    let w2 := w1.emit
      (Effect.nfa_dm_ndef_handle_message OK w1.cb.p_ndef_buf w1.cb.ndef_cur_size)
    nfa_rw_free_ndef_rx_buf w2
  else nfa_rw_send_data_to_upper p_rw_data w

/-- The read failure of the Type-4 and ISO 15693 handlers before command
complete. -/
def ndef_read_fail (w : World) : World :=
  if w.cb.cur_op = NFA_RW_OP_READ_NDEF then
    nfa_rw_free_ndef_rx_buf (w.emit (Effect.nfa_dm_ndef_handle_message FAILED none 0))
  else w

/-- Function `nfa_rw_handle_t4t_evt`, handler of the Type-4 engine events. -/
def nfa_rw_handle_t4t_evt (env : Env) (event : tRW_T4T_EVT) (p_rw_data : tRW_DATA)
    (w : World) : World :=
  match event with
  | RW_T4T_NDEF_DETECT_EVT => nfa_rw_handle_ndef_detect env p_rw_data w
  | RW_T4T_NDEF_FORMAT_CPLT_EVT =>
    if env.NXP_EXT then
      let w1 := clear_cur_op (nfa_rw_command_complete env w)
      let w2 : World :=
        { w1 with cb := { w1.cb with
                          ndef_cur_size := p_rw_data.cur_size
                          ndef_max_size := p_rw_data.max_size } }
      w2.emit (Effect.nfa_dm_act_conn_cback_notify NFA_FORMAT_CPLT_EVT
        { status := some (ok_or_failed p_rw_data.status) })
    else w
  | RW_T4T_NDEF_READ_EVT =>
    if w.cb.cur_op = NFA_RW_OP_READ_NDEF then nfa_rw_store_ndef_rx_buf p_rw_data w
    else nfa_rw_send_data_to_upper p_rw_data w
  | RW_T4T_NDEF_READ_CPLT_EVT =>
    (clear_cur_op (nfa_rw_command_complete env (ndef_read_cplt p_rw_data w))).emit
      (Effect.nfa_dm_act_conn_cback_notify NFA_READ_CPLT_EVT { status := some OK })
  | RW_T4T_NDEF_READ_FAIL_EVT =>
    (clear_cur_op (nfa_rw_command_complete env (ndef_read_fail w))).emit
      (Effect.nfa_dm_act_conn_cback_notify NFA_READ_CPLT_EVT { status := some FAILED })
  | RW_T4T_NDEF_UPDATE_CPLT_EVT =>
    (clear_cur_op (nfa_rw_command_complete env (update_cur_size_on_write w))).emit
      (Effect.nfa_dm_act_conn_cback_notify NFA_WRITE_CPLT_EVT { status := some OK })
  | RW_T4T_NDEF_UPDATE_FAIL_EVT =>
    (clear_cur_op (nfa_rw_command_complete env (update_cur_size_on_write w))).emit
      (Effect.nfa_dm_act_conn_cback_notify NFA_WRITE_CPLT_EVT { status := some FAILED })
  | RW_T4T_RAW_FRAME_EVT =>
    clear_cur_op (nfa_rw_command_complete env (nfa_rw_send_data_to_upper p_rw_data w))
  | RW_T4T_INTF_ERROR_EVT =>
    clear_cur_op
      (intf_error_notify env p_rw_data.status
        (nfa_rw_command_complete env (intf_error_cleanup w)))
  | RW_T4T_PRESENCE_CHECK_EVT => nfa_rw_handle_presence_check_rsp env p_rw_data.status w
  | tRW_T4T_EVT.OTHER => w

/-- Clear the flag `NFA_RW_FL_ACTIVATION_NTF_PENDING`. -/
def clear_activation_ntf_pending (w : World) : World :=
  w.setFlags { w.cb.flags with NFA_RW_FL_ACTIVATION_NTF_PENDING := false }

/-- Function `nfa_rw_handle_i93_evt`, handler of the ISO 15693 engine events.
Two places of the C code are undefined for some inputs and are total here: the
quotient and the remainder by `i93_block_size` (zero gives 0 and the dividend,
as in Lean) and the bytes of a `NULL` data buffer (read as the empty list; a
byte beyond the received data is `none`). -/
def nfa_rw_handle_i93_evt (env : Env) (event : tRW_I93_EVT) (p_rw_data : tRW_DATA)
    (w : World) : World :=
  match event with
  | RW_I93_NDEF_DETECT_EVT => nfa_rw_handle_ndef_detect env p_rw_data w
  | RW_I93_NDEF_READ_EVT =>
    if w.cb.cur_op = NFA_RW_OP_READ_NDEF then nfa_rw_store_ndef_rx_buf p_rw_data w
    else nfa_rw_send_data_to_upper p_rw_data w
  | RW_I93_NDEF_READ_CPLT_EVT =>
    (clear_cur_op (nfa_rw_command_complete env (ndef_read_cplt p_rw_data w))).emit
      (Effect.nfa_dm_act_conn_cback_notify NFA_READ_CPLT_EVT { status := some OK })
  | RW_I93_NDEF_READ_FAIL_EVT =>
    (clear_cur_op (nfa_rw_command_complete env (ndef_read_fail w))).emit
      (Effect.nfa_dm_act_conn_cback_notify NFA_READ_CPLT_EVT { status := some FAILED })
  | RW_I93_NDEF_UPDATE_CPLT_EVT =>
    (clear_cur_op (nfa_rw_command_complete env (update_cur_size_on_write w))).emit
      (Effect.nfa_dm_act_conn_cback_notify NFA_WRITE_CPLT_EVT { status := some OK })
  | RW_I93_NDEF_UPDATE_FAIL_EVT =>
    (clear_cur_op (nfa_rw_command_complete env (update_cur_size_on_write w))).emit
      (Effect.nfa_dm_act_conn_cback_notify NFA_WRITE_CPLT_EVT { status := some FAILED })
  | RW_I93_RAW_FRAME_EVT =>
    nfa_rw_command_complete env (nfa_rw_send_data_to_upper p_rw_data w)
  | RW_I93_INTF_ERROR_EVT =>
    if w.cb.flags.NFA_RW_FL_ACTIVATION_NTF_PENDING then
      let w1 := nfa_rw_command_complete env (clear_activation_ntf_pending w)
      clear_cur_op (w1.emit (Effect.nfa_dm_notify_activation_status OK
        (some { i93_info_flags := some 0, i93_uid := some w1.cb.i93_uid, i93_dsfid := some 0,
                i93_afi := some 0, i93_block_size := some 0, i93_num_block := some 0,
                i93_IC_reference := some 0, t1t_hr := none, t1t_uid := none })))
    else
      clear_cur_op
        (intf_error_notify env p_rw_data.status
          (nfa_rw_command_complete env (intf_error_cleanup w)))
  | RW_I93_PRESENCE_CHECK_EVT => nfa_rw_handle_presence_check_rsp env p_rw_data.status w
  | RW_I93_FORMAT_CPLT_EVT =>
    let w1 : World :=
      if p_rw_data.status = OK then
        { w with cb := { w.cb with ndef_st := NFA_RW_NDEF_ST_UNKNOWN } }
      else w
    (clear_cur_op (nfa_rw_command_complete env w1)).emit
      (Effect.nfa_dm_act_conn_cback_notify NFA_FORMAT_CPLT_EVT { status := some p_rw_data.status })
  | RW_I93_SET_TAG_RO_EVT =>
    let w1 := w.setFlags { w.cb.flags with NFA_RW_FL_TAG_IS_READONLY := true }
    (clear_cur_op (nfa_rw_command_complete env w1)).emit
      (Effect.nfa_dm_act_conn_cback_notify NFA_SET_TAG_RO_EVT { status := some p_rw_data.status })
  | RW_I93_INVENTORY_EVT =>
    let w1 := nfa_rw_command_complete env w
    if w1.cb.flags.NFA_RW_FL_ACTIVATION_NTF_PENDING then
      let r := rw_call env
        (tRW_I93_CALL.RW_I93ReadSingleBlock
          ((w1.cb.i93_afi_location / w1.cb.i93_block_size) % 256)) w1
      if r.1 ≠ OK then
        let w2 := clear_activation_ntf_pending r.2
        clear_cur_op (w2.emit (Effect.nfa_dm_notify_activation_status OK
          (some { i93_info_flags := some (env.I93_INFO_FLAG_DSFID ||| env.I93_INFO_FLAG_MEM_SIZE),
                  i93_dsfid := some p_rw_data.i93_inventory_dsfid,
                  i93_block_size := some w2.cb.i93_block_size,
                  i93_num_block := some w2.cb.i93_num_block,
                  i93_uid := some w2.cb.i93_uid })))
      else
        { r.2 with cb := { r.2.cb with i93_dsfid := p_rw_data.i93_inventory_dsfid } }
    else
      clear_cur_op (w1.emit (Effect.nfa_dm_act_conn_cback_notify NFA_I93_CMD_CPLT_EVT
        { status := some p_rw_data.status, sent_command := some I93_CMD_INVENTORY,
          inventory_dsfid := some p_rw_data.i93_inventory_dsfid,
          inventory_uid := some p_rw_data.i93_inventory_uid }))
  | RW_I93_DATA_EVT =>
    let w1 := nfa_rw_command_complete env w
    let data := (p_rw_data.p_data.map (fun h => h.payload)).getD []
    let w2 : World :=
      if w1.cb.flags.NFA_RW_FL_ACTIVATION_NTF_PENDING then
        let w1a := clear_activation_ntf_pending w1
        w1a.emit (Effect.nfa_dm_notify_activation_status OK
          (some { i93_info_flags := some (env.I93_INFO_FLAG_DSFID ||| env.I93_INFO_FLAG_MEM_SIZE
                    ||| env.I93_INFO_FLAG_AFI),
                  i93_afi := data.get? (w1a.cb.i93_afi_location % w1a.cb.i93_block_size),
                  i93_dsfid := some w1a.cb.i93_dsfid,
                  i93_block_size := some w1a.cb.i93_block_size,
                  i93_num_block := some w1a.cb.i93_num_block,
                  i93_uid := some w1a.cb.i93_uid }))
      else
        w1.emit (Effect.nfa_dm_act_conn_cback_notify NFA_DATA_EVT { data := some data })
    let w3 : World :=
      match p_rw_data.p_data with
      | some hdr => w2.emit (Effect.GKI_freebuf (tGKI_BUF.data hdr))
      | none => w2
    clear_cur_op w3
  | RW_I93_SYS_INFO_EVT =>
    let w1 := nfa_rw_command_complete env w
    let w2 : World :=
      { w1 with cb := { w1.cb with
                        i93_block_size := p_rw_data.i93_sys_info.block_size
                        i93_num_block := p_rw_data.i93_sys_info.num_block } }
    if w1.cb.flags.NFA_RW_FL_ACTIVATION_NTF_PENDING then
      clear_cur_op ((clear_activation_ntf_pending w2).emit
        (Effect.nfa_dm_notify_activation_status OK
          (some { i93_info_flags := some p_rw_data.i93_sys_info.info_flags,
                  i93_dsfid := some p_rw_data.i93_sys_info.dsfid,
                  i93_afi := some p_rw_data.i93_sys_info.afi,
                  i93_num_block := some p_rw_data.i93_sys_info.num_block,
                  i93_block_size := some p_rw_data.i93_sys_info.block_size,
                  i93_IC_reference := some p_rw_data.i93_sys_info.IC_reference,
                  i93_uid := some p_rw_data.i93_sys_info.uid })))
    else
      clear_cur_op (w2.emit (Effect.nfa_dm_act_conn_cback_notify NFA_I93_CMD_CPLT_EVT
        { status := some p_rw_data.status, sent_command := some I93_CMD_GET_SYS_INFO,
          sys_info := some p_rw_data.i93_sys_info }))
  | RW_I93_CMD_CMPL_EVT =>
    clear_cur_op ((nfa_rw_command_complete env w).emit
      (Effect.nfa_dm_act_conn_cback_notify NFA_I93_CMD_CPLT_EVT
        { status := some p_rw_data.status,
          sent_command := some p_rw_data.i93_cmd_cmpl_command,
          error_code := if p_rw_data.status ≠ OK then some p_rw_data.i93_cmd_cmpl_error_code
                        else none }))
  | tRW_I93_EVT.OTHER => w

/-! ## Completion router and deactivation -/

/-- Function `nfa_rw_cback`, the callback given to the engine: route the event to
the handler of its family. -/
def nfa_rw_cback (env : Env) (event : tRW_EVENT) (p_rw_data : tRW_DATA) (w : World) : World :=
  match event with
  | tRW_EVENT.t1t e => nfa_rw_handle_t1t_evt env e p_rw_data w
  | tRW_EVENT.t2t e => nfa_rw_handle_t2t_evt env e p_rw_data w
  | tRW_EVENT.t3t e => nfa_rw_handle_t3t_evt env e p_rw_data w
  | tRW_EVENT.t4t e => nfa_rw_handle_t4t_evt env e p_rw_data w
  | tRW_EVENT.i93 e => nfa_rw_handle_i93_evt env e p_rw_data w
  | tRW_EVENT.OTHER => w

/-- Function `nfa_rw_deactivate_ntf`, handler of the deactivation notification. -/
def nfa_rw_deactivate_ntf (w : World) : Bool × World :=
  let w1 := w.setFlags { w.cb.flags with NFA_RW_FL_ACTIVATED := false }
  let w2 := nfa_rw_free_ndef_rx_buf w1
  let w3 : World :=
    match w2.cb.p_pending_msg with
    | some m =>
      { (w2.emit (Effect.GKI_freebuf (tGKI_BUF.pending_msg m))) with
        cb := { w2.cb with p_pending_msg := none } }
    | none => w2
  (true, nfa_rw_stop_presence_check_timer w3)

/-! ## Activation -/

/-- The `switch (nfa_rw_cb.protocol)` of `nfa_rw_activate_ntf`, reached after a
successful engine initialisation.  The first component is the tag parameters
to report when `activate_notify` is still TRUE at the end of the switch, and
`none` when the notification is delayed.  `tag_params` has been cleared with
`memset`; the record shows the members the source copies into it.  The request
`msg` is a local variable of which the source assigns only the members shown
here; the handlers of the four operations read no other member.  A byte of
`i93_uid` that the macro did not write is read as 0. -/
def nfa_rw_activate_ntf_switch (env : Env) (p : tNFC_ACTIVATE_DEVT) (w : World) :
    Option tNFA_TAG_PARAMS × World :=
  match w.cb.protocol with
  | NFC_PROTOCOL_T1T =>
    if env.NXP_EXT then
      (none, (nfa_rw_handle_op_req env { op := NFA_RW_OP_T1T_RID } w).2)
    else
      (some { t1t_hr := some (p.intf_frame_param.take env.NFA_T1T_HR_LEN),
              t1t_uid := some p.pa_nfcid1 }, w)
  | NFC_PROTOCOL_T2T => (some { t2t_uid := some p.pa_nfcid1 }, w)
  | NFC_PROTOCOL_T3T =>
    (none, (nfa_rw_handle_op_req env { op := NFA_RW_OP_T3T_GET_SYSTEM_CODES } w).2)
  | NFC_PROTOCOL_15693 =>
    let uid := env.ARRAY8_TO_STREAM p.pi93_uid
    let w1 : World :=
      { w with cb := { w.cb with
                       flags := { w.cb.flags with NFA_RW_FL_ACTIVATION_NTF_PENDING := true }
                       i93_uid := uid } }
    if uid.getD 1 0 = env.I93_UID_IC_MFG_CODE_TI
        ∧ ((uid.getD 2 0 &&& env.I93_UID_TAG_IT_HF_I_PRODUCT_ID_MASK)
              = env.I93_UID_TAG_IT_HF_I_STD_CHIP_INLAY
            ∨ (uid.getD 2 0 &&& env.I93_UID_TAG_IT_HF_I_PRODUCT_ID_MASK)
              = env.I93_UID_TAG_IT_HF_I_PRO_CHIP_INLAY) then
      let w2 : World :=
        { w1 with cb := { w1.cb with
                          i93_block_size := env.I93_TAG_IT_HF_I_STD_PRO_CHIP_INLAY_BLK_SIZE
                          i93_afi_location := env.I93_TAG_IT_HF_I_STD_PRO_CHIP_INLAY_AFI_LOCATION
                          i93_num_block :=
                            if (uid.getD 2 0 &&& env.I93_UID_TAG_IT_HF_I_PRODUCT_ID_MASK)
                                = env.I93_UID_TAG_IT_HF_I_STD_CHIP_INLAY then
                              env.I93_TAG_IT_HF_I_STD_CHIP_INLAY_NUM_TOTAL_BLK
                            else env.I93_TAG_IT_HF_I_PRO_CHIP_INLAY_NUM_TOTAL_BLK } }
      (none,
        (nfa_rw_handle_op_req env
          { op := NFA_RW_OP_I93_INVENTORY
            params := { i93_cmd := { uid_present := true, uid := uid, afi := 0 } } } w2).2)
    else
      let w2 : World :=
        { w1 with cb := { w1.cb with i93_block_size := 0, i93_num_block := 0 } }
      (none,
        (nfa_rw_handle_op_req env
          { op := NFA_RW_OP_I93_GET_SYS_INFO
            params := { i93_cmd := { uid_present := true, uid := uid } } } w2).2)
  | _ => (some {}, w)

/-- Function `nfa_rw_activate_ntf`, handler of the activation notification. -/
def nfa_rw_activate_ntf (env : Env) (p_data : tNFA_RW_ACTIVATE_NTF) (w : World) :
    Bool × World :=
  let p := p_data.p_activate_params
  let w1 : World :=
    { w with cb := { w.cb with
                     protocol := p.protocol
                     pa_sel_res := p.pa_sel_rsp
                     flags := { NFA_RW_FL_ACTIVATED := true, NFA_RW_FL_API_BUSY := false,
                                NFA_RW_FL_AUTO_PRESENCE_CHECK_BUSY := false,
                                NFA_RW_FL_NOT_EXCL_RF_MODE := p_data.excl_rf_not_active,
                                NFA_RW_FL_TAG_IS_READONLY := false,
                                NFA_RW_FL_ACTIVATION_NTF_PENDING := false }
                     cur_op := NFA_RW_OP_MAX
                     ndef_st := NFA_RW_NDEF_ST_UNKNOWN
                     tlv_st := NFA_RW_TLV_DETECT_ST_OP_NOT_STARTED } }
  if env.nfa_dm_is_protocol_supported p.protocol p.pa_sel_rsp = false then
    let w2 := w1.emit
      (Effect.NFC_SetStaticRfCback (some tNFC_CONN_CBACK.nfa_rw_raw_mode_data_cback))
    let w3 := w2.emit (Effect.nfa_dm_notify_activation_status OK none)
    (true, nfa_rw_check_start_presence_check_timer env w3)
  else
    let w2 := w1.emit (Effect.RW_SetActivatedTagType p)
    if env.RW_SetActivatedTagType p ≠ OK then (true, w2)
    else
      let r := nfa_rw_activate_ntf_switch env p w2
      match r.1 with
      | some tag_params =>
        (true,
          nfa_rw_check_start_presence_check_timer env
            (r.2.emit (Effect.nfa_dm_notify_activation_status OK (some tag_params))))
      | none => (true, r.2)

/-! ## Observations on traces -/

/-- The engine calls of a trace, in order. -/
def callsOf : List Effect → List tRW_CALL
  | [] => []
  | Effect.call c :: t => c :: callsOf t
  | _ :: t => callsOf t

/-- The application notifications (`nfa_dm_act_conn_cback_notify`) of a trace. -/
def notifsOf : List Effect → List (tNFA_CONN_EVT × tNFA_CONN_EVT_DATA)
  | [] => []
  | Effect.nfa_dm_act_conn_cback_notify e d :: t => (e, d) :: notifsOf t
  | _ :: t => notifsOf t

/-- The part of the trace of `w` that was appended after the moment `w0`. -/
def World.since (w w0 : World) : List Effect :=
  w.out.drop w0.out.length

/-- Whether an action is an allocation request for the read buffer. -/
def Effect.isAlloc : Effect → Bool
  | Effect.nfa_mem_co_alloc _ => true
  | _ => false

/-- Whether an action is a store outside the read buffer. -/
def Effect.isOutOfBounds : Effect → Bool
  | Effect.store_out_of_bounds _ _ => true
  | _ => false

/-! ## The busy-rejection table as the specification words it -/

/-- Busy-rejection mapping of the specification (section 4.2): request kind to
notification kind; `none` for a kind the table does not list. -/
def spec_busy_rejection_kind : tNFA_RW_OP → Option tNFA_CONN_EVT
  | NFA_RW_OP_DETECT_NDEF => some NFA_NDEF_DETECT_EVT
  | NFA_RW_OP_READ_NDEF => some NFA_READ_CPLT_EVT
  | NFA_RW_OP_T1T_RID => some NFA_READ_CPLT_EVT
  | NFA_RW_OP_T1T_RALL => some NFA_READ_CPLT_EVT
  | NFA_RW_OP_T1T_READ => some NFA_READ_CPLT_EVT
  | NFA_RW_OP_T1T_RSEG => some NFA_READ_CPLT_EVT
  | NFA_RW_OP_T1T_READ8 => some NFA_READ_CPLT_EVT
  | NFA_RW_OP_T2T_READ => some NFA_READ_CPLT_EVT
  | NFA_RW_OP_T3T_READ => some NFA_READ_CPLT_EVT
  | NFA_RW_OP_WRITE_NDEF => some NFA_WRITE_CPLT_EVT
  | NFA_RW_OP_T1T_WRITE => some NFA_WRITE_CPLT_EVT
  | NFA_RW_OP_T1T_WRITE8 => some NFA_WRITE_CPLT_EVT
  | NFA_RW_OP_T2T_WRITE => some NFA_WRITE_CPLT_EVT
  | NFA_RW_OP_T3T_WRITE => some NFA_WRITE_CPLT_EVT
  | NFA_RW_OP_FORMAT_TAG => some NFA_FORMAT_CPLT_EVT
  | NFA_RW_OP_DETECT_LOCK_TLV => some NFA_TLV_DETECT_EVT
  | NFA_RW_OP_DETECT_MEM_TLV => some NFA_TLV_DETECT_EVT
  | NFA_RW_OP_SET_TAG_RO => some NFA_SET_TAG_RO_EVT
  | NFA_RW_OP_T2T_SECTOR_SELECT => some NFA_SELECT_CPLT_EVT
  | NFA_RW_OP_I93_INVENTORY => some NFA_I93_CMD_CPLT_EVT
  | NFA_RW_OP_I93_STAY_QUIET => some NFA_I93_CMD_CPLT_EVT
  | NFA_RW_OP_I93_READ_SINGLE_BLOCK => some NFA_I93_CMD_CPLT_EVT
  | NFA_RW_OP_I93_WRITE_SINGLE_BLOCK => some NFA_I93_CMD_CPLT_EVT
  | NFA_RW_OP_I93_LOCK_BLOCK => some NFA_I93_CMD_CPLT_EVT
  | NFA_RW_OP_I93_READ_MULTI_BLOCK => some NFA_I93_CMD_CPLT_EVT
  | NFA_RW_OP_I93_WRITE_MULTI_BLOCK => some NFA_I93_CMD_CPLT_EVT
  | NFA_RW_OP_I93_SELECT => some NFA_I93_CMD_CPLT_EVT
  | NFA_RW_OP_I93_RESET_TO_READY => some NFA_I93_CMD_CPLT_EVT
  | NFA_RW_OP_I93_WRITE_AFI => some NFA_I93_CMD_CPLT_EVT
  | NFA_RW_OP_I93_LOCK_AFI => some NFA_I93_CMD_CPLT_EVT
  | NFA_RW_OP_I93_WRITE_DSFID => some NFA_I93_CMD_CPLT_EVT
  | NFA_RW_OP_I93_LOCK_DSFID => some NFA_I93_CMD_CPLT_EVT
  | NFA_RW_OP_I93_GET_SYS_INFO => some NFA_I93_CMD_CPLT_EVT
  | NFA_RW_OP_I93_GET_MULTI_BLOCK_STATUS => some NFA_I93_CMD_CPLT_EVT
  | NFA_RW_OP_SEND_RAW_FRAME => none
  | NFA_RW_OP_PRESENCE_CHECK => none
  | NFA_RW_OP_T3T_GET_SYSTEM_CODES => none
  | NFA_RW_OP_MAX => none

/-- Event data of a synthetic busy response as the specification words it:
status BUSY, and for NDEF detection current size 0, maximum size 0 and the
flags value "unknown". -/
def spec_busy_rejection_data (env : Env) : tNFA_RW_OP → tNFA_CONN_EVT_DATA
  | NFA_RW_OP_DETECT_NDEF =>
    { status := some BUSY, cur_size := some 0, max_size := some 0,
      flags := some env.RW_NDEF_FL_UNKNOWN }
  | _ => { status := some BUSY }

/-! ## Concrete inputs used by the closed statements -/

/-- An environment in which every collaborator accepts and every protocol is
supported by the engine; the constants are sample values. -/
def envAccept : Env :=
  { NXP_EXT := false, NFA_DM_AUTO_PRESENCE_CHECK := true, NFC_SEL_RES_NFC_FORUM_T2T := 0,
    RW_NDEF_FL_READ_ONLY := 1, RW_NDEF_FL_UNKNOWN := 8,
    T1T_HR_LEN := 2, T1T_CMD_UID_LEN := 4,
    I93_INFO_FLAG_DSFID := 1, I93_INFO_FLAG_MEM_SIZE := 4, I93_INFO_FLAG_AFI := 2,
    NFA_T1T_HR_LEN := 2, I93_UID_IC_MFG_CODE_TI := 7,
    I93_UID_TAG_IT_HF_I_PRODUCT_ID_MASK := 240, I93_UID_TAG_IT_HF_I_STD_CHIP_INLAY := 0,
    I93_UID_TAG_IT_HF_I_PRO_CHIP_INLAY := 192,
    I93_TAG_IT_HF_I_STD_PRO_CHIP_INLAY_BLK_SIZE := 4,
    I93_TAG_IT_HF_I_STD_PRO_CHIP_INLAY_AFI_LOCATION := 40,
    I93_TAG_IT_HF_I_STD_CHIP_INLAY_NUM_TOTAL_BLK := 11,
    I93_TAG_IT_HF_I_PRO_CHIP_INLAY_NUM_TOTAL_BLK := 12,
    ARRAY8_TO_STREAM := List.reverse,
    rw := fun _ => OK, nfa_mem_co_alloc := fun _ => true, NDEF_MsgValidate := fun _ _ => true,
    nfa_dm_is_protocol_supported := fun _ _ => true, RW_SetActivatedTagType := fun _ => OK }

/-- An environment whose allocator has no memory left; the engine accepts. -/
def envNoMem : Env :=
  { envAccept with nfa_mem_co_alloc := fun _ => false }

/-- Control block of a freshly activated Type-1 tag, as `nfa_rw_activate_ntf`
initialises it, outside exclusive RF mode. -/
def cbIdle : tNFA_RW_CB :=
  { protocol := NFC_PROTOCOL_T1T, pa_sel_res := 0,
    flags := { NFA_RW_FL_ACTIVATED := true, NFA_RW_FL_API_BUSY := false,
               NFA_RW_FL_AUTO_PRESENCE_CHECK_BUSY := false, NFA_RW_FL_NOT_EXCL_RF_MODE := true,
               NFA_RW_FL_TAG_IS_READONLY := false, NFA_RW_FL_ACTIVATION_NTF_PENDING := false },
    cur_op := NFA_RW_OP_MAX, ndef_st := NFA_RW_NDEF_ST_UNKNOWN,
    tlv_st := NFA_RW_TLV_DETECT_ST_OP_NOT_STARTED,
    ndef_cur_size := 0, ndef_max_size := 0, p_ndef_wr_buf := [], ndef_wr_len := 0,
    p_ndef_buf := none, ndef_rd_offset := 0, p_pending_msg := none, b_hard_lock := false,
    i93_uid := [], i93_block_size := 0, i93_num_block := 0, i93_afi_location := 0,
    i93_dsfid := 0 }

/-- An idle activated session with an empty trace. -/
def wIdle : World := { cb := cbIdle, out := [] }

/-- An activated session with an operation in flight (Busy set). -/
def wBusy : World :=
  { cb := { cbIdle with
            cur_op := NFA_RW_OP_WRITE_NDEF
            flags := { cbIdle.flags with NFA_RW_FL_API_BUSY := true } }
    out := [] }

/-- An activated session in which Busy and AutoPresenceCheckBusy are both set
and nothing is queued. -/
def wBusyAuto : World :=
  { cb := { cbIdle with
            cur_op := NFA_RW_OP_PRESENCE_CHECK
            flags := { cbIdle.flags with
                       NFA_RW_FL_API_BUSY := true
                       NFA_RW_FL_AUTO_PRESENCE_CHECK_BUSY := true } }
    out := [] }

/-- An activated session with an automatic presence check outstanding, Busy
clear and nothing queued: the state `nfa_rw_presence_check_tick` leaves. -/
def wAuto : World :=
  { cb := { cbIdle with
            cur_op := NFA_RW_OP_PRESENCE_CHECK
            flags := { cbIdle.flags with NFA_RW_FL_AUTO_PRESENCE_CHECK_BUSY := true } }
    out := [] }

/-! ## Further states and inputs named in the statements -/

/-- The session in which a deferred request is dispatched after an automatic
presence check answered OK: command complete has run (Busy clear, timer
restarted if applicable), AutoPresenceCheckBusy is clear and the pending slot
is empty. -/
def resumeState (env : Env) (w : World) : World :=
  let w1 := nfa_rw_command_complete env w
  { cb := { w1.cb with
            p_pending_msg := none
            flags := { w1.cb.flags with NFA_RW_FL_AUTO_PRESENCE_CHECK_BUSY := false } }
    out := w1.out }

/-- The session in which the handler of an admitted request starts: Busy set,
timer stopped, current operation recorded. -/
def executeState (p_data : tNFA_RW_OPERATION) (w : World) : World :=
  { cb := { w.cb with
            cur_op := p_data.op
            flags := { w.cb.flags with NFA_RW_FL_API_BUSY := true } }
    out := w.out ++ [Effect.nfa_sys_stop_timer] }

/-- An idle activated session whose detection succeeded with a message of 5
bytes and room for 100. -/
def wDetected : World :=
  { cb := { cbIdle with
            ndef_st := NFA_RW_NDEF_ST_TRUE
            ndef_cur_size := 5
            ndef_max_size := 100 }
    out := [] }

/-- A write request of 150 bytes. -/
def reqWrite150 : tNFA_RW_OPERATION :=
  { op := NFA_RW_OP_WRITE_NDEF
    params := { write_ndef_len := 150, write_ndef_p_data := List.replicate 150 0 } }

/-- A session with a read-ndef operation in flight, waiting for the detection
completion. -/
def wReadDetecting : World :=
  { cb := { cbIdle with
            cur_op := NFA_RW_OP_READ_NDEF
            flags := { cbIdle.flags with NFA_RW_FL_API_BUSY := true } }
    out := [] }

/-- A session with a read-ndef operation in flight and a read buffer of 2 bytes,
nothing received yet. -/
def wReading2 : World :=
  { cb := { cbIdle with
            protocol := NFC_PROTOCOL_ISO_DEP
            cur_op := NFA_RW_OP_READ_NDEF
            ndef_st := NFA_RW_NDEF_ST_TRUE
            ndef_cur_size := 2
            ndef_max_size := 100
            p_ndef_buf := some [0, 0]
            ndef_rd_offset := 0
            flags := { cbIdle.flags with NFA_RW_FL_API_BUSY := true } }
    out := [] }

/-! ## Notions and inputs for the completion handlers -/

/-- The actions `nfa_rw_store_ndef_rx_buf` appends: the stores that fall outside
the buffer and the release of the segment. -/
def nfa_rw_store_ndef_rx_buf_trace (p_rw_data : tRW_DATA) (w : World) : List Effect :=
  match p_rw_data.p_data with
  | none => []
  | some hdr =>
    (ndef_buf_memcpy (w.cb.p_ndef_buf.getD []) w.cb.ndef_rd_offset hdr.payload).2.map
        (fun iv => Effect.store_out_of_bounds iv.1 iv.2)
      ++ [Effect.GKI_freebuf (tGKI_BUF.data hdr)]

/-- The read buffer is gone in `w` and it was released exactly once since `w0`. -/
def releasedOnce (w0 w : World) : Prop :=
  w.cb.p_ndef_buf = none ∧ (w.since w0).count Effect.nfa_mem_co_free = 1

/-- The notifications of a trace other than the forwarding of received data
(`NFA_DATA_EVT`). -/
def reportsOf : List Effect → List (tNFA_CONN_EVT × tNFA_CONN_EVT_DATA)
  | [] => []
  | Effect.nfa_dm_act_conn_cback_notify e d :: t =>
    if e = NFA_DATA_EVT then reportsOf t else (e, d) :: reportsOf t
  | _ :: t => reportsOf t

/-- An environment in which the engine rejects every call. -/
def envReject : Env :=
  { envAccept with rw := fun _ => FAILED }

/-- A Type-1 session with a read-ndef operation in flight and a read buffer of 2
bytes, nothing received yet. -/
def wReadingT1 : World :=
  { cb := { cbIdle with
            cur_op := NFA_RW_OP_READ_NDEF
            ndef_st := NFA_RW_NDEF_ST_TRUE
            ndef_cur_size := 2
            ndef_max_size := 100
            p_ndef_buf := some [0, 0]
            ndef_rd_offset := 0
            flags := { cbIdle.flags with NFA_RW_FL_API_BUSY := true } }
    out := [] }

/-- A Type-1 session with a write-ndef operation of 3 bytes in flight. -/
def wWritingT1 : World :=
  { cb := { cbIdle with
            cur_op := NFA_RW_OP_WRITE_NDEF
            ndef_st := NFA_RW_NDEF_ST_TRUE
            ndef_cur_size := 5
            ndef_max_size := 100
            p_ndef_wr_buf := [1, 2, 3]
            ndef_wr_len := 3
            flags := { cbIdle.flags with NFA_RW_FL_API_BUSY := true } }
    out := [] }

/-- A Type-1 session with a raw frame sent and its response outstanding (the
raw-frame request has already run command complete). -/
def wRawT1 : World :=
  { cb := { cbIdle with cur_op := NFA_RW_OP_SEND_RAW_FRAME }, out := [] }

/-- An idle activated ISO 15693 session whose detection succeeded. -/
def wDetectedI93 : World :=
  { cb := { cbIdle with
            protocol := NFC_PROTOCOL_15693
            ndef_st := NFA_RW_NDEF_ST_TRUE
            ndef_cur_size := 5
            ndef_max_size := 100 }
    out := [] }

/-- An idle activated Type-2 session with the NFC-Forum selector value whose
detection succeeded. -/
def wDetectedT2 : World :=
  { cb := { cbIdle with
            protocol := NFC_PROTOCOL_T2T
            ndef_st := NFA_RW_NDEF_ST_TRUE
            ndef_cur_size := 5
            ndef_max_size := 100 }
    out := [] }

/-- An idle activated Type-2 session whose selector value (8) is not the
NFC-Forum Type-2 value (0 in `envAccept`). -/
def wT2NonForum : World :=
  { cb := { cbIdle with protocol := NFC_PROTOCOL_T2T, pa_sel_res := 8 }, out := [] }

/-- An idle activated Type-3 session. -/
def wIdleT3 : World :=
  { cb := { cbIdle with protocol := NFC_PROTOCOL_T3T }, out := [] }

/-- An idle activated Type-4 session. -/
def wIdleT4 : World :=
  { cb := { cbIdle with protocol := NFC_PROTOCOL_ISO_DEP }, out := [] }

/-- A Type-1 session with a set-read-only operation in flight, waiting for the
completion of the lock-TLV locate probe. -/
def wSetRoLocating : World :=
  { cb := { cbIdle with
            cur_op := NFA_RW_OP_SET_TAG_RO
            ndef_st := NFA_RW_NDEF_ST_TRUE
            b_hard_lock := true
            flags := { cbIdle.flags with NFA_RW_FL_API_BUSY := true } }
    out := [] }

/-- A Type-1 write request of one byte to block 5. -/
def reqT1tWriteBlock5 : tNFA_RW_OPERATION :=
  { op := NFA_RW_OP_T1T_WRITE
    params := { t1t_write := { b_erase := true, block_number := 5, index := 0,
                               p_block_data := [7] } } }

/-- A Type-2 write request to block 4. -/
def reqT2tWriteBlock4 : tNFA_RW_OPERATION :=
  { op := NFA_RW_OP_T2T_WRITE
    params := { t2t_write := { block_number := 4, p_block_data := [1, 2, 3, 4] } } }

/-- The actions `nfa_rw_send_data_to_upper` appends. -/
def nfa_rw_send_data_to_upper_trace (p_rw_data : tRW_DATA) : List Effect :=
  if p_rw_data.status = TIMEOUT then []
  else
    match p_rw_data.p_data with
    | none => []
    | some hdr =>
      [Effect.nfa_dm_act_conn_cback_notify NFA_DATA_EVT { data := some hdr.payload },
       Effect.GKI_freebuf (tGKI_BUF.data hdr)]

/-- The current operation is one of the three NDEF operations that the detection
completion reports to. -/
def isNdefOp (op : tNFA_RW_OP) : Bool :=
  op = NFA_RW_OP_READ_NDEF || op = NFA_RW_OP_WRITE_NDEF || op = NFA_RW_OP_DETECT_NDEF

/-- The current operation is one of the two stand-alone TLV detections. -/
def isTlvOp (op : tNFA_RW_OP) : Bool :=
  op = NFA_RW_OP_DETECT_LOCK_TLV || op = NFA_RW_OP_DETECT_MEM_TLV

/-- The completions for which the translators follow the failure policy
(command complete and exactly one failure report): the completions that end a
read, write, select, format, set-read-only or vicinity command, the NDEF and
TLV detection completions when the current operation is the one they report
to, and the interface error of Type-4 and of ISO 15693.  The ISO 15693
completions that serve the activation sequence are excluded while the
activation notification is pending. -/
def failure_policy_applies (event : tRW_EVENT) (cb : tNFA_RW_CB) : Bool :=
  match event with
  | tRW_EVENT.t1t e =>
    match e with
    | RW_T1T_RALL_CPLT_EVT | RW_T1T_READ_CPLT_EVT | RW_T1T_RSEG_CPLT_EVT
    | RW_T1T_READ8_CPLT_EVT | RW_T1T_WRITE_E_CPLT_EVT | RW_T1T_WRITE_NE_CPLT_EVT
    | RW_T1T_WRITE_E8_CPLT_EVT | RW_T1T_WRITE_NE8_CPLT_EVT | RW_T1T_NDEF_READ_EVT
    | RW_T1T_NDEF_WRITE_EVT | RW_T1T_SET_TAG_RO_EVT | RW_T1T_FORMAT_CPLT_EVT => true
    | RW_T1T_NDEF_DETECT_EVT => isNdefOp cb.cur_op
    | RW_T1T_TLV_DETECT_EVT => isTlvOp cb.cur_op
    | _ => false
  | tRW_EVENT.t2t e =>
    match e with
    | RW_T2T_READ_CPLT_EVT | RW_T2T_WRITE_CPLT_EVT | RW_T2T_SELECT_CPLT_EVT
    | RW_T2T_NDEF_READ_EVT | RW_T2T_NDEF_WRITE_EVT | RW_T2T_SET_TAG_RO_EVT
    | RW_T2T_FORMAT_CPLT_EVT => true
    | RW_T2T_NDEF_DETECT_EVT => isNdefOp cb.cur_op
    | RW_T2T_TLV_DETECT_EVT => isTlvOp cb.cur_op
    | _ => false
  | tRW_EVENT.t3t e =>
    match e with
    | RW_T3T_UPDATE_CPLT_EVT | RW_T3T_CHECK_CPLT_EVT | RW_T3T_FORMAT_CPLT_EVT => true
    | RW_T3T_NDEF_DETECT_EVT => isNdefOp cb.cur_op
    | _ => false
  | tRW_EVENT.t4t e =>
    match e with
    | RW_T4T_NDEF_READ_FAIL_EVT | RW_T4T_NDEF_UPDATE_FAIL_EVT | RW_T4T_INTF_ERROR_EVT => true
    | RW_T4T_NDEF_DETECT_EVT => isNdefOp cb.cur_op
    | _ => false
  | tRW_EVENT.i93 e =>
    match e with
    | RW_I93_NDEF_READ_FAIL_EVT | RW_I93_NDEF_UPDATE_FAIL_EVT | RW_I93_FORMAT_CPLT_EVT
    | RW_I93_SET_TAG_RO_EVT | RW_I93_CMD_CMPL_EVT => true
    | RW_I93_INTF_ERROR_EVT | RW_I93_INVENTORY_EVT | RW_I93_SYS_INFO_EVT =>
      !cb.flags.NFA_RW_FL_ACTIVATION_NTF_PENDING
    | RW_I93_NDEF_DETECT_EVT => isNdefOp cb.cur_op
    | _ => false
  | tRW_EVENT.OTHER => false

/-- The raw-frame completions of the five families. -/
def isRawFrameEvent (event : tRW_EVENT) : Bool :=
  event = tRW_EVENT.t1t RW_T1T_RAW_FRAME_EVT || event = tRW_EVENT.t2t RW_T2T_RAW_FRAME_EVT
    || event = tRW_EVENT.t3t RW_T3T_RAW_FRAME_EVT || event = tRW_EVENT.t4t RW_T4T_RAW_FRAME_EVT
    || event = tRW_EVENT.i93 RW_I93_RAW_FRAME_EVT

/-- The interface-error completions of Type-1, Type-2 and Type-3. -/
def isPlainIntfError (event : tRW_EVENT) : Bool :=
  event = tRW_EVENT.t1t RW_T1T_INTF_ERROR_EVT || event = tRW_EVENT.t2t RW_T2T_INTF_ERROR_EVT
    || event = tRW_EVENT.t3t RW_T3T_INTF_ERROR_EVT

/-- The report carries a status and the status is not OK. -/
def isFailureReport (n : tNFA_CONN_EVT × tNFA_CONN_EVT_DATA) : Bool :=
  match n.2.status with
  | some s => s != OK
  | none => false

/-- The failure policy at the end of an event: Busy is clear in `w` and exactly
one report was emitted since `w0`, with a status other than OK. -/
def failureReported (w0 w : World) : Prop :=
  w.cb.flags.NFA_RW_FL_API_BUSY = false ∧
  (reportsOf (w.since w0)).length = 1 ∧
  (reportsOf (w.since w0)).all isFailureReport = true

/-- An idle activated Type-1 session in which only the memory-control TLV has
been located. -/
def wIdleMemTlv : World :=
  { cb := { cbIdle with tlv_st := NFA_RW_TLV_DETECT_ST_MEM_TLV_OP_COMPLETE }, out := [] }

/-- An idle activated Type-1 session in which the lock-control TLV has been
located. -/
def wIdleLockTlv : World :=
  { cb := { cbIdle with tlv_st := NFA_RW_TLV_DETECT_ST_LOCK_TLV_OP_COMPLETE }, out := [] }

/-- The requests the Type-2 handlers check the selector value for. -/
def t2tGatedOps : List tNFA_RW_OP :=
  [NFA_RW_OP_DETECT_NDEF, NFA_RW_OP_READ_NDEF, NFA_RW_OP_WRITE_NDEF, NFA_RW_OP_FORMAT_TAG,
   NFA_RW_OP_T2T_READ, NFA_RW_OP_DETECT_LOCK_TLV, NFA_RW_OP_DETECT_MEM_TLV,
   NFA_RW_OP_SET_TAG_RO]

/-! ## Notions and inputs for presence check, activation and deactivation -/

/-- The activation notifications (`nfa_dm_notify_activation_status`) of a trace. -/
def activationsOf : List Effect → List (tNFC_STATUS × Option tNFA_TAG_PARAMS)
  | [] => []
  | Effect.nfa_dm_notify_activation_status s p :: t => (s, p) :: activationsOf t
  | _ :: t => activationsOf t

/-- Whether an action returns a deferred request to the buffer pool. -/
def Effect.isPendingRelease : Effect → Bool
  | Effect.GKI_freebuf (tGKI_BUF.pending_msg _) => true
  | _ => false

/-- A session with an explicitly requested presence check in flight, outside
exclusive RF mode. -/
def wPresenceCheck : World :=
  { cb := { cbIdle with
            cur_op := NFA_RW_OP_PRESENCE_CHECK
            flags := { cbIdle.flags with NFA_RW_FL_API_BUSY := true } }
    out := [] }

/-- A session that was deactivated earlier (Activated clear). -/
def wInactive : World :=
  { cb := { cbIdle with flags := { cbIdle.flags with NFA_RW_FL_ACTIVATED := false } }
    out := [] }

/-- A session in the middle of a read with a request deferred behind an automatic
presence check. -/
def wReadingPending : World :=
  { cb := { cbIdle with
            cur_op := NFA_RW_OP_READ_NDEF
            p_ndef_buf := some [0, 0]
            p_pending_msg := some { op := NFA_RW_OP_DETECT_NDEF }
            flags := { cbIdle.flags with
                       NFA_RW_FL_API_BUSY := true
                       NFA_RW_FL_AUTO_PRESENCE_CHECK_BUSY := true } }
    out := [] }

/-- An environment in which no protocol is supported by the engine. -/
def envUnsupported : Env :=
  { envAccept with nfa_dm_is_protocol_supported := fun _ _ => false }

/-- Activation of a tag of a protocol the module has no case for, outside
exclusive RF mode. -/
def actOther : tNFA_RW_ACTIVATE_NTF :=
  { p_activate_params := { protocol := tNFC_PROTOCOL.OTHER 5, pa_sel_rsp := 32 }
    excl_rf_not_active := true }

/-- Activation of an ISO 15693 tag whose UID, as `envAccept` stores it
(`[224, 7, 197, 0, 0, 0, 0, 0]`), has the manufacturer code 7 and the masked
product id 192 of the second fixed-layout family. -/
def actI93Pro : tNFA_RW_ACTIVATE_NTF :=
  { p_activate_params := { protocol := NFC_PROTOCOL_15693
                           pi93_uid := [0, 0, 0, 0, 0, 197, 7, 224] }
    excl_rf_not_active := true }

/-- Activation of an ISO 15693 tag of another manufacturer (code 4). -/
def actI93Other : tNFA_RW_ACTIVATE_NTF :=
  { p_activate_params := { protocol := NFC_PROTOCOL_15693
                           pi93_uid := [0, 0, 0, 0, 0, 1, 4, 224] }
    excl_rf_not_active := true }

/-- The calls of `nfa_rw_store_ndef_rx_buf` for the segments `segs`, one after the
other. -/
def store_segments (segs : List BT_HDR) (w : World) : World :=
  segs.foldl (fun x hdr => nfa_rw_store_ndef_rx_buf { status := OK, p_data := some hdr } x) w

/-- A read in progress on a Type-4 tag with a buffer of 5 bytes, nothing received
yet. -/
def wReading5 : World :=
  { cb := { cbIdle with
            protocol := NFC_PROTOCOL_ISO_DEP
            cur_op := NFA_RW_OP_READ_NDEF
            ndef_st := NFA_RW_NDEF_ST_TRUE
            ndef_cur_size := 5
            ndef_max_size := 100
            p_ndef_buf := some [0, 0, 0, 0, 0]
            ndef_rd_offset := 0
            flags := { cbIdle.flags with NFA_RW_FL_API_BUSY := true } }
    out := [] }

/-- Whether the trace holds an engine call that the engine accepts. -/
def acceptedCall (env : Env) (l : List Effect) : Bool :=
  (callsOf l).any (fun c => decide (env.rw c = OK))

/-- What a request handler that goes from `w0` to `w` does when the engine accepts
a call of it: the handler only appends to the trace, and if one of the appended
calls is accepted then it is the only call, no notification is emitted and the
flags and the current operation are those of `w0`. -/
def acceptedOutcome (env : Env) (w0 w : World) : Prop :=
  w.out = w0.out ++ w.since w0 ∧
  (acceptedCall env (w.since w0) = true →
    (callsOf (w.since w0)).length = 1 ∧ notifsOf (w.since w0) = [] ∧
    w.cb.flags = w0.cb.flags ∧ w.cb.cur_op = w0.cb.cur_op)

/-- What a start function that goes from `w0` to the result `r` does: it only
appends to the trace; if it returns a status other than OK no accepted call is
in the appended part; and if an accepted call is in the appended part then it
is the only call, no notification is emitted and the flags and the current
operation are those of `w0`. -/
def startOutcome (env : Env) (w0 : World) (r : tNFC_STATUS × World) : Prop :=
  r.2.out = w0.out ++ r.2.since w0 ∧
  (r.1 ≠ OK → acceptedCall env (r.2.since w0) = false) ∧
  (acceptedCall env (r.2.since w0) = true →
    (callsOf (r.2.since w0)).length = 1 ∧ notifsOf (r.2.since w0) = [] ∧
    r.2.cb.flags = w0.cb.flags ∧ r.2.cb.cur_op = w0.cb.cur_op)

/-- The NDEF read commands of the five engines. -/
def isNdefReadCall : tRW_CALL → Bool
  | tRW_CALL.t1t (tRW_T1T_CALL.RW_T1tReadNDef _) => true
  | tRW_CALL.t2t (tRW_T2T_CALL.RW_T2tReadNDef _) => true
  | tRW_CALL.t3t tRW_T3T_CALL.RW_T3tCheckNDef => true
  | tRW_CALL.t4t tRW_T4T_CALL.RW_T4tReadNDef => true
  | tRW_CALL.i93 tRW_I93_CALL.RW_I93ReadNDef => true
  | _ => false

/-- The NDEF write commands of the five engines. -/
def isNdefWriteCall : tRW_CALL → Bool
  | tRW_CALL.t1t (tRW_T1T_CALL.RW_T1tWriteNDef _ _) => true
  | tRW_CALL.t2t (tRW_T2T_CALL.RW_T2tWriteNDef _ _) => true
  | tRW_CALL.t3t (tRW_T3T_CALL.RW_T3tUpdateNDef _ _) => true
  | tRW_CALL.t4t (tRW_T4T_CALL.RW_T4tUpdateNDef _ _) => true
  | tRW_CALL.i93 (tRW_I93_CALL.RW_I93UpdateNDef _ _) => true
  | _ => false

/-- The TLV-detection-state `b` is at or beyond `a`: each detection bit that is
set in `a` is set in `b`. -/
def tlvAdvances (a b : tNFA_RW_TLV_ST) : Prop :=
  (a.lock_tlv_op_complete = true → b.lock_tlv_op_complete = true) ∧
  (a.mem_tlv_op_complete = true → b.mem_tlv_op_complete = true)

/-! ## Notions and inputs for the last claims -/

/-- The messages handed to the NDEF-message consumer (`nfa_dm_ndef_handle_message`)
in a trace: status, buffer and length. -/
def consumerOf : List Effect → List (tNFC_STATUS × Option (List Nat) × Nat)
  | [] => []
  | Effect.nfa_dm_ndef_handle_message s b n :: t => (s, b, n) :: consumerOf t
  | _ :: t => consumerOf t

/-- The frames handed to the transport (`NFC_SendData`) in a trace. -/
def framesOf : List Effect → List (List Nat)
  | [] => []
  | Effect.NFC_SendData d :: t => d :: framesOf t
  | _ :: t => framesOf t

/-- Activation of a Type-3 tag outside exclusive RF mode. -/
def actT3 : tNFA_RW_ACTIVATE_NTF :=
  { p_activate_params := { protocol := NFC_PROTOCOL_T3T }, excl_rf_not_active := true }

/-- The session reached by a fixed-layout vicinity activation, the INVENTORY
response (the block read of the AFI is then in progress and the activation
notification still pending), a detect-ndef request with its completion (an
empty message in a data area of 10 bytes), and a write-ndef request of 3
bytes, every call being accepted by the engine. -/
def wI93WritePending : World :=
  let w1 := (nfa_rw_activate_ntf envAccept actI93Pro wInactive).2
  let w2 := nfa_rw_cback envAccept (tRW_EVENT.i93 RW_I93_INVENTORY_EVT) { status := OK } w1
  let w3 := (nfa_rw_handle_op_req envAccept { op := NFA_RW_OP_DETECT_NDEF } w2).2
  let w4 := nfa_rw_cback envAccept (tRW_EVENT.i93 RW_I93_NDEF_DETECT_EVT)
    { status := OK, protocol := NFC_PROTOCOL_15693, cur_size := 0, max_size := 10 } w3
  (nfa_rw_handle_op_req envAccept
    { op := NFA_RW_OP_WRITE_NDEF,
      params := { write_ndef_len := 3, write_ndef_p_data := [1, 2, 3] } } w4).2

/-- The session on return from the activation of a tag of the second fixed-layout
ISO 15693 family, the engine accepting INVENTORY. -/
def wI93Activated : World := (nfa_rw_activate_ntf envAccept actI93Pro wInactive).2

/-! ## Basic facts -/

@[simp]
theorem callsOf_append (a b : List Effect) : callsOf (a ++ b) = callsOf a ++ callsOf b := by
  induction a with
  | nil => rfl
  | cons e t ih => cases e <;> simp [callsOf, ih]

@[simp]
theorem notifsOf_append (a b : List Effect) : notifsOf (a ++ b) = notifsOf a ++ notifsOf b := by
  induction a with
  | nil => rfl
  | cons e t ih => cases e <;> simp [notifsOf, ih]

@[simp]
theorem since_self_append (w : World) (cb : tNFA_RW_CB) (l : List Effect) :
    World.since { cb := cb, out := w.out ++ l } w = l := by
  simp [World.since]

/-- On a status other than OK the response handler never calls the entry point
`nfa_rw_handle_event`: the result does not depend on it. -/
theorem nfa_rw_handle_presence_check_rsp_with_not_ok
    (h1 h2 : tNFA_RW_OPERATION → World → World) (env : Env) (status : tNFC_STATUS) (w : World)
    (hs : status ≠ OK) :
    nfa_rw_handle_presence_check_rsp_with h1 env status w
      = nfa_rw_handle_presence_check_rsp_with h2 env status w := by
  simp only [nfa_rw_handle_presence_check_rsp_with, hs, if_false]

/-! ## Busy gate (claims C1 and C2) -/

/-- Claim C1, as stated, fails: in an activated session with Busy set, a
raw-frame-send request gets no notification at all (the claim promises exactly
one with status BUSY). -/
theorem C1_counterexample_raw_frame_no_notification :
    wBusy.cb.flags.NFA_RW_FL_ACTIVATED = true ∧ wBusy.cb.flags.NFA_RW_FL_API_BUSY = true ∧
    notifsOf (nfa_rw_handle_op_req envAccept { op := NFA_RW_OP_SEND_RAW_FRAME } wBusy).2.out
      = [] := by
  decide

/-- Claim C1, amended: in every activated session with Busy set, for every
request, `nfa_rw_handle_op_req` makes no engine call and does not execute the
request (the control block is unchanged); a request kind of the busy-rejection
table gets exactly one notification, of the matching kind and with status BUSY;
raw-frame-send, presence-check, Type-3 system-code retrieval and the no-op
value get no notification. -/
theorem C1_busy_request_rejected (env : Env) (p_data : tNFA_RW_OPERATION) (w : World)
    (hact : w.cb.flags.NFA_RW_FL_ACTIVATED = true)
    (hbusy : w.cb.flags.NFA_RW_FL_API_BUSY = true) :
    (nfa_rw_handle_op_req env p_data w).2.cb = w.cb ∧
    callsOf ((nfa_rw_handle_op_req env p_data w).2.since w) = [] ∧
    (∀ ev, spec_busy_rejection_kind p_data.op = some ev →
      ∃ d, d.status = some BUSY ∧
        (nfa_rw_handle_op_req env p_data w).2.since w
          = [Effect.nfa_dm_act_conn_cback_notify ev d]) ∧
    (p_data.op = NFA_RW_OP_SEND_RAW_FRAME ∨ p_data.op = NFA_RW_OP_PRESENCE_CHECK ∨
      p_data.op = NFA_RW_OP_T3T_GET_SYSTEM_CODES ∨ p_data.op = NFA_RW_OP_MAX →
      (nfa_rw_handle_op_req env p_data w).2.since w = []) := by
  obtain ⟨op, params⟩ := p_data
  cases op <;>
    simp [nfa_rw_handle_op_req, nfa_rw_op_req_while_busy, nfa_rw_op_req_while_busy_event,
      spec_busy_rejection_kind, hact, hbusy, World.emit, World.since, callsOf]

/-- Witness of `C1_busy_request_rejected` on a busy session and a read request. -/
theorem C1_busy_request_rejected_witness :
    (nfa_rw_handle_op_req envAccept { op := NFA_RW_OP_READ_NDEF } wBusy).2.cb = wBusy.cb ∧
    callsOf ((nfa_rw_handle_op_req envAccept { op := NFA_RW_OP_READ_NDEF } wBusy).2.since wBusy)
      = [] :=
  ⟨(C1_busy_request_rejected envAccept { op := NFA_RW_OP_READ_NDEF } wBusy rfl rfl).1,
   (C1_busy_request_rejected envAccept { op := NFA_RW_OP_READ_NDEF } wBusy rfl rfl).2.1⟩

/-- Claim C2: in every activated session with Busy set, for every request kind
listed in the busy-rejection table, the call returns with the session state
unchanged and exactly one new action: the notification of the kind the table
gives, with status BUSY (and sizes 0 and flags "unknown" for NDEF detection). -/
theorem C2_busy_rejection_table (env : Env) (p_data : tNFA_RW_OPERATION) (w : World)
    (ev : tNFA_CONN_EVT)
    (hact : w.cb.flags.NFA_RW_FL_ACTIVATED = true)
    (hbusy : w.cb.flags.NFA_RW_FL_API_BUSY = true)
    (htab : spec_busy_rejection_kind p_data.op = some ev) :
    (nfa_rw_handle_op_req env p_data w).2
      = { cb := w.cb
          out := w.out ++ [Effect.nfa_dm_act_conn_cback_notify ev
                            (spec_busy_rejection_data env p_data.op)] } ∧
    (spec_busy_rejection_data env p_data.op).status = some BUSY := by
  obtain ⟨op, params⟩ := p_data
  cases op <;>
    simp_all [nfa_rw_handle_op_req, nfa_rw_op_req_while_busy, nfa_rw_op_req_while_busy_event,
      spec_busy_rejection_kind, spec_busy_rejection_data, World.emit]

/-- Witness of `C2_busy_rejection_table`: NDEF detection requested while a write
is in flight. -/
theorem C2_busy_rejection_table_witness :
    (nfa_rw_handle_op_req envAccept { op := NFA_RW_OP_DETECT_NDEF } wBusy).2
      = { cb := wBusy.cb
          out := wBusy.out ++ [Effect.nfa_dm_act_conn_cback_notify NFA_NDEF_DETECT_EVT
                  (spec_busy_rejection_data envAccept NFA_RW_OP_DETECT_NDEF)] } ∧
    (spec_busy_rejection_data envAccept NFA_RW_OP_DETECT_NDEF).status = some BUSY :=
  C2_busy_rejection_table envAccept { op := NFA_RW_OP_DETECT_NDEF } wBusy NFA_NDEF_DETECT_EVT
    rfl rfl rfl

/-! ## Deferral during an automatic presence check (claims C3 and C4) -/

/-- Claim C3, as stated, fails: with AutoPresenceCheckBusy set, nothing queued
and Busy set as well, a read request is not stored; it is answered with a BUSY
notification. -/
theorem C3_counterexample_busy_auto_not_queued :
    wBusyAuto.cb.flags.NFA_RW_FL_ACTIVATED = true ∧
    wBusyAuto.cb.flags.NFA_RW_FL_AUTO_PRESENCE_CHECK_BUSY = true ∧
    wBusyAuto.cb.p_pending_msg = none ∧
    (nfa_rw_handle_op_req envAccept { op := NFA_RW_OP_READ_NDEF } wBusyAuto).2.cb.p_pending_msg
      = none ∧
    notifsOf (nfa_rw_handle_op_req envAccept { op := NFA_RW_OP_READ_NDEF } wBusyAuto).2.out
      = [(NFA_READ_CPLT_EVT, { status := some BUSY })] := by
  decide

/-- Claim C3, amended: in every activated session with AutoPresenceCheckBusy set,
Busy clear and nothing queued, `nfa_rw_handle_op_req` stores the request as the
pending request and sets Busy; it appends nothing to the trace (no engine call,
no notification) and changes nothing else in the control block. -/
theorem C3_request_deferred (env : Env) (p_data : tNFA_RW_OPERATION) (w : World)
    (hact : w.cb.flags.NFA_RW_FL_ACTIVATED = true)
    (hauto : w.cb.flags.NFA_RW_FL_AUTO_PRESENCE_CHECK_BUSY = true)
    (hidle : w.cb.flags.NFA_RW_FL_API_BUSY = false)
    (_hq : w.cb.p_pending_msg = none) :
    (nfa_rw_handle_op_req env p_data w).2
      = { cb := { w.cb with
                  p_pending_msg := some p_data
                  flags := { w.cb.flags with NFA_RW_FL_API_BUSY := true } }
          out := w.out } ∧
    (nfa_rw_handle_op_req env p_data w).2.cb.p_pending_msg = some p_data ∧
    (nfa_rw_handle_op_req env p_data w).2.cb.flags.NFA_RW_FL_API_BUSY = true ∧
    (nfa_rw_handle_op_req env p_data w).2.out = w.out ∧
    (nfa_rw_handle_op_req env p_data w).2.cb.cur_op = w.cb.cur_op ∧
    (nfa_rw_handle_op_req env p_data w).2.cb.ndef_st = w.cb.ndef_st ∧
    (nfa_rw_handle_op_req env p_data w).2.cb.tlv_st = w.cb.tlv_st := by
  simp [nfa_rw_handle_op_req, hact, hauto, hidle]

/-- Witness of `C3_request_deferred`: a write arrives right after the timer
tick. -/
theorem C3_request_deferred_witness :
    (nfa_rw_handle_op_req envAccept { op := NFA_RW_OP_WRITE_NDEF } wAuto).2.cb.p_pending_msg
      = some { op := NFA_RW_OP_WRITE_NDEF } ∧
    (nfa_rw_handle_op_req envAccept { op := NFA_RW_OP_WRITE_NDEF } wAuto).2.out = wAuto.out :=
  ⟨(C3_request_deferred envAccept { op := NFA_RW_OP_WRITE_NDEF } wAuto rfl rfl rfl rfl).2.1,
   (C3_request_deferred envAccept { op := NFA_RW_OP_WRITE_NDEF } wAuto rfl rfl rfl rfl).2.2.2.1⟩

/-- Claim C4, as stated, fails: with AutoPresenceCheckBusy set, the pending slot
empty and Busy set as well, neither of two requests is queued, so the pending
request after both calls is not the first one. -/
theorem C4_counterexample_first_request_not_queued :
    wBusyAuto.cb.flags.NFA_RW_FL_ACTIVATED = true ∧
    wBusyAuto.cb.flags.NFA_RW_FL_AUTO_PRESENCE_CHECK_BUSY = true ∧
    wBusyAuto.cb.p_pending_msg = none ∧
    (nfa_rw_handle_op_req envAccept { op := NFA_RW_OP_WRITE_NDEF }
      (nfa_rw_handle_op_req envAccept { op := NFA_RW_OP_READ_NDEF } wBusyAuto).2).2.cb.p_pending_msg
      ≠ some { op := NFA_RW_OP_READ_NDEF } := by
  decide

/-- Claim C4, amended: in every activated session with AutoPresenceCheckBusy set,
Busy clear and the pending slot empty, for every two requests `r1`, `r2`
submitted in that order: after the first call the pending request is `r1`; the
second call takes the busy-rejection path, leaves the whole control block as
the first call left it (so the slot still holds `r1` and `r2` is neither queued
nor executed) and neither call makes an engine call. -/
theorem C4_single_deferred_request (env : Env) (r1 r2 : tNFA_RW_OPERATION) (w : World)
    (hact : w.cb.flags.NFA_RW_FL_ACTIVATED = true)
    (hauto : w.cb.flags.NFA_RW_FL_AUTO_PRESENCE_CHECK_BUSY = true)
    (hidle : w.cb.flags.NFA_RW_FL_API_BUSY = false)
    (_hq : w.cb.p_pending_msg = none) :
    (nfa_rw_handle_op_req env r1 w).2.cb.p_pending_msg = some r1 ∧
    nfa_rw_handle_op_req env r2 (nfa_rw_handle_op_req env r1 w).2
      = nfa_rw_op_req_while_busy env r2 (nfa_rw_handle_op_req env r1 w).2 ∧
    (nfa_rw_handle_op_req env r2 (nfa_rw_handle_op_req env r1 w).2).2.cb
      = (nfa_rw_handle_op_req env r1 w).2.cb ∧
    (nfa_rw_handle_op_req env r2 (nfa_rw_handle_op_req env r1 w).2).2.cb.p_pending_msg
      = some r1 ∧
    callsOf ((nfa_rw_handle_op_req env r2 (nfa_rw_handle_op_req env r1 w).2).2.since w) = [] := by
  have h1 : (nfa_rw_handle_op_req env r1 w).2
      = { cb := { w.cb with
                  p_pending_msg := some r1
                  flags := { w.cb.flags with NFA_RW_FL_API_BUSY := true } }
          out := w.out } := by
    simp [nfa_rw_handle_op_req, hact, hauto, hidle]
  rw [h1]
  obtain ⟨op, params⟩ := r2
  cases op <;>
    simp [nfa_rw_handle_op_req, nfa_rw_op_req_while_busy, nfa_rw_op_req_while_busy_event,
      hact, World.emit, World.since, callsOf]

/-- Witness of `C4_single_deferred_request`: a write, then a read, after the
timer tick. -/
theorem C4_single_deferred_request_witness :
    (nfa_rw_handle_op_req envAccept { op := NFA_RW_OP_READ_NDEF }
      (nfa_rw_handle_op_req envAccept { op := NFA_RW_OP_WRITE_NDEF } wAuto).2).2.cb.p_pending_msg
      = some { op := NFA_RW_OP_WRITE_NDEF } :=
  (C4_single_deferred_request envAccept { op := NFA_RW_OP_WRITE_NDEF }
    { op := NFA_RW_OP_READ_NDEF } wAuto rfl rfl rfl rfl).2.2.2.1

/-! ## Facts about the building blocks -/

@[simp]
theorem emit_cb (w : World) (e : Effect) : (w.emit e).cb = w.cb := rfl

@[simp]
theorem emit_out (w : World) (e : Effect) : (w.emit e).out = w.out ++ [e] := rfl

@[simp]
theorem rw_call_fst (env : Env) (c : tRW_CALL) (w : World) : (rw_call env c w).1 = env.rw c :=
  rfl

@[simp]
theorem rw_call_snd (env : Env) (c : tRW_CALL) (w : World) :
    (rw_call env c w).2 = w.emit (Effect.call c) := rfl

@[simp]
theorem command_complete_cb (env : Env) (w : World) :
    (nfa_rw_command_complete env w).cb
      = { w.cb with flags := { w.cb.flags with NFA_RW_FL_API_BUSY := false } } := by
  unfold nfa_rw_command_complete nfa_rw_check_start_presence_check_timer
  split <;> rfl

@[simp]
theorem command_complete_out (env : Env) (w : World) :
    (nfa_rw_command_complete env w).out
      = w.out ++ (if env.NFA_DM_AUTO_PRESENCE_CHECK && w.cb.flags.NFA_RW_FL_NOT_EXCL_RF_MODE
                  then [Effect.nfa_sys_start_timer] else []) := by
  unfold nfa_rw_command_complete nfa_rw_check_start_presence_check_timer
  simp only [World.setFlags]
  split <;> simp

@[simp]
theorem error_cleanup_cb (env : Env) (ev : tNFA_CONN_EVT) (w : World) :
    (nfa_rw_error_cleanup env ev w).cb
      = { w.cb with flags := { w.cb.flags with NFA_RW_FL_API_BUSY := false } } := by
  simp [nfa_rw_error_cleanup]

@[simp]
theorem error_cleanup_out (env : Env) (ev : tNFA_CONN_EVT) (w : World) :
    (nfa_rw_error_cleanup env ev w).out
      = w.out ++ (if env.NFA_DM_AUTO_PRESENCE_CHECK && w.cb.flags.NFA_RW_FL_NOT_EXCL_RF_MODE
                  then [Effect.nfa_sys_start_timer] else [])
          ++ [Effect.nfa_dm_act_conn_cback_notify ev { status := some FAILED }] := by
  simp [nfa_rw_error_cleanup]

@[simp]
theorem free_ndef_rx_buf_cb (w : World) :
    (nfa_rw_free_ndef_rx_buf w).cb = { w.cb with p_ndef_buf := none } := by
  obtain ⟨cb, out⟩ := w
  obtain ⟨a1, a2, a3, a4, a5, a6, a7, a8, a9, a10, buf, a12, a13, a14, a15, a16, a17, a18, a19⟩
    := cb
  cases buf <;> rfl

/-- The handler of a request kind other than presence-check leaves the pending
slot and the AutoPresenceCheckBusy flag alone: start of NDEF detection. -/
theorem start_ndef_detection_deferral (env : Env) (w : World) :
    (nfa_rw_start_ndef_detection env w).2.cb.p_pending_msg = w.cb.p_pending_msg ∧
    (nfa_rw_start_ndef_detection env w).2.cb.flags.NFA_RW_FL_AUTO_PRESENCE_CHECK_BUSY
      = w.cb.flags.NFA_RW_FL_AUTO_PRESENCE_CHECK_BUSY := by
  unfold nfa_rw_start_ndef_detection
  split <;> (try split) <;> simp

theorem start_ndef_read_deferral (env : Env) (w : World) :
    (nfa_rw_start_ndef_read env w).2.cb.p_pending_msg = w.cb.p_pending_msg ∧
    (nfa_rw_start_ndef_read env w).2.cb.flags.NFA_RW_FL_AUTO_PRESENCE_CHECK_BUSY
      = w.cb.flags.NFA_RW_FL_AUTO_PRESENCE_CHECK_BUSY := by
  unfold nfa_rw_start_ndef_read
  dsimp only
  split
  · simp
  · split
    · simp
    · split <;> (try split) <;> simp

theorem start_ndef_write_deferral (env : Env) (w : World) :
    (nfa_rw_start_ndef_write env w).2.cb.p_pending_msg = w.cb.p_pending_msg ∧
    (nfa_rw_start_ndef_write env w).2.cb.flags.NFA_RW_FL_AUTO_PRESENCE_CHECK_BUSY
      = w.cb.flags.NFA_RW_FL_AUTO_PRESENCE_CHECK_BUSY := by
  unfold nfa_rw_start_ndef_write
  split
  · simp
  · split
    · simp
    · split <;> (try split) <;> simp

theorem detect_ndef_deferral (env : Env) (w : World) :
    (nfa_rw_detect_ndef env w).cb.p_pending_msg = w.cb.p_pending_msg ∧
    (nfa_rw_detect_ndef env w).cb.flags.NFA_RW_FL_AUTO_PRESENCE_CHECK_BUSY
      = w.cb.flags.NFA_RW_FL_AUTO_PRESENCE_CHECK_BUSY := by
  unfold nfa_rw_detect_ndef
  dsimp only
  split <;> simp [start_ndef_detection_deferral]

theorem read_ndef_deferral (env : Env) (w : World) :
    (nfa_rw_read_ndef env w).cb.p_pending_msg = w.cb.p_pending_msg ∧
    (nfa_rw_read_ndef env w).cb.flags.NFA_RW_FL_AUTO_PRESENCE_CHECK_BUSY
      = w.cb.flags.NFA_RW_FL_AUTO_PRESENCE_CHECK_BUSY := by
  unfold nfa_rw_read_ndef
  dsimp only
  split <;> split <;> (try split) <;>
    simp [start_ndef_detection_deferral, start_ndef_read_deferral]

theorem write_ndef_deferral (env : Env) (p_data : tNFA_RW_OPERATION) (w : World) :
    (nfa_rw_write_ndef env p_data w).cb.p_pending_msg = w.cb.p_pending_msg ∧
    (nfa_rw_write_ndef env p_data w).cb.flags.NFA_RW_FL_AUTO_PRESENCE_CHECK_BUSY
      = w.cb.flags.NFA_RW_FL_AUTO_PRESENCE_CHECK_BUSY := by
  unfold nfa_rw_write_ndef
  dsimp only
  split
  · simp
  · split <;> split <;> (try split) <;>
      simp [start_ndef_detection_deferral, start_ndef_write_deferral]

theorem format_tag_deferral (env : Env) (w : World) :
    (nfa_rw_format_tag env w).cb.p_pending_msg = w.cb.p_pending_msg ∧
    (nfa_rw_format_tag env w).cb.flags.NFA_RW_FL_AUTO_PRESENCE_CHECK_BUSY
      = w.cb.flags.NFA_RW_FL_AUTO_PRESENCE_CHECK_BUSY := by
  unfold nfa_rw_format_tag
  dsimp only
  split <;> (repeat' split) <;> simp

theorem detect_tlv_deferral (env : Env) (tlv : tTLV_TYPE) (w : World) :
    (nfa_rw_detect_tlv env tlv w).cb.p_pending_msg = w.cb.p_pending_msg ∧
    (nfa_rw_detect_tlv env tlv w).cb.flags.NFA_RW_FL_AUTO_PRESENCE_CHECK_BUSY
      = w.cb.flags.NFA_RW_FL_AUTO_PRESENCE_CHECK_BUSY := by
  unfold nfa_rw_detect_tlv
  dsimp only
  split <;> (repeat' split) <;> simp

theorem config_tag_ro_deferral (env : Env) (b : Bool) (w : World) :
    (nfa_rw_config_tag_ro env b w).2.cb.p_pending_msg = w.cb.p_pending_msg ∧
    (nfa_rw_config_tag_ro env b w).2.cb.flags.NFA_RW_FL_AUTO_PRESENCE_CHECK_BUSY
      = w.cb.flags.NFA_RW_FL_AUTO_PRESENCE_CHECK_BUSY := by
  unfold nfa_rw_config_tag_ro
  dsimp only
  split <;> (repeat' split) <;> simp

theorem call_or_cleanup_deferral (env : Env) (c : tRW_CALL) (ev : tNFA_CONN_EVT) (w : World) :
    (call_or_cleanup env c ev w).cb.p_pending_msg = w.cb.p_pending_msg ∧
    (call_or_cleanup env c ev w).cb.flags.NFA_RW_FL_AUTO_PRESENCE_CHECK_BUSY
      = w.cb.flags.NFA_RW_FL_AUTO_PRESENCE_CHECK_BUSY := by
  unfold call_or_cleanup
  dsimp only
  split <;> simp

theorem t1t_write_deferral (env : Env) (p_data : tNFA_RW_OPERATION) (w : World) :
    (nfa_rw_t1t_write env p_data w).cb.p_pending_msg = w.cb.p_pending_msg ∧
    (nfa_rw_t1t_write env p_data w).cb.flags.NFA_RW_FL_AUTO_PRESENCE_CHECK_BUSY
      = w.cb.flags.NFA_RW_FL_AUTO_PRESENCE_CHECK_BUSY := by
  unfold nfa_rw_t1t_write
  dsimp only
  split <;> (repeat' split) <;> simp

theorem t1t_write8_deferral (env : Env) (p_data : tNFA_RW_OPERATION) (w : World) :
    (nfa_rw_t1t_write8 env p_data w).cb.p_pending_msg = w.cb.p_pending_msg ∧
    (nfa_rw_t1t_write8 env p_data w).cb.flags.NFA_RW_FL_AUTO_PRESENCE_CHECK_BUSY
      = w.cb.flags.NFA_RW_FL_AUTO_PRESENCE_CHECK_BUSY := by
  unfold nfa_rw_t1t_write8
  dsimp only
  split <;> (repeat' split) <;> simp

theorem t2t_read_deferral (env : Env) (p_data : tNFA_RW_OPERATION) (w : World) :
    (nfa_rw_t2t_read env p_data w).cb.p_pending_msg = w.cb.p_pending_msg ∧
    (nfa_rw_t2t_read env p_data w).cb.flags.NFA_RW_FL_AUTO_PRESENCE_CHECK_BUSY
      = w.cb.flags.NFA_RW_FL_AUTO_PRESENCE_CHECK_BUSY := by
  unfold nfa_rw_t2t_read
  dsimp only
  split <;> (repeat' split) <;> simp

theorem t2t_write_deferral (env : Env) (p_data : tNFA_RW_OPERATION) (w : World) :
    (nfa_rw_t2t_write env p_data w).cb.p_pending_msg = w.cb.p_pending_msg ∧
    (nfa_rw_t2t_write env p_data w).cb.flags.NFA_RW_FL_AUTO_PRESENCE_CHECK_BUSY
      = w.cb.flags.NFA_RW_FL_AUTO_PRESENCE_CHECK_BUSY := by
  unfold nfa_rw_t2t_write
  dsimp only
  split <;> (repeat' split) <;> simp

theorem t3t_get_system_codes_deferral (env : Env) (w : World) :
    (nfa_rw_t3t_get_system_codes env w).cb.p_pending_msg = w.cb.p_pending_msg ∧
    (nfa_rw_t3t_get_system_codes env w).cb.flags.NFA_RW_FL_AUTO_PRESENCE_CHECK_BUSY
      = w.cb.flags.NFA_RW_FL_AUTO_PRESENCE_CHECK_BUSY := by
  unfold nfa_rw_t3t_get_system_codes
  dsimp only
  split <;> simp

theorem i93_command_deferral (env : Env) (p_data : tNFA_RW_OPERATION) (w : World) :
    (nfa_rw_i93_command env p_data w).cb.p_pending_msg = w.cb.p_pending_msg ∧
    (nfa_rw_i93_command env p_data w).cb.flags.NFA_RW_FL_AUTO_PRESENCE_CHECK_BUSY
      = w.cb.flags.NFA_RW_FL_AUTO_PRESENCE_CHECK_BUSY := by
  unfold nfa_rw_i93_command
  dsimp only
  split <;> split <;> simp

/-- No handler other than the presence-check handler touches the pending slot or
the AutoPresenceCheckBusy flag. -/
theorem nfa_rw_handle_op_req_switch_deferral (env : Env) (p_data : tNFA_RW_OPERATION)
    (w : World) (hop : p_data.op ≠ NFA_RW_OP_PRESENCE_CHECK) :
    (nfa_rw_handle_op_req_switch env p_data w).cb.p_pending_msg = w.cb.p_pending_msg ∧
    (nfa_rw_handle_op_req_switch env p_data w).cb.flags.NFA_RW_FL_AUTO_PRESENCE_CHECK_BUSY
      = w.cb.flags.NFA_RW_FL_AUTO_PRESENCE_CHECK_BUSY := by
  obtain ⟨op, params⟩ := p_data
  cases op <;>
    first
      | exact absurd rfl hop
      | simp [nfa_rw_handle_op_req_switch, detect_ndef_deferral, read_ndef_deferral,
          write_ndef_deferral, format_tag_deferral, detect_tlv_deferral, config_tag_ro_deferral,
          call_or_cleanup_deferral, t1t_write_deferral, t1t_write8_deferral, t2t_read_deferral,
          t2t_write_deferral, t3t_get_system_codes_deferral, i93_command_deferral,
          nfa_rw_t1t_rid, nfa_rw_t1t_rall, nfa_rw_t1t_read, nfa_rw_t1t_rseg, nfa_rw_t1t_read8,
          nfa_rw_t2t_sector_select, nfa_rw_t3t_read, nfa_rw_t3t_write]

/-! ## Completion of an automatic presence check (claim C5) -/

/-- Claim C5: in every session with AutoPresenceCheckBusy set and a queued request
`q` that is not a presence-check.  On status OK the response handler dispatches
`q` once through `nfa_rw_handle_op_req`, in a session with Busy clear,
AutoPresenceCheckBusy clear and the pending slot empty; afterwards the flag is
still clear and the slot still empty, and in an activated session the dispatch
is the execution of the handler of `q` (neither rejection nor deferral).  On
any other status the only new actions are the release of `q` and one request
for RF deactivation (no engine call, no notification); Busy and
AutoPresenceCheckBusy are clear and the slot is empty. -/
theorem C5_deferred_request_resolved (env : Env) (w : World) (q : tNFA_RW_OPERATION)
    (status : tNFC_STATUS)
    (hauto : w.cb.flags.NFA_RW_FL_AUTO_PRESENCE_CHECK_BUSY = true)
    (hq : w.cb.p_pending_msg = some q)
    (hop : q.op ≠ NFA_RW_OP_PRESENCE_CHECK) :
    (status = OK →
      nfa_rw_handle_presence_check_rsp env status w
        = (nfa_rw_handle_op_req env q (resumeState env w)).2 ∧
      (resumeState env w).cb.flags.NFA_RW_FL_API_BUSY = false ∧
      (resumeState env w).cb.flags.NFA_RW_FL_AUTO_PRESENCE_CHECK_BUSY = false ∧
      (resumeState env w).cb.p_pending_msg = none ∧
      (nfa_rw_handle_presence_check_rsp env status w).cb.flags.NFA_RW_FL_AUTO_PRESENCE_CHECK_BUSY
        = false ∧
      (nfa_rw_handle_presence_check_rsp env status w).cb.p_pending_msg = none ∧
      (w.cb.flags.NFA_RW_FL_ACTIVATED = true →
        nfa_rw_handle_presence_check_rsp env status w
          = nfa_rw_handle_op_req_switch env q (executeState q (resumeState env w)))) ∧
    (status ≠ OK →
      nfa_rw_handle_presence_check_rsp env status w
        = { cb := { w.cb with
                    p_pending_msg := none
                    flags := { w.cb.flags with
                               NFA_RW_FL_API_BUSY := false
                               NFA_RW_FL_AUTO_PRESENCE_CHECK_BUSY := false } }
            out := w.out ++ [Effect.GKI_freebuf (tGKI_BUF.pending_msg q),
                             Effect.nfa_dm_rf_deactivate] } ∧
      callsOf ((nfa_rw_handle_presence_check_rsp env status w).since w) = [] ∧
      notifsOf ((nfa_rw_handle_presence_check_rsp env status w).since w) = [] ∧
      ((nfa_rw_handle_presence_check_rsp env status w).since w).count
        Effect.nfa_dm_rf_deactivate = 1) := by
  constructor
  · intro hs
    subst hs
    have hdisp : nfa_rw_handle_presence_check_rsp env OK w
        = (nfa_rw_handle_op_req env q (resumeState env w)).2 := by
      simp [nfa_rw_handle_presence_check_rsp, nfa_rw_handle_presence_check_rsp_with,
        nfa_rw_handle_event, resumeState, World.setFlags, hauto, hq, hop]
    have hexec : (nfa_rw_handle_op_req env q (resumeState env w)).2
        = if w.cb.flags.NFA_RW_FL_ACTIVATED = false then resumeState env w
          else nfa_rw_handle_op_req_switch env q (executeState q (resumeState env w)) := by
      simp only [nfa_rw_handle_op_req, resumeState, executeState, World.setFlags,
        nfa_rw_stop_presence_check_timer, command_complete_cb, command_complete_out, emit_cb,
        emit_out]
      split <;> simp
    refine ⟨hdisp, by simp [resumeState], by simp [resumeState], by simp [resumeState],
      ?_, ?_, ?_⟩
    · rw [hdisp, hexec]
      split
      · simp [resumeState]
      · simp [(nfa_rw_handle_op_req_switch_deferral env q _ hop).2, executeState, resumeState]
    · rw [hdisp, hexec]
      split
      · simp [resumeState]
      · simp [(nfa_rw_handle_op_req_switch_deferral env q _ hop).1, executeState, resumeState]
    · intro hact
      rw [hdisp, hexec]
      simp [hact]
  · intro hs
    have hres : nfa_rw_handle_presence_check_rsp env status w
        = { cb := { w.cb with
                    p_pending_msg := none
                    flags := { w.cb.flags with
                               NFA_RW_FL_API_BUSY := false
                               NFA_RW_FL_AUTO_PRESENCE_CHECK_BUSY := false } }
            out := w.out ++ [Effect.GKI_freebuf (tGKI_BUF.pending_msg q),
                             Effect.nfa_dm_rf_deactivate] } := by
      simp [nfa_rw_handle_presence_check_rsp, nfa_rw_handle_presence_check_rsp_with,
        World.setFlags, World.emit, hauto, hq, hop, hs]
    rw [hres]
    simp [World.since, callsOf, notifsOf]

/-- Witness of `C5_deferred_request_resolved`: a write queued behind the automatic
presence check of an activated Type-1 session, and the check answers OK. -/
theorem C5_deferred_request_resolved_witness :
    nfa_rw_handle_presence_check_rsp envAccept OK
        { wAuto with cb := { wAuto.cb with
                             p_pending_msg := some { op := NFA_RW_OP_WRITE_NDEF }
                             flags := { wAuto.cb.flags with NFA_RW_FL_API_BUSY := true } } }
      = (nfa_rw_handle_op_req envAccept { op := NFA_RW_OP_WRITE_NDEF }
          (resumeState envAccept
            { wAuto with cb := { wAuto.cb with
                                 p_pending_msg := some { op := NFA_RW_OP_WRITE_NDEF }
                                 flags := { wAuto.cb.flags with
                                            NFA_RW_FL_API_BUSY := true } } })).2 :=
  ((C5_deferred_request_resolved envAccept
    { wAuto with cb := { wAuto.cb with
                         p_pending_msg := some { op := NFA_RW_OP_WRITE_NDEF }
                         flags := { wAuto.cb.flags with NFA_RW_FL_API_BUSY := true } } }
    { op := NFA_RW_OP_WRITE_NDEF } OK rfl rfl (by decide)).1 rfl).1

/-! ## Presence-check timer tick (claim C6) -/

/-- Claim C6, as stated, fails: after the timer tick on an idle activated Type-1
session whose liveness probe is accepted, Busy is still clear (the claim says
it is set); AutoPresenceCheckBusy is set. -/
theorem C6_counterexample_tick_leaves_busy_clear :
    wIdle.cb.flags.NFA_RW_FL_ACTIVATED = true ∧
    wIdle.cb.flags.NFA_RW_FL_API_BUSY = false ∧
    wIdle.cb.flags.NFA_RW_FL_AUTO_PRESENCE_CHECK_BUSY = false ∧
    envAccept.rw (nfa_rw_presence_check_select envAccept wIdle.cb.protocol wIdle.cb.pa_sel_res)
      = OK ∧
    (nfa_rw_presence_check_tick envAccept wIdle).2.cb.flags.NFA_RW_FL_API_BUSY = false ∧
    (nfa_rw_presence_check_tick envAccept wIdle).2.cb.flags.NFA_RW_FL_AUTO_PRESENCE_CHECK_BUSY
      = true := by
  decide

/-- Claim C6, amended: in every activated idle session (Busy and
AutoPresenceCheckBusy clear), after `nfa_rw_presence_check_tick` with the
liveness primitive accepted, AutoPresenceCheckBusy is set while Busy stays
clear, the current operation is presence-check, and the only new action is the
one liveness primitive chosen for the protocol. -/
theorem C6_tick_starts_auto_presence_check (env : Env) (w : World)
    (_hact : w.cb.flags.NFA_RW_FL_ACTIVATED = true)
    (hidle : w.cb.flags.NFA_RW_FL_API_BUSY = false)
    (_hauto : w.cb.flags.NFA_RW_FL_AUTO_PRESENCE_CHECK_BUSY = false)
    (hacc : env.rw (nfa_rw_presence_check_select env w.cb.protocol w.cb.pa_sel_res) = OK) :
    (nfa_rw_presence_check_tick env w).2.cb.flags.NFA_RW_FL_AUTO_PRESENCE_CHECK_BUSY = true ∧
    (nfa_rw_presence_check_tick env w).2.cb.flags.NFA_RW_FL_API_BUSY = false ∧
    (nfa_rw_presence_check_tick env w).2.cb.cur_op = NFA_RW_OP_PRESENCE_CHECK ∧
    (nfa_rw_presence_check_tick env w).2.since w
      = [Effect.call (nfa_rw_presence_check_select env w.cb.protocol w.cb.pa_sel_res)] ∧
    (nfa_rw_presence_check_tick env w).2
      = { cb := { w.cb with
                  cur_op := NFA_RW_OP_PRESENCE_CHECK
                  flags := { w.cb.flags with NFA_RW_FL_AUTO_PRESENCE_CHECK_BUSY := true } }
          out := w.out ++
            [Effect.call (nfa_rw_presence_check_select env w.cb.protocol w.cb.pa_sel_res)] } := by
  have hres : (nfa_rw_presence_check_tick env w).2
      = { cb := { w.cb with
                  cur_op := NFA_RW_OP_PRESENCE_CHECK
                  flags := { w.cb.flags with NFA_RW_FL_AUTO_PRESENCE_CHECK_BUSY := true } }
          out := w.out ++
            [Effect.call (nfa_rw_presence_check_select env w.cb.protocol w.cb.pa_sel_res)] } := by
    simp [nfa_rw_presence_check_tick, nfa_rw_presence_check, hacc, World.emit]
  rw [hres]
  simp [World.since, hidle]

/-- Witness of `C6_tick_starts_auto_presence_check` on the idle Type-1 session. -/
theorem C6_tick_starts_auto_presence_check_witness :
    (nfa_rw_presence_check_tick envAccept wIdle).2.cb.flags.NFA_RW_FL_AUTO_PRESENCE_CHECK_BUSY
      = true ∧
    (nfa_rw_presence_check_tick envAccept wIdle).2.cb.flags.NFA_RW_FL_API_BUSY = false :=
  ⟨(C6_tick_starts_auto_presence_check envAccept wIdle rfl rfl rfl rfl).1,
   (C6_tick_starts_auto_presence_check envAccept wIdle rfl rfl rfl rfl).2.1⟩

/-! ## Zero-length short-circuit (claim C7) -/

/-- Claim C7: when the detected current NDEF size is 0, a read-ndef operation makes
no engine call and no allocation, hands a zero-length message with status OK
to the NDEF consumer, emits exactly one notification, read-complete with
status OK, keeps the session without a new buffer and leaves Busy clear.  First
part: the request is executed by `nfa_rw_handle_op_req` with the detection
state True; second part: the read is chained from a detection completion with
status OK that reports size 0 (`nfa_rw_handle_ndef_detect`, the handler every
family calls on its detection event).  The protocol is arbitrary in both. -/
theorem C7_zero_length_read (env : Env) (w : World) :
    (∀ p_data : tNFA_RW_OPERATION, p_data.op = NFA_RW_OP_READ_NDEF →
      w.cb.flags.NFA_RW_FL_ACTIVATED = true →
      w.cb.flags.NFA_RW_FL_API_BUSY = false →
      w.cb.flags.NFA_RW_FL_AUTO_PRESENCE_CHECK_BUSY = false →
      w.cb.ndef_st = NFA_RW_NDEF_ST_TRUE →
      w.cb.ndef_cur_size = 0 →
      notifsOf ((nfa_rw_handle_op_req env p_data w).2.since w)
        = [(NFA_READ_CPLT_EVT, { status := some OK })] ∧
      callsOf ((nfa_rw_handle_op_req env p_data w).2.since w) = [] ∧
      ((nfa_rw_handle_op_req env p_data w).2.since w).count
        (Effect.nfa_dm_ndef_handle_message OK none 0) = 1 ∧
      ((nfa_rw_handle_op_req env p_data w).2.since w).all (fun e => !e.isAlloc) = true ∧
      (nfa_rw_handle_op_req env p_data w).2.cb.p_ndef_buf = w.cb.p_ndef_buf ∧
      (nfa_rw_handle_op_req env p_data w).2.cb.flags.NFA_RW_FL_API_BUSY = false) ∧
    (∀ p_rw_data : tRW_DATA, p_rw_data.status = OK → p_rw_data.cur_size = 0 →
      w.cb.cur_op = NFA_RW_OP_READ_NDEF →
      notifsOf ((nfa_rw_handle_ndef_detect env p_rw_data w).since w)
        = [(NFA_READ_CPLT_EVT, { status := some OK })] ∧
      callsOf ((nfa_rw_handle_ndef_detect env p_rw_data w).since w) = [] ∧
      ((nfa_rw_handle_ndef_detect env p_rw_data w).since w).count
        (Effect.nfa_dm_ndef_handle_message OK none 0) = 1 ∧
      ((nfa_rw_handle_ndef_detect env p_rw_data w).since w).all (fun e => !e.isAlloc) = true ∧
      (nfa_rw_handle_ndef_detect env p_rw_data w).cb.p_ndef_buf = w.cb.p_ndef_buf ∧
      (nfa_rw_handle_ndef_detect env p_rw_data w).cb.flags.NFA_RW_FL_API_BUSY = false) := by
  constructor
  · intro p_data hop hact hidle hauto hst hsz
    obtain ⟨op, params⟩ := p_data
    simp only at hop
    subst hop
    have hres : (nfa_rw_handle_op_req env { op := NFA_RW_OP_READ_NDEF, params := params } w).2
        = { cb := { w.cb with
                    cur_op := NFA_RW_OP_READ_NDEF
                    flags := { w.cb.flags with NFA_RW_FL_API_BUSY := false } }
            out := w.out ++ ([Effect.nfa_sys_stop_timer,
                      Effect.nfa_dm_ndef_handle_message OK none 0]
                    ++ (if env.NFA_DM_AUTO_PRESENCE_CHECK && w.cb.flags.NFA_RW_FL_NOT_EXCL_RF_MODE
                        then [Effect.nfa_sys_start_timer] else [])
                    ++ [Effect.nfa_dm_act_conn_cback_notify NFA_READ_CPLT_EVT
                          { status := some OK }]) } := by
      simp [nfa_rw_handle_op_req, nfa_rw_handle_op_req_switch, nfa_rw_read_ndef,
        nfa_rw_start_ndef_read, nfa_rw_stop_presence_check_timer, World.setFlags, World.emit,
        hact, hidle, hauto, hst, hsz]
    rw [hres]
    simp only [since_self_append]
    split <;> simp [callsOf, notifsOf, Effect.isAlloc]
  · intro p_rw_data hs hsz hop
    have hres : nfa_rw_handle_ndef_detect env p_rw_data w
        = { cb := { w.cb with
                    ndef_st := NFA_RW_NDEF_ST_TRUE
                    ndef_cur_size := 0
                    ndef_max_size := p_rw_data.max_size
                    flags := { w.cb.flags with
                               NFA_RW_FL_API_BUSY := false
                               NFA_RW_FL_TAG_IS_READONLY :=
                                 (p_rw_data.flags &&& env.RW_NDEF_FL_READ_ONLY) != 0 } }
            out := w.out ++ ([Effect.nfa_dm_ndef_handle_message OK none 0]
                    ++ (if env.NFA_DM_AUTO_PRESENCE_CHECK && w.cb.flags.NFA_RW_FL_NOT_EXCL_RF_MODE
                        then [Effect.nfa_sys_start_timer] else [])
                    ++ [Effect.nfa_dm_act_conn_cback_notify NFA_READ_CPLT_EVT
                          { status := some OK }]) } := by
      simp [nfa_rw_handle_ndef_detect, nfa_rw_start_ndef_read, World.emit, hs, hsz, hop]
    rw [hres]
    simp only [since_self_append]
    split <;> simp [callsOf, notifsOf, Effect.isAlloc]

/-- Witness of `C7_zero_length_read`: scenario A, a read request on a session whose
detection found an empty NDEF message. -/
theorem C7_zero_length_read_witness :
    notifsOf ((nfa_rw_handle_op_req envAccept { op := NFA_RW_OP_READ_NDEF }
        { wIdle with cb := { wIdle.cb with ndef_st := NFA_RW_NDEF_ST_TRUE } }).2.since
        { wIdle with cb := { wIdle.cb with ndef_st := NFA_RW_NDEF_ST_TRUE } })
      = [(NFA_READ_CPLT_EVT, { status := some OK })] :=
  ((C7_zero_length_read envAccept
      { wIdle with cb := { wIdle.cb with ndef_st := NFA_RW_NDEF_ST_TRUE } }).1
    { op := NFA_RW_OP_READ_NDEF } rfl rfl rfl rfl rfl rfl).1

/-! ## Write guards (claim C8) -/

/-- Claim C8: for every protocol and every write-ndef request that passes the NDEF
validation and is executed with the detection state True, if the tag is marked
read-only or the requested length exceeds the detected maximum size, no engine
call is made, exactly one notification is emitted, write-complete with a
status other than OK (FAILED for read-only, BUFFER_FULL for the size), and Busy
is clear on return. -/
theorem C8_write_guards (env : Env) (w : World) (p_data : tNFA_RW_OPERATION)
    (hop : p_data.op = NFA_RW_OP_WRITE_NDEF)
    (hvalid : env.NDEF_MsgValidate p_data.params.write_ndef_p_data
      p_data.params.write_ndef_len = true)
    (hact : w.cb.flags.NFA_RW_FL_ACTIVATED = true)
    (hidle : w.cb.flags.NFA_RW_FL_API_BUSY = false)
    (hauto : w.cb.flags.NFA_RW_FL_AUTO_PRESENCE_CHECK_BUSY = false)
    (hst : w.cb.ndef_st = NFA_RW_NDEF_ST_TRUE)
    (hguard : w.cb.flags.NFA_RW_FL_TAG_IS_READONLY = true
      ∨ w.cb.ndef_max_size < p_data.params.write_ndef_len) :
    callsOf ((nfa_rw_handle_op_req env p_data w).2.since w) = [] ∧
    notifsOf ((nfa_rw_handle_op_req env p_data w).2.since w)
      = [(NFA_WRITE_CPLT_EVT,
          { status := some (if w.cb.flags.NFA_RW_FL_TAG_IS_READONLY then FAILED
                            else BUFFER_FULL) })] ∧
    (if w.cb.flags.NFA_RW_FL_TAG_IS_READONLY then FAILED else BUFFER_FULL) ≠ OK ∧
    (nfa_rw_handle_op_req env p_data w).2.cb.flags.NFA_RW_FL_API_BUSY = false := by
  obtain ⟨op, params⟩ := p_data
  simp only at hop hvalid hguard
  subst hop
  have hres : (nfa_rw_handle_op_req env { op := NFA_RW_OP_WRITE_NDEF, params := params } w).2
      = { cb := { w.cb with
                  cur_op := NFA_RW_OP_WRITE_NDEF
                  p_ndef_wr_buf := params.write_ndef_p_data
                  ndef_wr_len := params.write_ndef_len
                  flags := { w.cb.flags with NFA_RW_FL_API_BUSY := false } }
          out := w.out ++ ([Effect.nfa_sys_stop_timer]
                  ++ (if env.NFA_DM_AUTO_PRESENCE_CHECK && w.cb.flags.NFA_RW_FL_NOT_EXCL_RF_MODE
                      then [Effect.nfa_sys_start_timer] else [])
                  ++ [Effect.nfa_dm_act_conn_cback_notify NFA_WRITE_CPLT_EVT
                        { status := some (if w.cb.flags.NFA_RW_FL_TAG_IS_READONLY then FAILED
                                          else BUFFER_FULL) }]) } := by
    rcases hguard with hro | hlen
    · simp [nfa_rw_handle_op_req, nfa_rw_handle_op_req_switch, nfa_rw_write_ndef,
        nfa_rw_start_ndef_write, nfa_rw_stop_presence_check_timer, World.setFlags, World.emit,
        hact, hidle, hauto, hst, hvalid, hro]
    · cases hro : w.cb.flags.NFA_RW_FL_TAG_IS_READONLY <;>
        simp [nfa_rw_handle_op_req, nfa_rw_handle_op_req_switch, nfa_rw_write_ndef,
          nfa_rw_start_ndef_write, nfa_rw_stop_presence_check_timer, World.setFlags, World.emit,
          hact, hidle, hauto, hst, hvalid, hro, hlen]
  rw [hres]
  simp only [since_self_append]
  refine ⟨?_, ?_, ?_, by simp⟩
  · split <;> simp [callsOf]
  · split <;> simp [notifsOf]
  · split <;> simp

/-- Witness of `C8_write_guards`: scenario D, maximum size 100 and a write of 150
bytes. -/
theorem C8_write_guards_witness :
    callsOf ((nfa_rw_handle_op_req envAccept reqWrite150 wDetected).2.since wDetected) = [] ∧
    notifsOf ((nfa_rw_handle_op_req envAccept reqWrite150 wDetected).2.since wDetected)
      = [(NFA_WRITE_CPLT_EVT, { status := some BUFFER_FULL })] :=
  ⟨(C8_write_guards envAccept wDetected reqWrite150 rfl rfl rfl rfl rfl rfl
      (Or.inr (by decide))).1,
   (C8_write_guards envAccept wDetected reqWrite150 rfl rfl rfl rfl rfl rfl
      (Or.inr (by decide))).2.1⟩

/-! ## Allocation failure (claim C9) -/

/-- Claim C9 at its failing input: with 5 bytes detected and an allocator that
returns `NULL`, a read request is answered with two read-complete notifications
with status FAILED (one from `nfa_rw_start_ndef_read`, one from its caller), and
so is the read chained from a successful detection; no engine read call is
made and Busy is clear. -/
theorem C9_alloc_failure_notified_twice :
    notifsOf (nfa_rw_handle_op_req envNoMem { op := NFA_RW_OP_READ_NDEF } wDetected).2.out
      = [(NFA_READ_CPLT_EVT, { status := some FAILED }),
         (NFA_READ_CPLT_EVT, { status := some FAILED })] ∧
    callsOf (nfa_rw_handle_op_req envNoMem { op := NFA_RW_OP_READ_NDEF } wDetected).2.out = [] ∧
    (nfa_rw_handle_op_req envNoMem { op := NFA_RW_OP_READ_NDEF }
      wDetected).2.cb.flags.NFA_RW_FL_API_BUSY = false ∧
    (notifsOf (nfa_rw_handle_ndef_detect envNoMem { status := OK, cur_size := 5, max_size := 100 }
      wReadDetecting).out).map (fun n => (n.1, n.2.status))
      = [(NFA_READ_CPLT_EVT, some FAILED), (NFA_READ_CPLT_EVT, some FAILED)] ∧
    callsOf (nfa_rw_handle_ndef_detect envNoMem { status := OK, cur_size := 5, max_size := 100 }
      wReadDetecting).out = [] := by
  decide

/-- The double notification of an allocation failure does not depend on the
input: whenever the detected size is positive and the allocator fails,
`nfa_rw_read_ndef` emits read-complete with status FAILED twice. -/
theorem read_ndef_alloc_failure (env : Env) (w : World)
    (hst : w.cb.ndef_st = NFA_RW_NDEF_ST_TRUE) (hsz : w.cb.ndef_cur_size ≠ 0)
    (halloc : env.nfa_mem_co_alloc w.cb.ndef_cur_size = false) :
    notifsOf ((nfa_rw_read_ndef env w).since w)
      = [(NFA_READ_CPLT_EVT, { status := some FAILED }),
         (NFA_READ_CPLT_EVT, { status := some FAILED })] := by
  have hout : (nfa_rw_read_ndef env w).out
      = w.out ++ ((if w.cb.p_ndef_buf.isSome then [Effect.nfa_mem_co_free] else [])
          ++ [Effect.nfa_mem_co_alloc w.cb.ndef_cur_size]
          ++ (if env.NFA_DM_AUTO_PRESENCE_CHECK && w.cb.flags.NFA_RW_FL_NOT_EXCL_RF_MODE
              then [Effect.nfa_sys_start_timer] else [])
          ++ [Effect.nfa_dm_act_conn_cback_notify NFA_READ_CPLT_EVT { status := some FAILED }]
          ++ (if env.NFA_DM_AUTO_PRESENCE_CHECK && w.cb.flags.NFA_RW_FL_NOT_EXCL_RF_MODE
              then [Effect.nfa_sys_start_timer] else [])
          ++ [Effect.nfa_dm_act_conn_cback_notify NFA_READ_CPLT_EVT
                { status := some FAILED }]) := by
    have hfree : (nfa_rw_free_ndef_rx_buf w).out
        = w.out ++ (if w.cb.p_ndef_buf.isSome then [Effect.nfa_mem_co_free] else []) := by
      unfold nfa_rw_free_ndef_rx_buf
      split <;> simp_all
    simp [nfa_rw_read_ndef, nfa_rw_start_ndef_read, hst, hsz, halloc, hfree]
  simp only [World.since, hout, List.drop_left]
  split <;> split <;> simp [notifsOf]

/-! ## Storing a received segment (claim C10) -/

/-- A copy that fits into the destination stores nothing outside of it and keeps
its length. -/
theorem ndef_buf_memcpy_fits (src : List Nat) :
    ∀ (buf : List Nat) (off : Nat), off + src.length ≤ buf.length →
      (ndef_buf_memcpy buf off src).2 = []
        ∧ (ndef_buf_memcpy buf off src).1.length = buf.length := by
  induction src with
  | nil =>
    intro buf off _
    simp [ndef_buf_memcpy]
  | cons b rest ih =>
    intro buf off h
    have hlt : off < buf.length := by
      simp only [List.length_cons] at h
      omega
    have hrest : (off + 1) + rest.length ≤ (buf.set off b).length := by
      simp only [List.length_cons] at h
      simp only [List.length_set]
      omega
    have := ih (buf.set off b) (off + 1) hrest
    simp only [ndef_buf_memcpy, hlt, if_true]
    simpa using this

/-- Claim C10, as stated, fails: with a read buffer of 2 bytes (the detected
current size) and read offset 0, a segment of 3 bytes leaves the read offset at
3, above the size, and its third byte is stored at index 2, beyond the end of
the buffer. -/
theorem C10_counterexample_oversized_segment :
    wReading2.cb.p_ndef_buf = some [0, 0] ∧ wReading2.cb.ndef_cur_size = 2 ∧
    wReading2.cb.ndef_rd_offset ≤ wReading2.cb.ndef_cur_size ∧
    (nfa_rw_store_ndef_rx_buf { status := OK, p_data := some { payload := [7, 8, 9] } }
      wReading2).cb.ndef_rd_offset = 3 ∧
    ¬ (nfa_rw_store_ndef_rx_buf { status := OK, p_data := some { payload := [7, 8, 9] } }
      wReading2).cb.ndef_rd_offset ≤ wReading2.cb.ndef_cur_size ∧
    Effect.store_out_of_bounds 2 9 ∈
      (nfa_rw_store_ndef_rx_buf { status := OK, p_data := some { payload := [7, 8, 9] } }
        wReading2).out := by
  decide

/-- Claim C10, amended: for every read in progress with a buffer of the detected
current size and every incoming segment whose length is at most the room left
(offset + length at most the size), after `nfa_rw_store_ndef_rx_buf` the read
offset is still at most the detected current size, no byte has been stored
outside the buffer, and the buffer still has the detected current size.  The
function itself compares nothing: the bound is a duty of the caller. -/
theorem C10_segment_within_capacity (w : World) (p_rw_data : tRW_DATA) (hdr : BT_HDR)
    (buf : List Nat)
    (hbuf : w.cb.p_ndef_buf = some buf)
    (hsize : buf.length = w.cb.ndef_cur_size)
    (hseg : p_rw_data.p_data = some hdr)
    (hroom : w.cb.ndef_rd_offset + hdr.payload.length ≤ w.cb.ndef_cur_size) :
    (nfa_rw_store_ndef_rx_buf p_rw_data w).cb.ndef_rd_offset
      ≤ (nfa_rw_store_ndef_rx_buf p_rw_data w).cb.ndef_cur_size ∧
    ((nfa_rw_store_ndef_rx_buf p_rw_data w).since w).all (fun e => !e.isOutOfBounds) = true ∧
    (nfa_rw_store_ndef_rx_buf p_rw_data w).since w = [Effect.GKI_freebuf (tGKI_BUF.data hdr)] ∧
    (∃ buf2, (nfa_rw_store_ndef_rx_buf p_rw_data w).cb.p_ndef_buf = some buf2
      ∧ buf2.length = (nfa_rw_store_ndef_rx_buf p_rw_data w).cb.ndef_cur_size) := by
  have hfit := ndef_buf_memcpy_fits hdr.payload buf w.cb.ndef_rd_offset (by omega)
  have hres : nfa_rw_store_ndef_rx_buf p_rw_data w
      = { cb := { w.cb with
                  p_ndef_buf := some (ndef_buf_memcpy buf w.cb.ndef_rd_offset hdr.payload).1
                  ndef_rd_offset := w.cb.ndef_rd_offset + hdr.payload.length }
          out := w.out ++ [Effect.GKI_freebuf (tGKI_BUF.data hdr)] } := by
    simp [nfa_rw_store_ndef_rx_buf, hseg, hbuf, hfit.1, World.emit]
  rw [hres]
  refine ⟨hroom, ?_, ?_, (ndef_buf_memcpy buf w.cb.ndef_rd_offset hdr.payload).1, rfl, ?_⟩
  · simp [Effect.isOutOfBounds]
  · simp
  · simp [hfit.2, hsize]

/-- Witness of `C10_segment_within_capacity`: a segment of 2 bytes into the empty
buffer of 2 bytes. -/
theorem C10_segment_within_capacity_witness :
    (nfa_rw_store_ndef_rx_buf { status := OK, p_data := some { payload := [7, 8] } }
      wReading2).cb.ndef_rd_offset
      ≤ (nfa_rw_store_ndef_rx_buf { status := OK, p_data := some { payload := [7, 8] } }
        wReading2).cb.ndef_cur_size :=
  (C10_segment_within_capacity wReading2 { status := OK, p_data := some { payload := [7, 8] } }
    { payload := [7, 8] } [0, 0] rfl rfl rfl (by decide)).1

/-! ## Facts about the completion building blocks -/

@[simp]
theorem free_ndef_rx_buf_out (w : World) :
    (nfa_rw_free_ndef_rx_buf w).out
      = w.out ++ (if w.cb.p_ndef_buf.isSome then [Effect.nfa_mem_co_free] else []) := by
  unfold nfa_rw_free_ndef_rx_buf
  split <;> simp_all

@[simp]
theorem send_data_to_upper_cb (p_rw_data : tRW_DATA) (w : World) :
    (nfa_rw_send_data_to_upper p_rw_data w).cb = w.cb := by
  unfold nfa_rw_send_data_to_upper
  split
  · rfl
  · split <;> rfl

@[simp]
theorem send_data_to_upper_out (p_rw_data : tRW_DATA) (w : World) :
    (nfa_rw_send_data_to_upper p_rw_data w).out
      = w.out ++ nfa_rw_send_data_to_upper_trace p_rw_data := by
  unfold nfa_rw_send_data_to_upper nfa_rw_send_data_to_upper_trace
  split
  · simp
  · split <;> simp

@[simp]
theorem reportsOf_append (a b : List Effect) :
    reportsOf (a ++ b) = reportsOf a ++ reportsOf b := by
  induction a with
  | nil => rfl
  | cons e t ih =>
    cases e <;> simp [reportsOf, ih]
    split <;> simp

@[simp]
theorem send_data_to_upper_trace_reports (p_rw_data : tRW_DATA) :
    reportsOf (nfa_rw_send_data_to_upper_trace p_rw_data) = [] := by
  unfold nfa_rw_send_data_to_upper_trace
  split
  · rfl
  · split
    · rfl
    · simp [reportsOf]

@[simp]
theorem send_data_to_upper_trace_calls (p_rw_data : tRW_DATA) :
    callsOf (nfa_rw_send_data_to_upper_trace p_rw_data) = [] := by
  unfold nfa_rw_send_data_to_upper_trace
  split
  · rfl
  · split <;> rfl

@[simp]
theorem send_data_to_upper_trace_frees (p_rw_data : tRW_DATA) :
    (nfa_rw_send_data_to_upper_trace p_rw_data).count Effect.nfa_mem_co_free = 0 := by
  unfold nfa_rw_send_data_to_upper_trace
  split
  · rfl
  · split <;> simp

@[simp]
theorem store_ndef_rx_buf_out (p_rw_data : tRW_DATA) (w : World) :
    (nfa_rw_store_ndef_rx_buf p_rw_data w).out
      = w.out ++ nfa_rw_store_ndef_rx_buf_trace p_rw_data w := by
  unfold nfa_rw_store_ndef_rx_buf nfa_rw_store_ndef_rx_buf_trace
  split <;> simp

@[simp]
theorem store_ndef_rx_buf_isSome (p_rw_data : tRW_DATA) (w : World) :
    (nfa_rw_store_ndef_rx_buf p_rw_data w).cb.p_ndef_buf.isSome = w.cb.p_ndef_buf.isSome := by
  unfold nfa_rw_store_ndef_rx_buf
  split <;> simp

@[simp]
theorem store_ndef_rx_buf_trace_frees (p_rw_data : tRW_DATA) (w : World) :
    (nfa_rw_store_ndef_rx_buf_trace p_rw_data w).count Effect.nfa_mem_co_free = 0 := by
  unfold nfa_rw_store_ndef_rx_buf_trace
  split
  · simp
  · simp [List.count_eq_zero]

/-! ## Buffer lifecycle (claim C11) -/

/-- Claim C11, as stated, fails: a Type-1 interface-error completion while a
read-ndef operation is in flight leaves the read buffer in the session and
releases nothing. -/
theorem C11_counterexample_t1t_intf_error_keeps_buffer :
    wReadingT1.cb.cur_op = NFA_RW_OP_READ_NDEF ∧ wReadingT1.cb.p_ndef_buf = some [0, 0] ∧
    (nfa_rw_cback envAccept (tRW_EVENT.t1t RW_T1T_INTF_ERROR_EVT) { status := FAILED }
      wReadingT1).cb.p_ndef_buf = some [0, 0] ∧
    (nfa_rw_cback envAccept (tRW_EVENT.t1t RW_T1T_INTF_ERROR_EVT) { status := FAILED }
      wReadingT1).out.count Effect.nfa_mem_co_free = 0 := by
  decide

/-- Claim C11, amended: in every state with a read-ndef operation in flight and
the read buffer allocated, the session holds no read buffer and the buffer has
been released exactly once after the read completion of every family, with
success or failure (Type-1 and Type-2 `NDEF_READ`, Type-3 `CHECK_CPLT`, Type-4
and ISO 15693 `NDEF_READ_CPLT` and `NDEF_READ_FAIL`), after the interface-error
completion of Type-4 and of ISO 15693 (activation notification not pending),
and after deactivation.  The interface-error completion of Type-1, Type-2 and
Type-3 leaves the buffer in the session and releases nothing. -/
theorem C11_buffer_released_once (env : Env) (w : World) (p_rw_data : tRW_DATA)
    (buf : List Nat)
    (hop : w.cb.cur_op = NFA_RW_OP_READ_NDEF)
    (hbuf : w.cb.p_ndef_buf = some buf) :
    releasedOnce w (nfa_rw_cback env (tRW_EVENT.t1t RW_T1T_NDEF_READ_EVT) p_rw_data w) ∧
    releasedOnce w (nfa_rw_cback env (tRW_EVENT.t2t RW_T2T_NDEF_READ_EVT) p_rw_data w) ∧
    releasedOnce w (nfa_rw_cback env (tRW_EVENT.t3t RW_T3T_CHECK_CPLT_EVT) p_rw_data w) ∧
    releasedOnce w (nfa_rw_cback env (tRW_EVENT.t4t RW_T4T_NDEF_READ_CPLT_EVT) p_rw_data w) ∧
    releasedOnce w (nfa_rw_cback env (tRW_EVENT.t4t RW_T4T_NDEF_READ_FAIL_EVT) p_rw_data w) ∧
    releasedOnce w (nfa_rw_cback env (tRW_EVENT.t4t RW_T4T_INTF_ERROR_EVT) p_rw_data w) ∧
    releasedOnce w (nfa_rw_cback env (tRW_EVENT.i93 RW_I93_NDEF_READ_CPLT_EVT) p_rw_data w) ∧
    releasedOnce w (nfa_rw_cback env (tRW_EVENT.i93 RW_I93_NDEF_READ_FAIL_EVT) p_rw_data w) ∧
    (w.cb.flags.NFA_RW_FL_ACTIVATION_NTF_PENDING = false →
      releasedOnce w (nfa_rw_cback env (tRW_EVENT.i93 RW_I93_INTF_ERROR_EVT) p_rw_data w)) ∧
    releasedOnce w (nfa_rw_deactivate_ntf w).2 ∧
    (nfa_rw_cback env (tRW_EVENT.t1t RW_T1T_INTF_ERROR_EVT) p_rw_data w).cb.p_ndef_buf
      = some buf ∧
    (nfa_rw_cback env (tRW_EVENT.t2t RW_T2T_INTF_ERROR_EVT) p_rw_data w).cb.p_ndef_buf
      = some buf ∧
    (nfa_rw_cback env (tRW_EVENT.t3t RW_T3T_INTF_ERROR_EVT) p_rw_data w).cb.p_ndef_buf
      = some buf := by
  have hsome : w.cb.p_ndef_buf.isSome = true := by simp [hbuf]
  refine ⟨?_, ?_, ?_, ?_, ?_, ?_, ?_, ?_, ?_, ?_, ?_, ?_, ?_⟩
  · simp only [nfa_rw_cback, nfa_rw_handle_t1t_evt, ndef_read_to_consumer, releasedOnce,
      World.since]
    split <;> simp [hop, hbuf, List.count_append]
    all_goals split <;> simp
  · simp only [nfa_rw_cback, nfa_rw_handle_t2t_evt, ndef_read_to_consumer, releasedOnce,
      World.since]
    split <;> simp [hop, hbuf, List.count_append]
    all_goals split <;> simp
  · simp only [nfa_rw_cback, nfa_rw_handle_t3t_evt, ndef_read_to_consumer, releasedOnce,
      World.since]
    split <;> simp [hop, hbuf, List.count_append]
    all_goals split <;> simp
  · simp only [nfa_rw_cback, nfa_rw_handle_t4t_evt, ndef_read_cplt, clear_cur_op, releasedOnce,
      World.since]
    simp [hop, hsome, List.count_append]
    split <;> simp
  · simp only [nfa_rw_cback, nfa_rw_handle_t4t_evt, ndef_read_fail, clear_cur_op, releasedOnce,
      World.since]
    simp [hop, hbuf, List.count_append]
    split <;> simp
  · simp only [nfa_rw_cback, nfa_rw_handle_t4t_evt, intf_error_cleanup, intf_error_notify,
      clear_cur_op, releasedOnce, World.since]
    simp [hop, hbuf, List.count_append]
    split <;> simp
  · simp only [nfa_rw_cback, nfa_rw_handle_i93_evt, ndef_read_cplt, clear_cur_op, releasedOnce,
      World.since]
    simp [hop, hsome, List.count_append]
    split <;> simp
  · simp only [nfa_rw_cback, nfa_rw_handle_i93_evt, ndef_read_fail, clear_cur_op, releasedOnce,
      World.since]
    simp [hop, hbuf, List.count_append]
    split <;> simp
  · intro hpend
    simp only [nfa_rw_cback, nfa_rw_handle_i93_evt, intf_error_cleanup, intf_error_notify,
      clear_cur_op, releasedOnce, World.since]
    simp [hop, hbuf, hpend, List.count_append]
    split <;> simp
  · simp only [nfa_rw_deactivate_ntf, nfa_rw_stop_presence_check_timer, World.setFlags,
      releasedOnce, World.since]
    split <;> simp [hbuf, List.count_append, World.emit]
  · simp [nfa_rw_cback, nfa_rw_handle_t1t_evt, hbuf]
  · simp [nfa_rw_cback, nfa_rw_handle_t2t_evt, hbuf]
  · simp [nfa_rw_cback, nfa_rw_handle_t3t_evt, hbuf]

/-- Witness of `C11_buffer_released_once`: the Type-1 session reading into its
buffer of 2 bytes. -/
theorem C11_buffer_released_once_witness :
    releasedOnce wReadingT1
      (nfa_rw_cback envAccept (tRW_EVENT.t1t RW_T1T_NDEF_READ_EVT) { status := OK } wReadingT1) ∧
    releasedOnce wReadingT1 (nfa_rw_deactivate_ntf wReadingT1).2 :=
  ⟨(C11_buffer_released_once envAccept wReadingT1 { status := OK } [0, 0] rfl rfl).1,
   (C11_buffer_released_once envAccept wReadingT1 { status := OK } [0, 0]
      rfl rfl).2.2.2.2.2.2.2.2.2.1⟩

/-! ## Failure policy of the translators (claim C12) -/

@[simp]
theorem reportsOf_timer (c : Prop) [Decidable c] :
    reportsOf (if c then [Effect.nfa_sys_start_timer] else []) = [] := by
  split <;> rfl

@[simp]
theorem notifsOf_timer (c : Prop) [Decidable c] :
    notifsOf (if c then [Effect.nfa_sys_start_timer] else []) = [] := by
  split <;> rfl

@[simp]
theorem callsOf_timer (c : Prop) [Decidable c] :
    callsOf (if c then [Effect.nfa_sys_start_timer] else []) = [] := by
  split <;> rfl

@[simp]
theorem frees_timer (c : Prop) [Decidable c] :
    (if c then [Effect.nfa_sys_start_timer] else []).count Effect.nfa_mem_co_free = 0 := by
  split <;> simp
theorem handle_ndef_detect_failure (env : Env) (p_rw_data : tRW_DATA) (w : World)
    (hs : p_rw_data.status ≠ OK) (hop : isNdefOp w.cb.cur_op = true) :
    failureReported w (nfa_rw_handle_ndef_detect env p_rw_data w) := by
  simp only [isNdefOp, Bool.or_eq_true, decide_eq_true_eq] at hop
  unfold failureReported nfa_rw_handle_ndef_detect
  simp only [hs, if_false]
  rcases hop with (hop | hop) | hop
  · simp [hop, World.since, reportsOf, isFailureReport]
  · simp [hop, World.since, reportsOf, isFailureReport]
  · simp [hop, World.since, reportsOf, isFailureReport]
    split <;> split <;> simp [reportsOf, isFailureReport]

theorem handle_tlv_detect_failure (env : Env) (p_rw_data : tRW_DATA) (w : World)
    (hs : p_rw_data.status ≠ OK) (hop : isTlvOp w.cb.cur_op = true) :
    failureReported w (nfa_rw_handle_tlv_detect env p_rw_data w) := by
  simp only [isTlvOp, Bool.or_eq_true, decide_eq_true_eq] at hop
  unfold failureReported nfa_rw_handle_tlv_detect
  simp only [hs, if_false]
  rcases hop with hop | hop
  · simp [hop, World.since, reportsOf, isFailureReport]
  · simp [hop, World.since, reportsOf, isFailureReport]

theorem t1t_failure_policy (env : Env) (e : tRW_T1T_EVT) (p_rw_data : tRW_DATA) (w : World)
    (hpol : failure_policy_applies (tRW_EVENT.t1t e) w.cb = true)
    (hs : p_rw_data.status ≠ OK) :
    failureReported w (nfa_rw_handle_t1t_evt env e p_rw_data w) := by
  cases e <;> simp only [failure_policy_applies, Bool.false_eq_true] at hpol
  case RW_T1T_NDEF_DETECT_EVT =>
    have := handle_ndef_detect_failure env p_rw_data
      { w with cb := { w.cb with tlv_st := NFA_RW_TLV_DETECT_ST_COMPLETE } } hs hpol
    simpa [nfa_rw_handle_t1t_evt, failureReported, World.since] using this
  case RW_T1T_TLV_DETECT_EVT =>
    exact handle_tlv_detect_failure env p_rw_data w hs hpol
  all_goals
    simp only [failureReported, nfa_rw_handle_t1t_evt, ndef_read_to_consumer,
      update_cur_size_on_write, ok_or_failed, World.since]
    simp [hs, reportsOf, isFailureReport]
  all_goals (repeat' split) <;> simp [reportsOf, isFailureReport, hs]

@[simp]
theorem reportsOf_free (c : Prop) [Decidable c] :
    reportsOf (if c then [Effect.nfa_mem_co_free] else []) = [] := by
  split <;> rfl

@[simp]
theorem notifsOf_free (c : Prop) [Decidable c] :
    notifsOf (if c then [Effect.nfa_mem_co_free] else []) = [] := by
  split <;> rfl

@[simp]
theorem callsOf_free (c : Prop) [Decidable c] :
    callsOf (if c then [Effect.nfa_mem_co_free] else []) = [] := by
  split <;> rfl

theorem t2t_failure_policy (env : Env) (e : tRW_T2T_EVT) (p_rw_data : tRW_DATA) (w : World)
    (hpol : failure_policy_applies (tRW_EVENT.t2t e) w.cb = true)
    (hs : p_rw_data.status ≠ OK) :
    failureReported w (nfa_rw_handle_t2t_evt env e p_rw_data w) := by
  cases e <;> simp only [failure_policy_applies, Bool.false_eq_true] at hpol
  case RW_T2T_NDEF_DETECT_EVT => exact handle_ndef_detect_failure env p_rw_data w hs hpol
  case RW_T2T_TLV_DETECT_EVT => exact handle_tlv_detect_failure env p_rw_data w hs hpol
  all_goals
    simp only [failureReported, nfa_rw_handle_t2t_evt, ndef_read_to_consumer,
      update_cur_size_on_write, ok_or_failed, World.since]
    simp [hs, reportsOf, isFailureReport]
  all_goals (repeat' split) <;> simp [reportsOf, isFailureReport, hs]

theorem t3t_failure_policy (env : Env) (e : tRW_T3T_EVT) (p_rw_data : tRW_DATA) (w : World)
    (hpol : failure_policy_applies (tRW_EVENT.t3t e) w.cb = true)
    (hs : p_rw_data.status ≠ OK) :
    failureReported w (nfa_rw_handle_t3t_evt env e p_rw_data w) := by
  cases e <;> simp only [failure_policy_applies, Bool.false_eq_true] at hpol
  case RW_T3T_NDEF_DETECT_EVT => exact handle_ndef_detect_failure env p_rw_data w hs hpol
  all_goals
    simp only [failureReported, nfa_rw_handle_t3t_evt, ndef_read_to_consumer,
      update_cur_size_on_write, ok_or_failed, World.since]
    simp [hs, reportsOf, isFailureReport]
  all_goals (repeat' split) <;> simp [reportsOf, isFailureReport, hs]

theorem t4t_failure_policy (env : Env) (e : tRW_T4T_EVT) (p_rw_data : tRW_DATA) (w : World)
    (hpol : failure_policy_applies (tRW_EVENT.t4t e) w.cb = true)
    (hs : p_rw_data.status ≠ OK) :
    failureReported w (nfa_rw_handle_t4t_evt env e p_rw_data w) := by
  cases e <;> simp only [failure_policy_applies, Bool.false_eq_true] at hpol
  case RW_T4T_NDEF_DETECT_EVT => exact handle_ndef_detect_failure env p_rw_data w hs hpol
  all_goals
    simp only [failureReported, nfa_rw_handle_t4t_evt, ndef_read_fail, intf_error_cleanup,
      intf_error_notify, update_cur_size_on_write, clear_cur_op, World.since]
    simp [hs, reportsOf, isFailureReport]
  all_goals (repeat' split) <;> simp_all [reportsOf, isFailureReport]

theorem i93_failure_policy (env : Env) (e : tRW_I93_EVT) (p_rw_data : tRW_DATA) (w : World)
    (hpol : failure_policy_applies (tRW_EVENT.i93 e) w.cb = true)
    (hs : p_rw_data.status ≠ OK) :
    failureReported w (nfa_rw_handle_i93_evt env e p_rw_data w) := by
  cases e <;>
    simp only [failure_policy_applies, Bool.false_eq_true, Bool.not_eq_true'] at hpol
  case RW_I93_NDEF_DETECT_EVT => exact handle_ndef_detect_failure env p_rw_data w hs hpol
  all_goals
    simp only [failureReported, nfa_rw_handle_i93_evt, ndef_read_fail, intf_error_cleanup,
      intf_error_notify, update_cur_size_on_write, clear_cur_op, World.since, World.setFlags]
    simp [hs, reportsOf, isFailureReport]
  all_goals (repeat' split) <;> simp_all [reportsOf, isFailureReport]

/-- Claim C12, as stated, fails: a Type-1 interface-error completion with status
FAILED while a write is in flight leaves Busy set, and a timed-out Type-1
raw-frame completion emits no notification at all. -/
theorem C12_counterexample_intf_error_and_raw_timeout :
    wWritingT1.cb.flags.NFA_RW_FL_API_BUSY = true ∧
    (nfa_rw_cback envAccept (tRW_EVENT.t1t RW_T1T_INTF_ERROR_EVT) { status := FAILED }
      wWritingT1).cb.flags.NFA_RW_FL_API_BUSY = true ∧
    notifsOf (nfa_rw_cback envAccept (tRW_EVENT.t1t RW_T1T_RAW_FRAME_EVT) { status := TIMEOUT }
      wRawT1).out = [] := by
  decide

/-- Claim C12, amended: for every family and every completion with a status other
than OK to which the failure policy applies (`failure_policy_applies`: the
completions that end a read, write, select, format, set-read-only or vicinity
command, the detection completions of the operation they report to, the
interface error of Type-4 and ISO 15693), the translator performs command
complete (Busy is clear on return) and emits exactly one report, with a status
other than OK.  The interface-error completion of Type-1, Type-2 and Type-3
emits the one interface-error notification with the completion status and
leaves Busy as it was; a timed-out raw-frame completion performs command
complete and emits no notification. -/
theorem C12_failure_policy (env : Env) (event : tRW_EVENT) (p_rw_data : tRW_DATA) (w : World) :
    (failure_policy_applies event w.cb = true → p_rw_data.status ≠ OK →
      failureReported w (nfa_rw_cback env event p_rw_data w)) ∧
    (isPlainIntfError event = true →
      notifsOf ((nfa_rw_cback env event p_rw_data w).since w)
        = [(NFA_RW_INTF_ERROR_EVT, { status := some p_rw_data.status })] ∧
      (nfa_rw_cback env event p_rw_data w).cb = w.cb) ∧
    (isRawFrameEvent event = true → p_rw_data.status = TIMEOUT →
      notifsOf ((nfa_rw_cback env event p_rw_data w).since w) = [] ∧
      (nfa_rw_cback env event p_rw_data w).cb.flags.NFA_RW_FL_API_BUSY = false) := by
  refine ⟨?_, ?_, ?_⟩
  · intro hpol hs
    cases event with
    | t1t e => exact t1t_failure_policy env e p_rw_data w hpol hs
    | t2t e => exact t2t_failure_policy env e p_rw_data w hpol hs
    | t3t e => exact t3t_failure_policy env e p_rw_data w hpol hs
    | t4t e => exact t4t_failure_policy env e p_rw_data w hpol hs
    | i93 e => exact i93_failure_policy env e p_rw_data w hpol hs
    | OTHER => simp [failure_policy_applies] at hpol
  · intro hev
    simp only [isPlainIntfError, Bool.or_eq_true, decide_eq_true_eq] at hev
    rcases hev with (hev | hev) | hev <;> subst hev <;>
      simp [nfa_rw_cback, nfa_rw_handle_t1t_evt, nfa_rw_handle_t2t_evt, nfa_rw_handle_t3t_evt,
        World.since, notifsOf]
  · intro hev hs
    simp only [isRawFrameEvent, Bool.or_eq_true, decide_eq_true_eq] at hev
    have htr : nfa_rw_send_data_to_upper_trace p_rw_data = [] := by
      simp [nfa_rw_send_data_to_upper_trace, hs]
    rcases hev with (((hev | hev) | hev) | hev) | hev <;> subst hev <;>
      simp [nfa_rw_cback, nfa_rw_handle_t1t_evt, nfa_rw_handle_t2t_evt, nfa_rw_handle_t3t_evt,
        nfa_rw_handle_t4t_evt, nfa_rw_handle_i93_evt, clear_cur_op, World.since, htr]

/-- Witness of `C12_failure_policy`: the Type-1 NDEF write completion with status
FAILED while the write is in flight. -/
theorem C12_failure_policy_witness :
    failureReported wWritingT1
      (nfa_rw_cback envAccept (tRW_EVENT.t1t RW_T1T_NDEF_WRITE_EVT) { status := FAILED }
        wWritingT1) :=
  (C12_failure_policy envAccept (tRW_EVENT.t1t RW_T1T_NDEF_WRITE_EVT) { status := FAILED }
    wWritingT1).1 rfl (by decide)

/-! ## NDEF write completion (claim C13) -/

/-- Claim C13, as stated, fails: after a Type-1 NDEF write completion with status
OK while write-ndef is in flight, the NDEF-detection-state is still True, not
Unknown. -/
theorem C13_counterexample_write_success_keeps_state :
    wWritingT1.cb.cur_op = NFA_RW_OP_WRITE_NDEF ∧
    wWritingT1.cb.ndef_st = NFA_RW_NDEF_ST_TRUE ∧
    (nfa_rw_cback envAccept (tRW_EVENT.t1t RW_T1T_NDEF_WRITE_EVT) { status := OK }
      wWritingT1).cb.ndef_st = NFA_RW_NDEF_ST_TRUE := by
  decide

/-- Claim C13, amended: for every family, when a write-ndef operation is in flight
and the NDEF-write completion reports success (Type-1 and Type-2 `NDEF_WRITE`
and Type-3 `UPDATE_CPLT` with status OK, Type-4 and ISO 15693
`NDEF_UPDATE_CPLT`), the NDEF-detection-state keeps the value it had and the
stored current size becomes the written length, so the next read needs no new
detection.  The Type-1 handler sets the state to Unknown when the completion
reports a failure. -/
theorem C13_write_success_keeps_ndef_state (env : Env) (w : World) (p_rw_data : tRW_DATA)
    (hop : w.cb.cur_op = NFA_RW_OP_WRITE_NDEF) :
    (p_rw_data.status = OK →
      (nfa_rw_cback env (tRW_EVENT.t1t RW_T1T_NDEF_WRITE_EVT) p_rw_data w).cb.ndef_st
        = w.cb.ndef_st ∧
      (nfa_rw_cback env (tRW_EVENT.t1t RW_T1T_NDEF_WRITE_EVT) p_rw_data w).cb.ndef_cur_size
        = w.cb.ndef_wr_len ∧
      (nfa_rw_cback env (tRW_EVENT.t2t RW_T2T_NDEF_WRITE_EVT) p_rw_data w).cb.ndef_st
        = w.cb.ndef_st ∧
      (nfa_rw_cback env (tRW_EVENT.t2t RW_T2T_NDEF_WRITE_EVT) p_rw_data w).cb.ndef_cur_size
        = w.cb.ndef_wr_len ∧
      (nfa_rw_cback env (tRW_EVENT.t3t RW_T3T_UPDATE_CPLT_EVT) p_rw_data w).cb.ndef_st
        = w.cb.ndef_st ∧
      (nfa_rw_cback env (tRW_EVENT.t3t RW_T3T_UPDATE_CPLT_EVT) p_rw_data w).cb.ndef_cur_size
        = w.cb.ndef_wr_len) ∧
    (nfa_rw_cback env (tRW_EVENT.t4t RW_T4T_NDEF_UPDATE_CPLT_EVT) p_rw_data w).cb.ndef_st
      = w.cb.ndef_st ∧
    (nfa_rw_cback env (tRW_EVENT.t4t RW_T4T_NDEF_UPDATE_CPLT_EVT) p_rw_data w).cb.ndef_cur_size
      = w.cb.ndef_wr_len ∧
    (nfa_rw_cback env (tRW_EVENT.i93 RW_I93_NDEF_UPDATE_CPLT_EVT) p_rw_data w).cb.ndef_st
      = w.cb.ndef_st ∧
    (nfa_rw_cback env (tRW_EVENT.i93 RW_I93_NDEF_UPDATE_CPLT_EVT) p_rw_data w).cb.ndef_cur_size
      = w.cb.ndef_wr_len ∧
    (p_rw_data.status ≠ OK →
      (nfa_rw_cback env (tRW_EVENT.t1t RW_T1T_NDEF_WRITE_EVT) p_rw_data w).cb.ndef_st
        = NFA_RW_NDEF_ST_UNKNOWN) := by
  refine ⟨?_, ?_, ?_, ?_, ?_, ?_⟩
  · intro hs
    simp [nfa_rw_cback, nfa_rw_handle_t1t_evt, nfa_rw_handle_t2t_evt, nfa_rw_handle_t3t_evt,
      update_cur_size_on_write, hop, hs]
  · simp [nfa_rw_cback, nfa_rw_handle_t4t_evt, update_cur_size_on_write, clear_cur_op, hop]
  · simp [nfa_rw_cback, nfa_rw_handle_t4t_evt, update_cur_size_on_write, clear_cur_op, hop]
  · simp [nfa_rw_cback, nfa_rw_handle_i93_evt, update_cur_size_on_write, clear_cur_op, hop]
  · simp [nfa_rw_cback, nfa_rw_handle_i93_evt, update_cur_size_on_write, clear_cur_op, hop]
  · intro hs
    simp [nfa_rw_cback, nfa_rw_handle_t1t_evt, update_cur_size_on_write, hop, hs]

/-- Witness of `C13_write_success_keeps_ndef_state`: the Type-1 write of 3 bytes
completes with status OK. -/
theorem C13_write_success_keeps_ndef_state_witness :
    (nfa_rw_cback envAccept (tRW_EVENT.t1t RW_T1T_NDEF_WRITE_EVT) { status := OK }
      wWritingT1).cb.ndef_st = wWritingT1.cb.ndef_st ∧
    (nfa_rw_cback envAccept (tRW_EVENT.t1t RW_T1T_NDEF_WRITE_EVT) { status := OK }
      wWritingT1).cb.ndef_cur_size = wWritingT1.cb.ndef_wr_len :=
  ⟨((C13_write_success_keeps_ndef_state envAccept wWritingT1 { status := OK } rfl).1 rfl).1,
   ((C13_write_success_keeps_ndef_state envAccept wWritingT1 { status := OK } rfl).1 rfl).2.1⟩

/-- The make-read-only call of `nfa_rw_config_tag_ro` for a protocol, when the
function issues one directly: Type-1, Type-2 and ISO 15693. -/
theorem config_tag_ro_t2t (env : Env) (b : Bool) (w : World)
    (hp : w.cb.protocol = NFC_PROTOCOL_T2T)
    (hsel : w.cb.pa_sel_res = env.NFC_SEL_RES_NFC_FORUM_T2T)
    (hacc : env.rw (tRW_T2T_CALL.RW_T2tSetTagReadOnly b) = OK) :
    nfa_rw_config_tag_ro env b w
      = (OK, { cb := { w.cb with ndef_st := NFA_RW_NDEF_ST_UNKNOWN }
               out := w.out ++ [Effect.call (tRW_T2T_CALL.RW_T2tSetTagReadOnly b)] }) := by
  simp [nfa_rw_config_tag_ro, hp, hsel, hacc, World.emit]

theorem config_tag_ro_t1t (env : Env) (b : Bool) (w : World)
    (hp : w.cb.protocol = NFC_PROTOCOL_T1T)
    (htlv : w.cb.tlv_st.lock_tlv_op_complete = true)
    (hacc : env.rw (tRW_T1T_CALL.RW_T1tSetTagReadOnly b) = OK) :
    nfa_rw_config_tag_ro env b w
      = (OK, { cb := { w.cb with ndef_st := NFA_RW_NDEF_ST_UNKNOWN }
               out := w.out ++ [Effect.call (tRW_T1T_CALL.RW_T1tSetTagReadOnly b)] }) := by
  have h1 : w.cb.tlv_st ≠ NFA_RW_TLV_DETECT_ST_OP_NOT_STARTED := by
    intro h
    rw [h] at htlv
    simp [NFA_RW_TLV_DETECT_ST_OP_NOT_STARTED] at htlv
  have h2 : w.cb.tlv_st ≠ NFA_RW_TLV_DETECT_ST_MEM_TLV_OP_COMPLETE := by
    intro h
    rw [h] at htlv
    simp [NFA_RW_TLV_DETECT_ST_MEM_TLV_OP_COMPLETE] at htlv
  simp [nfa_rw_config_tag_ro, hp, h1, h2, hacc, World.emit]

theorem config_tag_ro_i93 (env : Env) (b : Bool) (w : World)
    (hp : w.cb.protocol = NFC_PROTOCOL_15693)
    (hacc : env.rw tRW_I93_CALL.RW_I93SetTagReadOnly = OK) :
    nfa_rw_config_tag_ro env b w
      = (OK, { cb := w.cb
               out := w.out ++ [Effect.call tRW_I93_CALL.RW_I93SetTagReadOnly] }) := by
  simp [nfa_rw_config_tag_ro, hp, hacc, World.emit, rw_call]

/-! ## Set-read-only completion (claim C14) -/

/-- Claim C14, as stated, fails for vicinity tags: a set-read-only request on an
ISO 15693 tag whose detection state is True is accepted by the engine and its
completion reports OK; the detection state is still True afterwards (the
TagReadOnly flag is set). -/
theorem C14_counterexample_vicinity_keeps_ndef_state :
    wDetectedI93.cb.ndef_st = NFA_RW_NDEF_ST_TRUE ∧
    callsOf (nfa_rw_handle_op_req envAccept { op := NFA_RW_OP_SET_TAG_RO } wDetectedI93).2.out
      = [(tRW_I93_CALL.RW_I93SetTagReadOnly : tRW_CALL)] ∧
    (nfa_rw_cback envAccept (tRW_EVENT.i93 RW_I93_SET_TAG_RO_EVT) { status := OK }
      (nfa_rw_handle_op_req envAccept { op := NFA_RW_OP_SET_TAG_RO }
        wDetectedI93).2).cb.ndef_st = NFA_RW_NDEF_ST_TRUE ∧
    (nfa_rw_cback envAccept (tRW_EVENT.i93 RW_I93_SET_TAG_RO_EVT) { status := OK }
      (nfa_rw_handle_op_req envAccept { op := NFA_RW_OP_SET_TAG_RO }
        wDetectedI93).2).cb.flags.NFA_RW_FL_TAG_IS_READONLY = true := by
  decide

/-- Claim C14, amended: a set-read-only request is executed and its
make-read-only command is accepted by the engine.  For a Type-1 tag whose lock
TLV has been located, for a Type-1 tag whose lock TLV is located first (the
probe is accepted and completes), and for a Type-2 tag with the NFC-Forum
selector value, the NDEF-detection-state is Unknown after the completion.  For
a vicinity tag the completion sets the TagReadOnly flag and the
NDEF-detection-state keeps the value it had before the request. -/
theorem C14_set_tag_ro_completion (env : Env) (w : World) (req : tNFA_RW_OPERATION)
    (p_rw_data p_tlv : tRW_DATA)
    (hop : req.op = NFA_RW_OP_SET_TAG_RO)
    (hact : w.cb.flags.NFA_RW_FL_ACTIVATED = true)
    (hidle : w.cb.flags.NFA_RW_FL_API_BUSY = false)
    (hauto : w.cb.flags.NFA_RW_FL_AUTO_PRESENCE_CHECK_BUSY = false) :
    (w.cb.protocol = NFC_PROTOCOL_T1T → w.cb.tlv_st.lock_tlv_op_complete = true →
      env.rw (tRW_T1T_CALL.RW_T1tSetTagReadOnly req.params.set_readonly_b_hard_lock) = OK →
      (nfa_rw_cback env (tRW_EVENT.t1t RW_T1T_SET_TAG_RO_EVT) p_rw_data
        (nfa_rw_handle_op_req env req w).2).cb.ndef_st = NFA_RW_NDEF_ST_UNKNOWN) ∧
    (w.cb.protocol = NFC_PROTOCOL_T1T → w.cb.tlv_st.lock_tlv_op_complete = false →
      env.rw (tRW_T1T_CALL.RW_T1tLocateTlv TAG_LOCK_CTRL_TLV) = OK →
      env.rw (tRW_T1T_CALL.RW_T1tSetTagReadOnly req.params.set_readonly_b_hard_lock) = OK →
      (nfa_rw_cback env (tRW_EVENT.t1t RW_T1T_SET_TAG_RO_EVT) p_rw_data
        (nfa_rw_cback env (tRW_EVENT.t1t RW_T1T_TLV_DETECT_EVT) p_tlv
          (nfa_rw_handle_op_req env req w).2)).cb.ndef_st = NFA_RW_NDEF_ST_UNKNOWN) ∧
    (w.cb.protocol = NFC_PROTOCOL_T2T → w.cb.pa_sel_res = env.NFC_SEL_RES_NFC_FORUM_T2T →
      env.rw (tRW_T2T_CALL.RW_T2tSetTagReadOnly req.params.set_readonly_b_hard_lock) = OK →
      (nfa_rw_cback env (tRW_EVENT.t2t RW_T2T_SET_TAG_RO_EVT) p_rw_data
        (nfa_rw_handle_op_req env req w).2).cb.ndef_st = NFA_RW_NDEF_ST_UNKNOWN) ∧
    (w.cb.protocol = NFC_PROTOCOL_15693 →
      env.rw tRW_I93_CALL.RW_I93SetTagReadOnly = OK →
      (nfa_rw_cback env (tRW_EVENT.i93 RW_I93_SET_TAG_RO_EVT) p_rw_data
        (nfa_rw_handle_op_req env req w).2).cb.ndef_st = w.cb.ndef_st ∧
      (nfa_rw_cback env (tRW_EVENT.i93 RW_I93_SET_TAG_RO_EVT) p_rw_data
        (nfa_rw_handle_op_req env req w).2).cb.flags.NFA_RW_FL_TAG_IS_READONLY = true) := by
  obtain ⟨op, params⟩ := req
  simp only at hop
  subst hop
  have hexec : (nfa_rw_handle_op_req env { op := NFA_RW_OP_SET_TAG_RO, params := params } w).2
      = (nfa_rw_config_tag_ro env params.set_readonly_b_hard_lock
          { cb := { w.cb with
                    cur_op := NFA_RW_OP_SET_TAG_RO
                    b_hard_lock := params.set_readonly_b_hard_lock
                    flags := { w.cb.flags with NFA_RW_FL_API_BUSY := true } }
            out := w.out ++ [Effect.nfa_sys_stop_timer] }).2 := by
    simp [nfa_rw_handle_op_req, nfa_rw_handle_op_req_switch, nfa_rw_stop_presence_check_timer,
      World.setFlags, World.emit, hact, hidle, hauto]
  rw [hexec]
  refine ⟨?_, ?_, ?_, ?_⟩
  · intro hp htlv hacc
    simp [config_tag_ro_t1t, hp, htlv, hacc, nfa_rw_cback, nfa_rw_handle_t1t_evt]
  · intro hp htlv hloc hacc
    have hst : w.cb.tlv_st = NFA_RW_TLV_DETECT_ST_OP_NOT_STARTED
        ∨ w.cb.tlv_st = NFA_RW_TLV_DETECT_ST_MEM_TLV_OP_COMPLETE := by
      rcases hts : w.cb.tlv_st with ⟨l, m⟩
      rw [hts] at htlv
      simp only at htlv
      subst htlv
      cases m <;> simp [NFA_RW_TLV_DETECT_ST_OP_NOT_STARTED,
        NFA_RW_TLV_DETECT_ST_MEM_TLV_OP_COMPLETE]
    have hprobe : (nfa_rw_config_tag_ro env params.set_readonly_b_hard_lock
          { cb := { w.cb with
                    cur_op := NFA_RW_OP_SET_TAG_RO
                    b_hard_lock := params.set_readonly_b_hard_lock
                    flags := { w.cb.flags with NFA_RW_FL_API_BUSY := true } }
            out := w.out ++ [Effect.nfa_sys_stop_timer] }).2
        = { cb := { w.cb with
                    cur_op := NFA_RW_OP_SET_TAG_RO
                    b_hard_lock := params.set_readonly_b_hard_lock
                    flags := { w.cb.flags with NFA_RW_FL_API_BUSY := true } }
            out := w.out ++ [Effect.nfa_sys_stop_timer]
              ++ [Effect.call (tRW_T1T_CALL.RW_T1tLocateTlv TAG_LOCK_CTRL_TLV)] } := by
      simp [nfa_rw_config_tag_ro, hp, hst, rw_call, World.emit]
    rw [hprobe]
    simp only [nfa_rw_cback, nfa_rw_handle_t1t_evt, nfa_rw_handle_tlv_detect]
    simp only [command_complete_cb, emit_cb, if_true]
    by_cases hs : p_tlv.status = OK
    · rcases hst with hst | hst <;>
        simp [hs, hst, config_tag_ro_t1t, hp, hacc, NFA_RW_TLV_DETECT_ST_OP_NOT_STARTED,
          NFA_RW_TLV_DETECT_ST_MEM_TLV_OP_COMPLETE, NFA_RW_TLV_DETECT_ST_LOCK_TLV_OP_COMPLETE,
          NFA_RW_TLV_DETECT_ST_COMPLETE]
    · rcases hst with hst | hst <;>
        simp [hs, hst, config_tag_ro_t1t, hp, hacc, NFA_RW_TLV_DETECT_ST_OP_NOT_STARTED,
          NFA_RW_TLV_DETECT_ST_MEM_TLV_OP_COMPLETE, NFA_RW_TLV_DETECT_ST_LOCK_TLV_OP_COMPLETE,
          NFA_RW_TLV_DETECT_ST_COMPLETE]
  · intro hp hsel hacc
    simp [config_tag_ro_t2t, hp, hsel, hacc, nfa_rw_cback, nfa_rw_handle_t2t_evt]
  · intro hp hacc
    simp [config_tag_ro_i93, hp, hacc, nfa_rw_cback, nfa_rw_handle_i93_evt, clear_cur_op,
      World.setFlags]

/-- Witness of `C14_set_tag_ro_completion`: a Type-2 tag with the NFC-Forum
selector value. -/
theorem C14_set_tag_ro_completion_witness :
    (nfa_rw_cback envAccept (tRW_EVENT.t2t RW_T2T_SET_TAG_RO_EVT) { status := OK }
      (nfa_rw_handle_op_req envAccept { op := NFA_RW_OP_SET_TAG_RO } wDetectedT2).2).cb.ndef_st
      = NFA_RW_NDEF_ST_UNKNOWN :=
  (C14_set_tag_ro_completion envAccept wDetectedT2 { op := NFA_RW_OP_SET_TAG_RO }
    { status := OK } { status := OK } rfl rfl rfl rfl).2.2.1 rfl rfl rfl

/-! ## Block writes (claim C15) -/

/-- Claim C15, as stated, fails: a Type-1 write to block 5 and a Type-2 write to
block 4 are executed and accepted by the engine, and the NDEF-detection-state
True is still True on return. -/
theorem C15_counterexample_block_write_keeps_ndef_state :
    callsOf (nfa_rw_handle_op_req envAccept reqT1tWriteBlock5 wDetected).2.out
      = [(tRW_T1T_CALL.RW_T1tWriteErase 5 0 7 : tRW_CALL)] ∧
    notifsOf (nfa_rw_handle_op_req envAccept reqT1tWriteBlock5 wDetected).2.out = [] ∧
    (nfa_rw_handle_op_req envAccept reqT1tWriteBlock5 wDetected).2.cb.ndef_st
      = NFA_RW_NDEF_ST_TRUE ∧
    callsOf (nfa_rw_handle_op_req envAccept reqT2tWriteBlock4 wDetectedT2).2.out
      = [(tRW_T2T_CALL.RW_T2tWrite 4 [1, 2, 3, 4] : tRW_CALL)] ∧
    (nfa_rw_handle_op_req envAccept reqT2tWriteBlock4 wDetectedT2).2.cb.ndef_st
      = NFA_RW_NDEF_ST_TRUE := by
  decide

/-- Claim C15, amended: a block-write request that is executed and accepted by the
engine resets the NDEF-detection-state to Unknown only when it targets the
block that holds the capability container: block 1 for the Type-1 write and
8-byte write, block 3 for the Type-2 write.  For every other block, and for
every Type-3 write, the NDEF-detection-state keeps its value. -/
theorem C15_block_write_ndef_state (env : Env) (w : World) (req : tNFA_RW_OPERATION)
    (hact : w.cb.flags.NFA_RW_FL_ACTIVATED = true)
    (hidle : w.cb.flags.NFA_RW_FL_API_BUSY = false)
    (hauto : w.cb.flags.NFA_RW_FL_AUTO_PRESENCE_CHECK_BUSY = false) :
    (req.op = NFA_RW_OP_T1T_WRITE →
      env.rw (if req.params.t1t_write.b_erase then
          (tRW_T1T_CALL.RW_T1tWriteErase req.params.t1t_write.block_number
            req.params.t1t_write.index (req.params.t1t_write.p_block_data.headD 0) : tRW_CALL)
        else
          (tRW_T1T_CALL.RW_T1tWriteNoErase req.params.t1t_write.block_number
            req.params.t1t_write.index (req.params.t1t_write.p_block_data.headD 0) : tRW_CALL))
        = OK →
      (nfa_rw_handle_op_req env req w).2.cb.ndef_st
        = if req.params.t1t_write.block_number = 1 then NFA_RW_NDEF_ST_UNKNOWN
          else w.cb.ndef_st) ∧
    (req.op = NFA_RW_OP_T1T_WRITE8 →
      env.rw (if req.params.t1t_write.b_erase then
          (tRW_T1T_CALL.RW_T1tWriteErase8 req.params.t1t_write.block_number
            req.params.t1t_write.p_block_data : tRW_CALL)
        else
          (tRW_T1T_CALL.RW_T1tWriteNoErase8 req.params.t1t_write.block_number
            req.params.t1t_write.p_block_data : tRW_CALL))
        = OK →
      (nfa_rw_handle_op_req env req w).2.cb.ndef_st
        = if req.params.t1t_write.block_number = 1 then NFA_RW_NDEF_ST_UNKNOWN
          else w.cb.ndef_st) ∧
    (req.op = NFA_RW_OP_T2T_WRITE →
      env.rw (tRW_T2T_CALL.RW_T2tWrite req.params.t2t_write.block_number
        req.params.t2t_write.p_block_data) = OK →
      (nfa_rw_handle_op_req env req w).2.cb.ndef_st
        = if req.params.t2t_write.block_number = 3 then NFA_RW_NDEF_ST_UNKNOWN
          else w.cb.ndef_st) ∧
    (req.op = NFA_RW_OP_T3T_WRITE →
      env.rw (tRW_T3T_CALL.RW_T3tUpdate req.params.t3t_write.num_blocks
        req.params.t3t_write.p_block_desc req.params.t3t_write.p_block_data) = OK →
      (nfa_rw_handle_op_req env req w).2.cb.ndef_st = w.cb.ndef_st) := by
  obtain ⟨op, params⟩ := req
  refine ⟨?_, ?_, ?_, ?_⟩
  · intro hop hacc
    simp only at hop hacc
    subst hop
    by_cases hblk : params.t1t_write.block_number = 1 <;>
      cases hb : params.t1t_write.b_erase <;>
      simp_all [nfa_rw_handle_op_req, nfa_rw_handle_op_req_switch,
        nfa_rw_stop_presence_check_timer, World.setFlags, World.emit, nfa_rw_t1t_write]
  · intro hop hacc
    simp only at hop hacc
    subst hop
    by_cases hblk : params.t1t_write.block_number = 1 <;>
      cases hb : params.t1t_write.b_erase <;>
      simp_all [nfa_rw_handle_op_req, nfa_rw_handle_op_req_switch,
        nfa_rw_stop_presence_check_timer, World.setFlags, World.emit, nfa_rw_t1t_write8]
  · intro hop hacc
    simp only at hop hacc
    subst hop
    simp [nfa_rw_handle_op_req, nfa_rw_handle_op_req_switch, nfa_rw_stop_presence_check_timer,
      World.setFlags, World.emit, nfa_rw_t2t_write, hact, hidle, hauto, hacc]
    split <;> simp_all
  · intro hop hacc
    simp only at hop hacc
    subst hop
    simp [nfa_rw_handle_op_req, nfa_rw_handle_op_req_switch, nfa_rw_stop_presence_check_timer,
      World.setFlags, World.emit, nfa_rw_t3t_write, call_or_cleanup, hact, hidle, hauto, hacc]

/-- Witness of `C15_block_write_ndef_state`: the Type-1 write to block 5 on a
session whose detection succeeded. -/
theorem C15_block_write_ndef_state_witness :
    (nfa_rw_handle_op_req envAccept reqT1tWriteBlock5 wDetected).2.cb.ndef_st
      = if reqT1tWriteBlock5.params.t1t_write.block_number = 1 then NFA_RW_NDEF_ST_UNKNOWN
        else wDetected.cb.ndef_st :=
  (C15_block_write_ndef_state envAccept wDetected reqT1tWriteBlock5 rfl rfl rfl).1 rfl rfl

/-! ## Failure of the lock-TLV probe during set-read-only (claim C16) -/

/-- Claim C16, as stated, fails: with a set-read-only operation in flight on a
Type-1 tag, a lock-TLV probe completion with status FAILED is followed by the
make-read-only command, and no notification is emitted. -/
theorem C16_counterexample_probe_failure_continues :
    wSetRoLocating.cb.cur_op = NFA_RW_OP_SET_TAG_RO ∧
    callsOf (nfa_rw_cback envAccept (tRW_EVENT.t1t RW_T1T_TLV_DETECT_EVT) { status := FAILED }
      wSetRoLocating).out = [(tRW_T1T_CALL.RW_T1tSetTagReadOnly true : tRW_CALL)] ∧
    notifsOf (nfa_rw_cback envAccept (tRW_EVENT.t1t RW_T1T_TLV_DETECT_EVT) { status := FAILED }
      wSetRoLocating).out = [] := by
  decide

/-- Claim C16, amended: for a Type-1 tag with a set-read-only operation in flight,
when the lock-TLV probe completes with a status other than OK, command complete
runs (Busy is clear afterwards) and the operation goes on: the make-read-only
command is issued with the stored hard-lock choice, and it is the only engine
call.  If the engine accepts it, no notification is emitted and the
NDEF-detection-state is Unknown; if the engine rejects it, the failure is
notified: a notification is emitted, and every notification emitted is the
set-read-only notification with status FAILED. -/
theorem C16_probe_failure_continues (env : Env) (w : World) (p_rw_data : tRW_DATA)
    (hp : w.cb.protocol = NFC_PROTOCOL_T1T)
    (hop : w.cb.cur_op = NFA_RW_OP_SET_TAG_RO)
    (hs : p_rw_data.status ≠ OK) :
    (nfa_rw_cback env (tRW_EVENT.t1t RW_T1T_TLV_DETECT_EVT) p_rw_data
      w).cb.flags.NFA_RW_FL_API_BUSY = false ∧
    callsOf ((nfa_rw_cback env (tRW_EVENT.t1t RW_T1T_TLV_DETECT_EVT) p_rw_data w).since w)
      = [(tRW_T1T_CALL.RW_T1tSetTagReadOnly w.cb.b_hard_lock : tRW_CALL)] ∧
    (env.rw (tRW_T1T_CALL.RW_T1tSetTagReadOnly w.cb.b_hard_lock) = OK →
      notifsOf ((nfa_rw_cback env (tRW_EVENT.t1t RW_T1T_TLV_DETECT_EVT) p_rw_data w).since w)
        = [] ∧
      (nfa_rw_cback env (tRW_EVENT.t1t RW_T1T_TLV_DETECT_EVT) p_rw_data w).cb.ndef_st
        = NFA_RW_NDEF_ST_UNKNOWN) ∧
    (env.rw (tRW_T1T_CALL.RW_T1tSetTagReadOnly w.cb.b_hard_lock) ≠ OK →
      notifsOf ((nfa_rw_cback env (tRW_EVENT.t1t RW_T1T_TLV_DETECT_EVT) p_rw_data w).since w)
        ≠ [] ∧
      ∀ n ∈ notifsOf
          ((nfa_rw_cback env (tRW_EVENT.t1t RW_T1T_TLV_DETECT_EVT) p_rw_data w).since w),
        n = (NFA_SET_TAG_RO_EVT, { status := some FAILED })) := by
  have hne1 : (if w.cb.tlv_st = NFA_RW_TLV_DETECT_ST_OP_NOT_STARTED then
        NFA_RW_TLV_DETECT_ST_LOCK_TLV_OP_COMPLETE else NFA_RW_TLV_DETECT_ST_COMPLETE)
      ≠ NFA_RW_TLV_DETECT_ST_OP_NOT_STARTED := by
    split <;> decide
  have hne2 : (if w.cb.tlv_st = NFA_RW_TLV_DETECT_ST_OP_NOT_STARTED then
        NFA_RW_TLV_DETECT_ST_LOCK_TLV_OP_COMPLETE else NFA_RW_TLV_DETECT_ST_COMPLETE)
      ≠ NFA_RW_TLV_DETECT_ST_MEM_TLV_OP_COMPLETE := by
    split <;> decide
  by_cases hacc : env.rw (tRW_T1T_CALL.RW_T1tSetTagReadOnly w.cb.b_hard_lock) = OK
  · simp only [nfa_rw_cback, nfa_rw_handle_t1t_evt, nfa_rw_handle_tlv_detect,
      nfa_rw_config_tag_ro, World.since]
    simp [hp, hop, hs, hacc, hne1, hne2, callsOf, notifsOf]
  · simp only [nfa_rw_cback, nfa_rw_handle_t1t_evt, nfa_rw_handle_tlv_detect,
      nfa_rw_config_tag_ro, World.since]
    simp [hp, hop, hs, hacc, hne1, hne2, callsOf, notifsOf]

/-- Witness of `C16_probe_failure_continues`: the probe of a hard-lock request
fails and the engine accepts the make-read-only command. -/
theorem C16_probe_failure_continues_witness :
    (nfa_rw_cback envAccept (tRW_EVENT.t1t RW_T1T_TLV_DETECT_EVT) { status := FAILED }
      wSetRoLocating).cb.flags.NFA_RW_FL_API_BUSY = false ∧
    callsOf ((nfa_rw_cback envAccept (tRW_EVENT.t1t RW_T1T_TLV_DETECT_EVT) { status := FAILED }
      wSetRoLocating).since wSetRoLocating)
      = [(tRW_T1T_CALL.RW_T1tSetTagReadOnly wSetRoLocating.cb.b_hard_lock : tRW_CALL)] :=
  ⟨(C16_probe_failure_continues envAccept wSetRoLocating { status := FAILED } rfl rfl
      (by decide)).1,
   (C16_probe_failure_continues envAccept wSetRoLocating { status := FAILED } rfl rfl
      (by decide)).2.1⟩

/-! ## Synchronous rejections (claims C17, C18, C19) -/

/-- Claim C17 at its failing input: on an idle Type-1 session whose lock TLV has
not been located (TLV state NotStarted, or memory TLV only), with an engine
that rejects every call, a set-read-only request issues the locate probe and
returns with Busy still set and no notification.  With the lock TLV located,
the rejection of the make-read-only command by the same engine is cleaned up:
one set-read-only notification with status FAILED and Busy clear. -/
theorem C17_rejected_probe_leaves_busy :
    callsOf (nfa_rw_handle_op_req envReject { op := NFA_RW_OP_SET_TAG_RO } wIdle).2.out
      = [(tRW_T1T_CALL.RW_T1tLocateTlv TAG_LOCK_CTRL_TLV : tRW_CALL)] ∧
    notifsOf (nfa_rw_handle_op_req envReject { op := NFA_RW_OP_SET_TAG_RO } wIdle).2.out = [] ∧
    (nfa_rw_handle_op_req envReject { op := NFA_RW_OP_SET_TAG_RO }
      wIdle).2.cb.flags.NFA_RW_FL_API_BUSY = true ∧
    notifsOf (nfa_rw_handle_op_req envReject { op := NFA_RW_OP_SET_TAG_RO } wIdleMemTlv).2.out
      = [] ∧
    (nfa_rw_handle_op_req envReject { op := NFA_RW_OP_SET_TAG_RO }
      wIdleMemTlv).2.cb.flags.NFA_RW_FL_API_BUSY = true ∧
    notifsOf (nfa_rw_handle_op_req envReject { op := NFA_RW_OP_SET_TAG_RO } wIdleLockTlv).2.out
      = [(NFA_SET_TAG_RO_EVT, { status := some FAILED })] ∧
    (nfa_rw_handle_op_req envReject { op := NFA_RW_OP_SET_TAG_RO }
      wIdleLockTlv).2.cb.flags.NFA_RW_FL_API_BUSY = false := by
  decide

/-- Claim C18 at its failing inputs: a detect-lock-TLV request on an idle Type-3
session, a detect-mem-TLV request on a Type-2 session without the NFC-Forum
selector value, and a set-read-only request on an idle Type-3 or Type-4
session make no engine call, as claimed, but no notification is emitted and
Busy is still set on return.  The format request on a Type-4 session, which is
unsupported in this build, is rejected with one notification and Busy clear. -/
theorem C18_unsupported_request_leaves_busy :
    (nfa_rw_handle_op_req envAccept { op := NFA_RW_OP_DETECT_LOCK_TLV } wIdleT3).2.out
      = [Effect.nfa_sys_stop_timer] ∧
    (nfa_rw_handle_op_req envAccept { op := NFA_RW_OP_DETECT_LOCK_TLV }
      wIdleT3).2.cb.flags.NFA_RW_FL_API_BUSY = true ∧
    (nfa_rw_handle_op_req envAccept { op := NFA_RW_OP_DETECT_MEM_TLV } wT2NonForum).2.out
      = [Effect.nfa_sys_stop_timer] ∧
    (nfa_rw_handle_op_req envAccept { op := NFA_RW_OP_DETECT_MEM_TLV }
      wT2NonForum).2.cb.flags.NFA_RW_FL_API_BUSY = true ∧
    (nfa_rw_handle_op_req envAccept { op := NFA_RW_OP_SET_TAG_RO } wIdleT3).2.out
      = [Effect.nfa_sys_stop_timer] ∧
    (nfa_rw_handle_op_req envAccept { op := NFA_RW_OP_SET_TAG_RO }
      wIdleT3).2.cb.flags.NFA_RW_FL_API_BUSY = true ∧
    (nfa_rw_handle_op_req envAccept { op := NFA_RW_OP_SET_TAG_RO } wIdleT4).2.out
      = [Effect.nfa_sys_stop_timer] ∧
    (nfa_rw_handle_op_req envAccept { op := NFA_RW_OP_SET_TAG_RO }
      wIdleT4).2.cb.flags.NFA_RW_FL_API_BUSY = true ∧
    notifsOf (nfa_rw_handle_op_req envAccept { op := NFA_RW_OP_FORMAT_TAG } wIdleT4).2.out
      = [(NFA_FORMAT_CPLT_EVT, { status := some FAILED })] ∧
    callsOf (nfa_rw_handle_op_req envAccept { op := NFA_RW_OP_FORMAT_TAG } wIdleT4).2.out = [] ∧
    (nfa_rw_handle_op_req envAccept { op := NFA_RW_OP_FORMAT_TAG }
      wIdleT4).2.cb.flags.NFA_RW_FL_API_BUSY = false := by
  decide

/-- Claim C19 at its failing inputs: on a Type-2 session whose selector value is
not the NFC-Forum Type-2 value, a block-write request and a sector-select
request reach the engine (`RW_T2tWrite`, `RW_T2tSectorSelect`).  The other
Type-2 requests make no engine call on that session; the block read is
answered with a read-complete notification of status FAILED. -/
theorem C19_non_forum_t2t_write_reaches_engine :
    wT2NonForum.cb.protocol = NFC_PROTOCOL_T2T ∧
    wT2NonForum.cb.pa_sel_res ≠ envAccept.NFC_SEL_RES_NFC_FORUM_T2T ∧
    callsOf (nfa_rw_handle_op_req envAccept reqT2tWriteBlock4 wT2NonForum).2.out
      = [(tRW_T2T_CALL.RW_T2tWrite 4 [1, 2, 3, 4] : tRW_CALL)] ∧
    callsOf (nfa_rw_handle_op_req envAccept { op := NFA_RW_OP_T2T_SECTOR_SELECT }
      wT2NonForum).2.out = [(tRW_T2T_CALL.RW_T2tSectorSelect 0 : tRW_CALL)] ∧
    (∀ op ∈ t2tGatedOps,
      callsOf (nfa_rw_handle_op_req envAccept { op := op } wT2NonForum).2.out = []) ∧
    notifsOf (nfa_rw_handle_op_req envAccept { op := NFA_RW_OP_T2T_READ } wT2NonForum).2.out
      = [(NFA_READ_CPLT_EVT, { status := some FAILED })] := by
  decide

/-! ## Return value of the request handler (claim C20) -/

/-- Claim C20 at its failing input: `nfa_rw_handle_op_req` returns TRUE on every
input, also when it keeps the request as the pending request: with an automatic
presence check outstanding and Busy clear, the request is stored in the pending
slot and the return value is TRUE, so the caller frees a buffer the control
block still points to. -/
theorem C20_retained_request_returns_true :
    (∀ (env : Env) (req : tNFA_RW_OPERATION) (w : World),
      (nfa_rw_handle_op_req env req w).1 = true) ∧
    (nfa_rw_handle_op_req envAccept reqWrite150 wAuto).2.cb.p_pending_msg = some reqWrite150 ∧
    (nfa_rw_handle_op_req envAccept reqWrite150 wAuto).1 = true := by
  refine ⟨?_, by decide, by decide⟩
  intro env req w
  simp only [nfa_rw_handle_op_req, nfa_rw_op_req_while_busy]
  repeat' split
  all_goals rfl

/-! ## Presence check (claims C21 and C22) -/

@[simp]
theorem activationsOf_append (a b : List Effect) :
    activationsOf (a ++ b) = activationsOf a ++ activationsOf b := by
  induction a with
  | nil => rfl
  | cons e t ih => cases e <;> simp [activationsOf, ih]

@[simp]
theorem activationsOf_timer (c : Prop) [Decidable c] :
    activationsOf (if c then [Effect.nfa_sys_start_timer] else []) = [] := by
  split <;> rfl

/-- Claim C21: for every presence-check response handled while AutoPresenceCheckBusy
is clear, Busy is clear afterwards, exactly one presence-check notification
carrying the response status is emitted, no engine call is made, the
presence-check timer is started if and only if the status is OK,
NotExclusiveRfMode is set and the automatic presence check is compiled in, and
RF deactivation is requested if and only if the status is not OK and
NotExclusiveRfMode is set.  The presence-check completion of every family is
handled by this function. -/
theorem C21_explicit_presence_check_rsp (env : Env) (status : tNFC_STATUS) (w : World)
    (hauto : w.cb.flags.NFA_RW_FL_AUTO_PRESENCE_CHECK_BUSY = false) :
    (nfa_rw_handle_presence_check_rsp env status w).cb.flags.NFA_RW_FL_API_BUSY = false ∧
    notifsOf ((nfa_rw_handle_presence_check_rsp env status w).since w)
      = [(NFA_PRESENCE_CHECK_EVT, { status := some status })] ∧
    callsOf ((nfa_rw_handle_presence_check_rsp env status w).since w) = [] ∧
    (Effect.nfa_sys_start_timer ∈ (nfa_rw_handle_presence_check_rsp env status w).since w ↔
      (status = OK ∧ w.cb.flags.NFA_RW_FL_NOT_EXCL_RF_MODE = true
        ∧ env.NFA_DM_AUTO_PRESENCE_CHECK = true)) ∧
    (Effect.nfa_dm_rf_deactivate ∈ (nfa_rw_handle_presence_check_rsp env status w).since w ↔
      (status ≠ OK ∧ w.cb.flags.NFA_RW_FL_NOT_EXCL_RF_MODE = true)) ∧
    (∀ p_rw_data : tRW_DATA, p_rw_data.status = status →
      nfa_rw_cback env (tRW_EVENT.t1t RW_T1T_PRESENCE_CHECK_EVT) p_rw_data w
        = nfa_rw_handle_presence_check_rsp env status w ∧
      nfa_rw_cback env (tRW_EVENT.t2t RW_T2T_PRESENCE_CHECK_EVT) p_rw_data w
        = nfa_rw_handle_presence_check_rsp env status w ∧
      nfa_rw_cback env (tRW_EVENT.t3t RW_T3T_PRESENCE_CHECK_EVT) p_rw_data w
        = nfa_rw_handle_presence_check_rsp env status w ∧
      nfa_rw_cback env (tRW_EVENT.t4t RW_T4T_PRESENCE_CHECK_EVT) p_rw_data w
        = nfa_rw_handle_presence_check_rsp env status w ∧
      nfa_rw_cback env (tRW_EVENT.i93 RW_I93_PRESENCE_CHECK_EVT) p_rw_data w
        = nfa_rw_handle_presence_check_rsp env status w) := by
  refine ⟨?_, ?_, ?_, ?_, ?_, ?_⟩
  · by_cases hs : status = OK <;>
      cases hx : w.cb.flags.NFA_RW_FL_NOT_EXCL_RF_MODE <;>
      simp [nfa_rw_handle_presence_check_rsp, nfa_rw_handle_presence_check_rsp_with,
        World.setFlags, hauto, hs, hx]
  · by_cases hs : status = OK <;>
      cases hx : w.cb.flags.NFA_RW_FL_NOT_EXCL_RF_MODE <;>
      simp [nfa_rw_handle_presence_check_rsp, nfa_rw_handle_presence_check_rsp_with,
        World.setFlags, World.since, hauto, hs, hx, notifsOf]
  · by_cases hs : status = OK <;>
      cases hx : w.cb.flags.NFA_RW_FL_NOT_EXCL_RF_MODE <;>
      simp [nfa_rw_handle_presence_check_rsp, nfa_rw_handle_presence_check_rsp_with,
        World.setFlags, World.since, hauto, hs, hx, callsOf]
  · by_cases hs : status = OK <;>
      cases hx : w.cb.flags.NFA_RW_FL_NOT_EXCL_RF_MODE <;>
      cases hb : env.NFA_DM_AUTO_PRESENCE_CHECK <;>
      simp [nfa_rw_handle_presence_check_rsp, nfa_rw_handle_presence_check_rsp_with,
        World.setFlags, World.since, hauto, hs, hx, hb]
  · by_cases hs : status = OK <;>
      cases hx : w.cb.flags.NFA_RW_FL_NOT_EXCL_RF_MODE <;>
      cases hb : env.NFA_DM_AUTO_PRESENCE_CHECK <;>
      simp [nfa_rw_handle_presence_check_rsp, nfa_rw_handle_presence_check_rsp_with,
        World.setFlags, World.since, hauto, hs, hx, hb]
  · intro p_rw_data hst
    subst hst
    exact ⟨rfl, rfl, rfl, rfl, rfl⟩

/-- Witness of `C21_explicit_presence_check_rsp`: an explicitly requested check
fails outside exclusive RF mode. -/
theorem C21_explicit_presence_check_rsp_witness :
    notifsOf ((nfa_rw_handle_presence_check_rsp envAccept FAILED wPresenceCheck).since
      wPresenceCheck) = [(NFA_PRESENCE_CHECK_EVT, { status := some FAILED })] ∧
    (nfa_rw_handle_presence_check_rsp envAccept FAILED
      wPresenceCheck).cb.flags.NFA_RW_FL_API_BUSY = false :=
  ⟨(C21_explicit_presence_check_rsp envAccept FAILED wPresenceCheck rfl).2.1,
   (C21_explicit_presence_check_rsp envAccept FAILED wPresenceCheck rfl).1⟩

/-- Claim C22: for every active protocol and selector value `nfa_rw_presence_check`
issues exactly one liveness primitive: the probe of the Type-1, Type-3, Type-4
or ISO 15693 engine for those protocols, the Type-2 probe for Type-2 with the
NFC-Forum selector value, and the generic sleep/wake probe of the discovery
manager for Type-2 with any other selector value and for every other protocol.
If the primitive is accepted nothing else happens; if it is rejected the result
is that of handling a presence-check response with status FAILED. -/
theorem C22_presence_check_primitive (env : Env) (w : World) :
    (∃ c : tRW_CALL,
      (w.cb.protocol = NFC_PROTOCOL_T1T → c = tRW_T1T_CALL.RW_T1tPresenceCheck) ∧
      (w.cb.protocol = NFC_PROTOCOL_T3T → c = tRW_T3T_CALL.RW_T3tPresenceCheck) ∧
      (w.cb.protocol = NFC_PROTOCOL_ISO_DEP → c = tRW_T4T_CALL.RW_T4tPresenceCheck) ∧
      (w.cb.protocol = NFC_PROTOCOL_15693 → c = tRW_I93_CALL.RW_I93PresenceCheck) ∧
      (w.cb.protocol = NFC_PROTOCOL_T2T → w.cb.pa_sel_res = env.NFC_SEL_RES_NFC_FORUM_T2T →
        c = tRW_T2T_CALL.RW_T2tPresenceCheck) ∧
      (w.cb.protocol = NFC_PROTOCOL_T2T → w.cb.pa_sel_res ≠ env.NFC_SEL_RES_NFC_FORUM_T2T →
        c = tRW_CALL.nfa_dm_disc_presence_check) ∧
      (∀ code, w.cb.protocol = tNFC_PROTOCOL.OTHER code →
        c = tRW_CALL.nfa_dm_disc_presence_check) ∧
      callsOf ((nfa_rw_presence_check env w).since w) = [c] ∧
      (env.rw c = OK → nfa_rw_presence_check env w = w.emit (Effect.call c)) ∧
      (env.rw c ≠ OK →
        nfa_rw_presence_check env w
          = nfa_rw_handle_presence_check_rsp env FAILED (w.emit (Effect.call c)))) := by
  refine ⟨nfa_rw_presence_check_select env w.cb.protocol w.cb.pa_sel_res,
    ?_, ?_, ?_, ?_, ?_, ?_, ?_, ?_, ?_, ?_⟩
  · intro h; simp [nfa_rw_presence_check_select, h]
  · intro h; simp [nfa_rw_presence_check_select, h]
  · intro h; simp [nfa_rw_presence_check_select, h]
  · intro h; simp [nfa_rw_presence_check_select, h]
  · intro h h2; simp [nfa_rw_presence_check_select, h, h2]
  · intro h h2; simp [nfa_rw_presence_check_select, h, h2]
  · intro code h; simp [nfa_rw_presence_check_select, h]
  · by_cases hacc : env.rw (nfa_rw_presence_check_select env w.cb.protocol w.cb.pa_sel_res) = OK
    · simp [nfa_rw_presence_check, rw_call, hacc, World.since, World.emit, callsOf]
    · have hne : (FAILED : tNFC_STATUS) ≠ OK := by decide
      simp only [nfa_rw_presence_check, rw_call, hacc, nfa_rw_handle_presence_check_rsp_with,
        World.since, World.setFlags, World.emit]
      simp [hne]
      (repeat' split) <;> simp [callsOf]
  · intro hacc
    simp [nfa_rw_presence_check, rw_call, hacc]
  · intro hacc
    simp only [nfa_rw_presence_check, rw_call, nfa_rw_handle_presence_check_rsp]
    simp only [ne_eq, hacc, not_false_eq_true, if_true]
    exact nfa_rw_handle_presence_check_rsp_with_not_ok _ _ env FAILED _ (by decide)

/-! ## Requests outside a session (claim C27) -/

/-- Claim C27: for every session state with Activated clear and every operation
request, `nfa_rw_handle_op_req` returns the state it was given: no engine call,
no notification, no other action, and the control block is unchanged. -/
theorem C27_not_activated_dropped (env : Env) (p_data : tNFA_RW_OPERATION) (w : World)
    (hact : w.cb.flags.NFA_RW_FL_ACTIVATED = false) :
    (nfa_rw_handle_op_req env p_data w).2 = w ∧
    callsOf ((nfa_rw_handle_op_req env p_data w).2.since w) = [] ∧
    notifsOf ((nfa_rw_handle_op_req env p_data w).2.since w) = [] ∧
    (nfa_rw_handle_op_req env p_data w).2.since w = [] ∧
    (nfa_rw_handle_op_req env p_data w).2.cb = w.cb := by
  have h : (nfa_rw_handle_op_req env p_data w).2 = w := by
    simp [nfa_rw_handle_op_req, hact]
  rw [h]
  simp [World.since, callsOf, notifsOf]

/-- Witness of `C27_not_activated_dropped`: a write request after deactivation. -/
theorem C27_not_activated_dropped_witness :
    (nfa_rw_handle_op_req envAccept reqWrite150 wInactive).2 = wInactive :=
  (C27_not_activated_dropped envAccept reqWrite150 wInactive rfl).1

/-! ## Deactivation (claim C25) -/

/-- Claim C25: for every session state `nfa_rw_deactivate_ntf` clears Activated,
leaves no read buffer and no pending request in the session and stops the
timer; the read buffer is released if and only if there was one, and so is the
pending request.  Applying the function a second time leaves the control block
as the first application left it, and over both applications the buffer and
the pending request are each released at most once. -/
theorem C25_deactivate_idempotent (w : World) :
    (nfa_rw_deactivate_ntf w).2.cb.flags.NFA_RW_FL_ACTIVATED = false ∧
    (nfa_rw_deactivate_ntf w).2.cb.p_ndef_buf = none ∧
    (nfa_rw_deactivate_ntf w).2.cb.p_pending_msg = none ∧
    Effect.nfa_sys_stop_timer ∈ (nfa_rw_deactivate_ntf w).2.since w ∧
    ((nfa_rw_deactivate_ntf w).2.since w).count Effect.nfa_mem_co_free
      = (if w.cb.p_ndef_buf.isSome then 1 else 0) ∧
    ((nfa_rw_deactivate_ntf w).2.since w).countP Effect.isPendingRelease
      = (if w.cb.p_pending_msg.isSome then 1 else 0) ∧
    (nfa_rw_deactivate_ntf (nfa_rw_deactivate_ntf w).2).2.cb = (nfa_rw_deactivate_ntf w).2.cb ∧
    ((nfa_rw_deactivate_ntf (nfa_rw_deactivate_ntf w).2).2.since w).count
      Effect.nfa_mem_co_free ≤ 1 ∧
    ((nfa_rw_deactivate_ntf (nfa_rw_deactivate_ntf w).2).2.since w).countP
      Effect.isPendingRelease ≤ 1 := by
  obtain ⟨cb, out⟩ := w
  obtain ⟨a1, a2, a3, a4, a5, a6, a7, a8, a9, a10, buf, a12, pend, a14, a15, a16, a17, a18, a19⟩
    := cb
  cases buf <;> cases pend <;>
    simp [nfa_rw_deactivate_ntf, nfa_rw_free_ndef_rx_buf, nfa_rw_stop_presence_check_timer,
      World.setFlags, World.emit, World.since, Effect.isPendingRelease, List.countP_cons]

/-! ## Activation (claims C23 and C24) -/

/-- Claim C24: for every prior session state and every activation of a protocol
that the engine does not support, after `nfa_rw_activate_ntf` the flag set is
Activated, plus NotExclusiveRfMode exactly when the activation says that
exclusive RF mode is not active, the current operation is `NFA_RW_OP_MAX`, the
NDEF-detection-state is Unknown and the TLV-detection-state is NotStarted.  The
actions are: the raw-mode data callback is installed, one activation
notification with status OK and no tag parameters is emitted, and the
presence-check timer is started when NotExclusiveRfMode is set (and the
automatic presence check is compiled in); there is no engine call and no
engine initialisation. -/
theorem C24_unsupported_activation (env : Env) (p_data : tNFA_RW_ACTIVATE_NTF) (w : World)
    (hunsup : env.nfa_dm_is_protocol_supported p_data.p_activate_params.protocol
      p_data.p_activate_params.pa_sel_rsp = false) :
    (nfa_rw_activate_ntf env p_data w).2.cb.flags
      = { NFA_RW_FL_ACTIVATED := true, NFA_RW_FL_API_BUSY := false,
          NFA_RW_FL_AUTO_PRESENCE_CHECK_BUSY := false,
          NFA_RW_FL_NOT_EXCL_RF_MODE := p_data.excl_rf_not_active,
          NFA_RW_FL_TAG_IS_READONLY := false,
          NFA_RW_FL_ACTIVATION_NTF_PENDING := false } ∧
    (nfa_rw_activate_ntf env p_data w).2.cb.cur_op = NFA_RW_OP_MAX ∧
    (nfa_rw_activate_ntf env p_data w).2.cb.ndef_st = NFA_RW_NDEF_ST_UNKNOWN ∧
    (nfa_rw_activate_ntf env p_data w).2.cb.tlv_st = NFA_RW_TLV_DETECT_ST_OP_NOT_STARTED ∧
    (nfa_rw_activate_ntf env p_data w).2.since w
      = [Effect.NFC_SetStaticRfCback (some tNFC_CONN_CBACK.nfa_rw_raw_mode_data_cback),
         Effect.nfa_dm_notify_activation_status OK none]
        ++ (if env.NFA_DM_AUTO_PRESENCE_CHECK && p_data.excl_rf_not_active
            then [Effect.nfa_sys_start_timer] else []) ∧
    activationsOf ((nfa_rw_activate_ntf env p_data w).2.since w) = [(OK, none)] ∧
    callsOf ((nfa_rw_activate_ntf env p_data w).2.since w) = [] ∧
    (env.NFA_DM_AUTO_PRESENCE_CHECK = true →
      (Effect.nfa_sys_start_timer ∈ (nfa_rw_activate_ntf env p_data w).2.since w ↔
        (nfa_rw_activate_ntf env p_data w).2.cb.flags.NFA_RW_FL_NOT_EXCL_RF_MODE = true)) := by
  have hres : (nfa_rw_activate_ntf env p_data w).2
      = { cb := { w.cb with
                  protocol := p_data.p_activate_params.protocol
                  pa_sel_res := p_data.p_activate_params.pa_sel_rsp
                  flags := { NFA_RW_FL_ACTIVATED := true, NFA_RW_FL_API_BUSY := false,
                             NFA_RW_FL_AUTO_PRESENCE_CHECK_BUSY := false,
                             NFA_RW_FL_NOT_EXCL_RF_MODE := p_data.excl_rf_not_active,
                             NFA_RW_FL_TAG_IS_READONLY := false,
                             NFA_RW_FL_ACTIVATION_NTF_PENDING := false }
                  cur_op := NFA_RW_OP_MAX
                  ndef_st := NFA_RW_NDEF_ST_UNKNOWN
                  tlv_st := NFA_RW_TLV_DETECT_ST_OP_NOT_STARTED }
          out := w.out ++
            ([Effect.NFC_SetStaticRfCback (some tNFC_CONN_CBACK.nfa_rw_raw_mode_data_cback),
              Effect.nfa_dm_notify_activation_status OK none]
              ++ (if env.NFA_DM_AUTO_PRESENCE_CHECK && p_data.excl_rf_not_active
                  then [Effect.nfa_sys_start_timer] else [])) } := by
    simp only [nfa_rw_activate_ntf, hunsup, if_true, nfa_rw_check_start_presence_check_timer,
      World.emit]
    split <;> simp
  rw [hres]
  refine ⟨rfl, rfl, rfl, rfl, ?_, ?_, ?_, ?_⟩
  · simp only [since_self_append]
  · simp [since_self_append, activationsOf]
  · simp [since_self_append, callsOf]
  · intro hb
    cases hx : p_data.excl_rf_not_active <;> simp [since_self_append, hb, hx]

/-- Witness of `C24_unsupported_activation`: a protocol without a case in the
module, in an environment whose engine supports nothing. -/
theorem C24_unsupported_activation_witness :
    activationsOf ((nfa_rw_activate_ntf envUnsupported actOther wInactive).2.since wInactive)
      = [(OK, none)] ∧
    callsOf ((nfa_rw_activate_ntf envUnsupported actOther wInactive).2.since wInactive) = [] :=
  ⟨(C24_unsupported_activation envUnsupported actOther wInactive rfl).2.2.2.2.2.1,
   (C24_unsupported_activation envUnsupported actOther wInactive rfl).2.2.2.2.2.2.1⟩

/-- Claim C23 (scenario E): for an ISO 15693 activation with a supported protocol
and a successful engine initialisation, let `uid` be the tag UID as the
handler stores it.  If byte 1 of `uid` is the manufacturer code and the masked
byte 2 is one of the two product ids of the fixed-layout families, the handler
issues exactly one engine command, INVENTORY with AFI 0 and `uid`, and the
block size, AFI location and block count are those of the family; otherwise it
issues exactly one engine command, GET-SYSTEM-INFO with `uid`, and block size
and block count are 0.  In both cases no activation notification has been
emitted on return and ActivationNotifyPending is set. -/
theorem C23_vicinity_activation (env : Env) (p_data : tNFA_RW_ACTIVATE_NTF) (w : World)
    (hsup : env.nfa_dm_is_protocol_supported p_data.p_activate_params.protocol
      p_data.p_activate_params.pa_sel_rsp = true)
    (hinit : env.RW_SetActivatedTagType p_data.p_activate_params = OK)
    (hp : p_data.p_activate_params.protocol = NFC_PROTOCOL_15693) :
    ((env.ARRAY8_TO_STREAM p_data.p_activate_params.pi93_uid).getD 1 0
        = env.I93_UID_IC_MFG_CODE_TI
      ∧ (((env.ARRAY8_TO_STREAM p_data.p_activate_params.pi93_uid).getD 2 0
            &&& env.I93_UID_TAG_IT_HF_I_PRODUCT_ID_MASK)
            = env.I93_UID_TAG_IT_HF_I_STD_CHIP_INLAY
          ∨ ((env.ARRAY8_TO_STREAM p_data.p_activate_params.pi93_uid).getD 2 0
            &&& env.I93_UID_TAG_IT_HF_I_PRODUCT_ID_MASK)
            = env.I93_UID_TAG_IT_HF_I_PRO_CHIP_INLAY) →
      callsOf ((nfa_rw_activate_ntf env p_data w).2.since w)
        = [(tRW_I93_CALL.RW_I93Inventory 0
            (some (env.ARRAY8_TO_STREAM p_data.p_activate_params.pi93_uid)) : tRW_CALL)] ∧
      (nfa_rw_activate_ntf env p_data w).2.cb.i93_block_size
        = env.I93_TAG_IT_HF_I_STD_PRO_CHIP_INLAY_BLK_SIZE ∧
      (nfa_rw_activate_ntf env p_data w).2.cb.i93_afi_location
        = env.I93_TAG_IT_HF_I_STD_PRO_CHIP_INLAY_AFI_LOCATION ∧
      (nfa_rw_activate_ntf env p_data w).2.cb.i93_num_block
        = (if ((env.ARRAY8_TO_STREAM p_data.p_activate_params.pi93_uid).getD 2 0
                &&& env.I93_UID_TAG_IT_HF_I_PRODUCT_ID_MASK)
                = env.I93_UID_TAG_IT_HF_I_STD_CHIP_INLAY
           then env.I93_TAG_IT_HF_I_STD_CHIP_INLAY_NUM_TOTAL_BLK
           else env.I93_TAG_IT_HF_I_PRO_CHIP_INLAY_NUM_TOTAL_BLK)) ∧
    (¬ ((env.ARRAY8_TO_STREAM p_data.p_activate_params.pi93_uid).getD 1 0
        = env.I93_UID_IC_MFG_CODE_TI
      ∧ (((env.ARRAY8_TO_STREAM p_data.p_activate_params.pi93_uid).getD 2 0
            &&& env.I93_UID_TAG_IT_HF_I_PRODUCT_ID_MASK)
            = env.I93_UID_TAG_IT_HF_I_STD_CHIP_INLAY
          ∨ ((env.ARRAY8_TO_STREAM p_data.p_activate_params.pi93_uid).getD 2 0
            &&& env.I93_UID_TAG_IT_HF_I_PRODUCT_ID_MASK)
            = env.I93_UID_TAG_IT_HF_I_PRO_CHIP_INLAY)) →
      callsOf ((nfa_rw_activate_ntf env p_data w).2.since w)
        = [(tRW_I93_CALL.RW_I93GetSysInfo
            (some (env.ARRAY8_TO_STREAM p_data.p_activate_params.pi93_uid)) : tRW_CALL)] ∧
      (nfa_rw_activate_ntf env p_data w).2.cb.i93_block_size = 0 ∧
      (nfa_rw_activate_ntf env p_data w).2.cb.i93_num_block = 0) ∧
    activationsOf ((nfa_rw_activate_ntf env p_data w).2.since w) = [] ∧
    (nfa_rw_activate_ntf env p_data w).2.cb.flags.NFA_RW_FL_ACTIVATION_NTF_PENDING = true ∧
    (nfa_rw_activate_ntf env p_data w).2.cb.i93_uid
      = env.ARRAY8_TO_STREAM p_data.p_activate_params.pi93_uid := by
  obtain ⟨⟨protocol, sel, nfcid, uid, frame⟩, excl⟩ := p_data
  simp only at hp hsup hinit
  subst hp
  simp only
  by_cases hm : (env.ARRAY8_TO_STREAM uid).getD 1 0 = env.I93_UID_IC_MFG_CODE_TI
      ∧ (((env.ARRAY8_TO_STREAM uid).getD 2 0 &&& env.I93_UID_TAG_IT_HF_I_PRODUCT_ID_MASK)
            = env.I93_UID_TAG_IT_HF_I_STD_CHIP_INLAY
          ∨ ((env.ARRAY8_TO_STREAM uid).getD 2 0 &&& env.I93_UID_TAG_IT_HF_I_PRODUCT_ID_MASK)
            = env.I93_UID_TAG_IT_HF_I_PRO_CHIP_INLAY)
  · have hm' := hm
    simp only [List.getD_eq_getElem?_getD] at hm'
    refine ⟨fun _ => ?_, fun h => absurd hm h, ?_, ?_, ?_⟩ <;>
      simp only [nfa_rw_activate_ntf, nfa_rw_activate_ntf_switch, nfa_rw_handle_op_req,
        nfa_rw_handle_op_req_switch, nfa_rw_i93_command, nfa_rw_i93_command_select,
        nfa_rw_stop_presence_check_timer, World.setFlags, World.since] <;>
      simp [hsup, hinit, hm', callsOf, activationsOf] <;>
      split <;> simp [callsOf, activationsOf]
  · have hm' := hm
    simp only [List.getD_eq_getElem?_getD] at hm'
    refine ⟨fun h => absurd h hm, fun _ => ?_, ?_, ?_, ?_⟩ <;>
      simp only [nfa_rw_activate_ntf, nfa_rw_activate_ntf_switch, nfa_rw_handle_op_req,
        nfa_rw_handle_op_req_switch, nfa_rw_i93_command, nfa_rw_i93_command_select,
        nfa_rw_stop_presence_check_timer, World.setFlags, World.since] <;>
      simp [hsup, hinit, hm', callsOf, activationsOf] <;>
      split <;> simp [callsOf, activationsOf]

/-- Witness of `C23_vicinity_activation`: a tag of the second fixed-layout family
is activated; INVENTORY is the one engine command. -/
theorem C23_vicinity_activation_witness :
    callsOf ((nfa_rw_activate_ntf envAccept actI93Pro wInactive).2.since wInactive)
      = [(tRW_I93_CALL.RW_I93Inventory 0 (some [224, 7, 197, 0, 0, 0, 0, 0]) : tRW_CALL)] ∧
    activationsOf ((nfa_rw_activate_ntf envAccept actI93Pro wInactive).2.since wInactive)
      = [] :=
  ⟨((C23_vicinity_activation envAccept actI93Pro wInactive rfl rfl rfl).1 (by decide)).1,
   (C23_vicinity_activation envAccept actI93Pro wInactive rfl rfl rfl).2.2.1⟩

/-! ## Accumulation of the segments (claim C30) -/

/-- A copy that fits replaces the bytes at `off .. off + |src| - 1` with `src` and
keeps every other byte. -/
theorem ndef_buf_memcpy_eq (src : List Nat) :
    ∀ (buf : List Nat) (off : Nat), off + src.length ≤ buf.length →
      (ndef_buf_memcpy buf off src).1
        = buf.take off ++ src ++ buf.drop (off + src.length) := by
  induction src with
  | nil =>
    intro buf off _
    simp [ndef_buf_memcpy]
  | cons b rest ih =>
    intro buf off h
    simp only [List.length_cons] at h
    have hlt : off < buf.length := by omega
    have hrest : (off + 1) + rest.length ≤ (buf.set off b).length := by
      simp only [List.length_set]
      omega
    have htake : (buf.set off b).take (off + 1) = buf.take off ++ [b] := by
      rw [List.set_eq_take_append_cons_drop]
      simp [hlt, List.take_append_eq_append_take, Nat.min_eq_left (Nat.le_of_lt hlt)]
    have hdrop : (buf.set off b).drop (off + 1 + rest.length)
        = buf.drop (off + 1 + rest.length) := by
      rw [List.drop_set]
      simp
      omega
    simp only [ndef_buf_memcpy, hlt, if_true]
    rw [ih (buf.set off b) (off + 1) hrest, htake, hdrop]
    simp [List.length_cons, Nat.add_assoc, Nat.add_comm 1 rest.length]

/-- One call of `nfa_rw_store_ndef_rx_buf` for a segment that fits. -/
theorem store_ndef_rx_buf_fits (w : World) (p_rw_data : tRW_DATA) (hdr : BT_HDR)
    (buf : List Nat)
    (hseg : p_rw_data.p_data = some hdr)
    (hbuf : w.cb.p_ndef_buf = some buf)
    (hroom : w.cb.ndef_rd_offset + hdr.payload.length ≤ buf.length) :
    nfa_rw_store_ndef_rx_buf p_rw_data w
      = { cb := { w.cb with
                  p_ndef_buf := some (buf.take w.cb.ndef_rd_offset ++ hdr.payload
                    ++ buf.drop (w.cb.ndef_rd_offset + hdr.payload.length))
                  ndef_rd_offset := w.cb.ndef_rd_offset + hdr.payload.length }
          out := w.out ++ [Effect.GKI_freebuf (tGKI_BUF.data hdr)] } := by
  have hfit := ndef_buf_memcpy_fits hdr.payload buf w.cb.ndef_rd_offset hroom
  have heq := ndef_buf_memcpy_eq hdr.payload buf w.cb.ndef_rd_offset hroom
  simp [nfa_rw_store_ndef_rx_buf, hseg, hbuf, hfit.1, heq, World.emit]

/-- Storing a list of segments that fit together. -/
theorem store_segments_fits (segs : List BT_HDR) :
    ∀ (w : World) (buf : List Nat), w.cb.p_ndef_buf = some buf →
      w.cb.ndef_rd_offset + (segs.map (fun h => h.payload)).flatten.length ≤ buf.length →
      (store_segments segs w).cb.p_ndef_buf
          = some (buf.take w.cb.ndef_rd_offset ++ (segs.map (fun h => h.payload)).flatten
              ++ buf.drop
                (w.cb.ndef_rd_offset + (segs.map (fun h => h.payload)).flatten.length))
        ∧ (store_segments segs w).cb.ndef_rd_offset
          = w.cb.ndef_rd_offset + (segs.map (fun h => h.payload)).flatten.length := by
  induction segs with
  | nil =>
    intro w buf hbuf _
    simp [store_segments, hbuf]
  | cons hdr rest ih =>
    intro w buf hbuf hroom
    simp only [List.map_cons, List.flatten_cons, List.length_append] at hroom
    have h1 := store_ndef_rx_buf_fits w { status := OK, p_data := some hdr } hdr buf rfl hbuf
      (by omega)
    have hlen : (buf.take w.cb.ndef_rd_offset ++ hdr.payload
        ++ buf.drop (w.cb.ndef_rd_offset + hdr.payload.length)).length = buf.length := by
      simp only [List.length_append, List.length_take, List.length_drop]
      omega
    have hoff : w.cb.ndef_rd_offset ≤ buf.length := by omega
    have h2 := ih (nfa_rw_store_ndef_rx_buf { status := OK, p_data := some hdr } w)
      (buf.take w.cb.ndef_rd_offset ++ hdr.payload
        ++ buf.drop (w.cb.ndef_rd_offset + hdr.payload.length))
      (by rw [h1])
      (by rw [h1, hlen]; show w.cb.ndef_rd_offset + hdr.payload.length + _ ≤ _; omega)
    have hstep : store_segments (hdr :: rest) w
        = store_segments rest
            (nfa_rw_store_ndef_rx_buf { status := OK, p_data := some hdr } w) := rfl
    rw [hstep, h2.1, h2.2, h1]
    simp only [List.map_cons, List.flatten_cons, List.length_append]
    refine ⟨?_, by omega⟩
    simp [List.take_append_eq_append_take, List.drop_append_eq_append_drop,
      List.length_take, Nat.min_eq_left hoff, List.take_of_length_le, List.drop_drop,
      List.drop_eq_nil_of_le, Nat.add_assoc]

/-- Claim C30: for every read in progress with buffer `buf` and read offset `o` and
every incoming segment `s` with `o + |s|` not above the buffer size,
`nfa_rw_store_ndef_rx_buf` yields the buffer `take o buf ++ s ++ drop (o + |s|)
buf`, the old buffer with the positions `o .. o + |s| - 1` holding the bytes of
`s` in order, and the read offset `o + |s|`; apart from the release of the
segment nothing is done.  Consequently, starting at offset 0, after the segments
`s1 .. sn` (whose total length does not exceed the buffer size) the prefix of
the buffer equals their concatenation and the read offset is its length. -/
theorem C30_segments_stored_in_order (w : World) (buf : List Nat)
    (hbuf : w.cb.p_ndef_buf = some buf) :
    (∀ (p_rw_data : tRW_DATA) (hdr : BT_HDR), p_rw_data.p_data = some hdr →
      w.cb.ndef_rd_offset + hdr.payload.length ≤ buf.length →
      (nfa_rw_store_ndef_rx_buf p_rw_data w).cb.p_ndef_buf
        = some (buf.take w.cb.ndef_rd_offset ++ hdr.payload
            ++ buf.drop (w.cb.ndef_rd_offset + hdr.payload.length)) ∧
      (nfa_rw_store_ndef_rx_buf p_rw_data w).cb.ndef_rd_offset
        = w.cb.ndef_rd_offset + hdr.payload.length ∧
      (nfa_rw_store_ndef_rx_buf p_rw_data w).since w
        = [Effect.GKI_freebuf (tGKI_BUF.data hdr)]) ∧
    (∀ segs : List BT_HDR, w.cb.ndef_rd_offset = 0 →
      (segs.map (fun h => h.payload)).flatten.length ≤ buf.length →
      ∃ buf2, (store_segments segs w).cb.p_ndef_buf = some buf2 ∧
        buf2.length = buf.length ∧
        buf2.take (segs.map (fun h => h.payload)).flatten.length
          = (segs.map (fun h => h.payload)).flatten ∧
        (store_segments segs w).cb.ndef_rd_offset
          = (segs.map (fun h => h.payload)).flatten.length) := by
  refine ⟨?_, ?_⟩
  · intro p_rw_data hdr hseg hroom
    rw [store_ndef_rx_buf_fits w p_rw_data hdr buf hseg hbuf hroom]
    exact ⟨rfl, rfl, since_self_append w _ _⟩
  · intro segs hoff hroom
    have h := store_segments_fits segs w buf hbuf (by omega)
    rw [hoff] at h
    refine ⟨_, h.1, ?_, ?_, ?_⟩
    · simp only [List.take_zero, List.nil_append, Nat.zero_add, List.length_append,
        List.length_drop]
      omega
    · simp
    · simpa using h.2

/-- Witness of `C30_segments_stored_in_order`: two segments, of 2 and of 3 bytes,
fill the buffer of 5 bytes. -/
theorem C30_segments_stored_in_order_witness :
    ∃ buf2, (store_segments [{ payload := [1, 2] }, { payload := [3, 4, 5] }]
        wReading5).cb.p_ndef_buf = some buf2 ∧
      buf2.length = 5 ∧ buf2.take 5 = [1, 2, 3, 4, 5] ∧
      (store_segments [{ payload := [1, 2] }, { payload := [3, 4, 5] }]
        wReading5).cb.ndef_rd_offset = 5 :=
  (C30_segments_stored_in_order wReading5 [0, 0, 0, 0, 0] rfl).2
    [{ payload := [1, 2] }, { payload := [3, 4, 5] }] rfl (by decide)

/-! ## An accepted request stays in flight (claim C28) -/

theorem detect_ndef_accepted (env : Env) (w : World) :
    acceptedOutcome env w (nfa_rw_detect_ndef env w) := by
  simp only [acceptedOutcome, nfa_rw_detect_ndef, nfa_rw_start_ndef_detection, World.since]
  (repeat' split) <;> simp_all [acceptedCall, callsOf, notifsOf]

theorem read_ndef_accepted (env : Env) (w : World) :
    acceptedOutcome env w (nfa_rw_read_ndef env w) := by
  simp only [acceptedOutcome, nfa_rw_read_ndef, nfa_rw_start_ndef_detection,
    nfa_rw_start_ndef_read, World.since]
  (repeat' split) <;> simp_all [acceptedCall, callsOf, notifsOf]

theorem start_ndef_detection_outcome (env : Env) (w : World) :
    startOutcome env w (nfa_rw_start_ndef_detection env w) := by
  simp only [startOutcome, nfa_rw_start_ndef_detection, World.since]
  (repeat' split) <;> simp_all [acceptedCall, callsOf, notifsOf]

theorem start_ndef_read_outcome (env : Env) (w : World) :
    startOutcome env w (nfa_rw_start_ndef_read env w) := by
  simp only [startOutcome, nfa_rw_start_ndef_read, World.since]
  (repeat' split) <;> simp_all [acceptedCall, callsOf, notifsOf]

theorem start_ndef_write_outcome (env : Env) (w : World) :
    startOutcome env w (nfa_rw_start_ndef_write env w) := by
  simp only [startOutcome, nfa_rw_start_ndef_write, World.since]
  (repeat' split) <;> simp_all [acceptedCall, callsOf, notifsOf]

theorem not_started_outcome (env : Env) (w : World) (s : tNFC_STATUS) :
    startOutcome env w (s, w) := by
  simp [startOutcome, World.since, acceptedCall, callsOf]

/-- The tail shared by the handlers that start something: on a status other than
OK, command complete and one notification. -/
theorem notify_on_failure_accepted (env : Env) (w0 : World) (r : tNFC_STATUS × World)
    (ev : tNFA_CONN_EVT) (d : tNFA_CONN_EVT_DATA) (h : startOutcome env w0 r) :
    acceptedOutcome env w0
      (if r.1 ≠ OK then
        (nfa_rw_command_complete env r.2).emit (Effect.nfa_dm_act_conn_cback_notify ev d)
      else r.2) := by
  obtain ⟨hout, hrej, hacc⟩ := h
  by_cases hs : r.1 = OK
  · simp only [hs, ne_eq, not_true_eq_false, if_false]
    exact ⟨hout, hacc⟩
  · have hr := hrej hs
    simp only [ne_eq, hs, not_false_eq_true, if_true, acceptedOutcome]
    have hsince : World.since ((nfa_rw_command_complete env r.2).emit
          (Effect.nfa_dm_act_conn_cback_notify ev d)) w0
        = r.2.since w0
          ++ ((if env.NFA_DM_AUTO_PRESENCE_CHECK && r.2.cb.flags.NFA_RW_FL_NOT_EXCL_RF_MODE
                then [Effect.nfa_sys_start_timer] else [])
              ++ [Effect.nfa_dm_act_conn_cback_notify ev d]) := by
      simp only [World.since, emit_out, command_complete_out]
      rw [hout]
      simp [World.since]
    rw [hsince]
    refine ⟨?_, ?_⟩
    · simp only [emit_out, command_complete_out]
      rw [hout]
      simp [World.since]
    · intro hc
      simp only [acceptedCall, callsOf_append, callsOf_timer, List.any_append] at hc hr
      simp [hr, callsOf] at hc

theorem write_ndef_accepted (env : Env) (p_data : tNFA_RW_OPERATION) (w : World) :
    acceptedOutcome env w (nfa_rw_write_ndef env p_data w) := by
  unfold nfa_rw_write_ndef
  dsimp only
  split
  · simp [acceptedOutcome, World.since, acceptedCall, callsOf]
  · apply notify_on_failure_accepted
    split
    · exact start_ndef_detection_outcome env _
    · split
      · exact not_started_outcome env _ FAILED
      · exact start_ndef_write_outcome env _

theorem presence_check_accepted (env : Env) (w : World) :
    acceptedOutcome env w (nfa_rw_presence_check env w) := by
  simp only [acceptedOutcome, nfa_rw_presence_check, nfa_rw_handle_presence_check_rsp_with,
    World.since, World.setFlags]
  (repeat' split) <;> simp_all [acceptedCall, callsOf, notifsOf]

theorem format_tag_accepted (env : Env) (w : World) :
    acceptedOutcome env w (nfa_rw_format_tag env w) := by
  simp only [acceptedOutcome, nfa_rw_format_tag, World.since]
  (repeat' split) <;> simp_all [acceptedCall, callsOf, notifsOf]

theorem detect_tlv_accepted (env : Env) (tlv : tTLV_TYPE) (w : World) :
    acceptedOutcome env w (nfa_rw_detect_tlv env tlv w) := by
  simp only [acceptedOutcome, nfa_rw_detect_tlv, World.since]
  (repeat' split) <;> simp_all [acceptedCall, callsOf, notifsOf]

theorem call_or_cleanup_accepted (env : Env) (c : tRW_CALL) (ev : tNFA_CONN_EVT) (w : World) :
    acceptedOutcome env w (call_or_cleanup env c ev w) := by
  simp only [acceptedOutcome, call_or_cleanup, World.since]
  (repeat' split) <;> simp_all [acceptedCall, callsOf, notifsOf]

theorem t1t_write_accepted (env : Env) (p_data : tNFA_RW_OPERATION) (w : World) :
    acceptedOutcome env w (nfa_rw_t1t_write env p_data w) := by
  simp only [acceptedOutcome, nfa_rw_t1t_write, World.since]
  (repeat' split) <;> simp_all [acceptedCall, callsOf, notifsOf]

theorem t1t_write8_accepted (env : Env) (p_data : tNFA_RW_OPERATION) (w : World) :
    acceptedOutcome env w (nfa_rw_t1t_write8 env p_data w) := by
  simp only [acceptedOutcome, nfa_rw_t1t_write8, World.since]
  (repeat' split) <;> simp_all [acceptedCall, callsOf, notifsOf]

theorem t2t_read_accepted (env : Env) (p_data : tNFA_RW_OPERATION) (w : World) :
    acceptedOutcome env w (nfa_rw_t2t_read env p_data w) := by
  simp only [acceptedOutcome, nfa_rw_t2t_read, World.since]
  (repeat' split) <;> simp_all [acceptedCall, callsOf, notifsOf]

theorem t2t_write_accepted (env : Env) (p_data : tNFA_RW_OPERATION) (w : World) :
    acceptedOutcome env w (nfa_rw_t2t_write env p_data w) := by
  simp only [acceptedOutcome, nfa_rw_t2t_write, World.since]
  (repeat' split) <;> simp_all [acceptedCall, callsOf, notifsOf]

theorem t3t_get_system_codes_accepted (env : Env) (w : World) :
    acceptedOutcome env w (nfa_rw_t3t_get_system_codes env w) := by
  simp only [acceptedOutcome, nfa_rw_t3t_get_system_codes, World.since]
  (repeat' split) <;> simp_all [acceptedCall, callsOf, notifsOf]

theorem i93_command_accepted (env : Env) (p_data : tNFA_RW_OPERATION) (w : World) :
    acceptedOutcome env w (nfa_rw_i93_command env p_data w) := by
  simp only [acceptedOutcome, nfa_rw_i93_command, World.since]
  (repeat' split) <;> simp_all [acceptedCall, callsOf, notifsOf]

theorem config_tag_ro_accepted (env : Env) (b : Bool) (w : World) :
    (nfa_rw_config_tag_ro env b w).2.out
      = w.out ++ (nfa_rw_config_tag_ro env b w).2.since w ∧
    (acceptedCall env ((nfa_rw_config_tag_ro env b w).2.since w) = true →
      (callsOf ((nfa_rw_config_tag_ro env b w).2.since w)).length = 1 ∧
      notifsOf ((nfa_rw_config_tag_ro env b w).2.since w) = [] ∧
      (nfa_rw_config_tag_ro env b w).2.cb.flags = w.cb.flags ∧
      (nfa_rw_config_tag_ro env b w).2.cb.cur_op = w.cb.cur_op) := by
  simp only [nfa_rw_config_tag_ro, World.since]
  (repeat' split) <;> simp_all [acceptedCall, callsOf, notifsOf]

/-- Every request handler has the accepted-call outcome. -/
theorem nfa_rw_handle_op_req_switch_accepted (env : Env) (p_data : tNFA_RW_OPERATION)
    (w : World) :
    acceptedOutcome env w (nfa_rw_handle_op_req_switch env p_data w) := by
  obtain ⟨op, params⟩ := p_data
  cases op <;>
    first
      | simp only [nfa_rw_handle_op_req_switch, nfa_rw_t1t_rid, nfa_rw_t1t_rall,
          nfa_rw_t1t_read, nfa_rw_t1t_rseg, nfa_rw_t1t_read8, nfa_rw_t2t_sector_select,
          nfa_rw_t3t_read, nfa_rw_t3t_write]
        first
          | exact detect_ndef_accepted env w
          | exact read_ndef_accepted env w
          | exact write_ndef_accepted env _ w
          | exact presence_check_accepted env w
          | exact format_tag_accepted env w
          | exact detect_tlv_accepted env _ w
          | exact call_or_cleanup_accepted env _ _ w
          | exact t1t_write_accepted env _ w
          | exact t1t_write8_accepted env _ w
          | exact t2t_read_accepted env _ w
          | exact t2t_write_accepted env _ w
          | exact t3t_get_system_codes_accepted env w
          | exact i93_command_accepted env _ w
      | exact config_tag_ro_accepted env params.set_readonly_b_hard_lock
          { w with cb := { w.cb with b_hard_lock := params.set_readonly_b_hard_lock } }
      | simp [nfa_rw_handle_op_req_switch, acceptedOutcome, World.since, acceptedCall, callsOf,
          notifsOf]

/-- Claim C28: in every activated state with Busy and AutoPresenceCheckBusy clear,
for every request whose handler issues an engine call that the engine accepts
(raw-frame-send hands its frame to the transport and issues no engine call),
`nfa_rw_handle_op_req` first stops the presence-check timer, issues exactly one
engine call, the accepted one, and emits no notification; on return Busy is
set and the current operation is the operation of the request, so that every
request arriving next is handled by `nfa_rw_op_req_while_busy`: it makes no
engine call and leaves the control block as it is. -/
theorem C28_accepted_request_in_flight (env : Env) (p_data : tNFA_RW_OPERATION) (w : World)
    (hact : w.cb.flags.NFA_RW_FL_ACTIVATED = true)
    (hidle : w.cb.flags.NFA_RW_FL_API_BUSY = false)
    (hauto : w.cb.flags.NFA_RW_FL_AUTO_PRESENCE_CHECK_BUSY = false)
    (hacc : acceptedCall env ((nfa_rw_handle_op_req env p_data w).2.since w) = true) :
    ((nfa_rw_handle_op_req env p_data w).2.since w).head? = some Effect.nfa_sys_stop_timer ∧
    (∃ c, callsOf ((nfa_rw_handle_op_req env p_data w).2.since w) = [c] ∧ env.rw c = OK) ∧
    notifsOf ((nfa_rw_handle_op_req env p_data w).2.since w) = [] ∧
    (nfa_rw_handle_op_req env p_data w).2.cb.flags.NFA_RW_FL_API_BUSY = true ∧
    (nfa_rw_handle_op_req env p_data w).2.cb.cur_op = p_data.op ∧
    (∀ q : tNFA_RW_OPERATION,
      nfa_rw_handle_op_req env q (nfa_rw_handle_op_req env p_data w).2
        = nfa_rw_op_req_while_busy env q (nfa_rw_handle_op_req env p_data w).2 ∧
      callsOf ((nfa_rw_handle_op_req env q (nfa_rw_handle_op_req env p_data w).2).2.since
        (nfa_rw_handle_op_req env p_data w).2) = [] ∧
      (nfa_rw_handle_op_req env q (nfa_rw_handle_op_req env p_data w).2).2.cb
        = (nfa_rw_handle_op_req env p_data w).2.cb) := by
  have hexec : (nfa_rw_handle_op_req env p_data w).2
      = nfa_rw_handle_op_req_switch env p_data
          { cb := { w.cb with
                    cur_op := p_data.op
                    flags := { w.cb.flags with NFA_RW_FL_API_BUSY := true } }
            out := w.out ++ [Effect.nfa_sys_stop_timer] } := by
    simp [nfa_rw_handle_op_req, nfa_rw_stop_presence_check_timer, World.setFlags, World.emit,
      hact, hidle, hauto]
  have h := nfa_rw_handle_op_req_switch_accepted env p_data
    { cb := { w.cb with
              cur_op := p_data.op
              flags := { w.cb.flags with NFA_RW_FL_API_BUSY := true } }
      out := w.out ++ [Effect.nfa_sys_stop_timer] }
  rw [hexec] at hacc ⊢
  obtain ⟨hout, hcond⟩ := h
  generalize nfa_rw_handle_op_req_switch env p_data
    { cb := { w.cb with
              cur_op := p_data.op
              flags := { w.cb.flags with NFA_RW_FL_API_BUSY := true } }
      out := w.out ++ [Effect.nfa_sys_stop_timer] } = w2 at hacc hout hcond ⊢
  generalize hl : w2.since
    { cb := { w.cb with
              cur_op := p_data.op
              flags := { w.cb.flags with NFA_RW_FL_API_BUSY := true } }
      out := w.out ++ [Effect.nfa_sys_stop_timer] } = l at hout hcond
  have hsince : w2.since w = Effect.nfa_sys_stop_timer :: l := by
    simp [World.since, hout]
  rw [hsince] at hacc ⊢
  have hacc2 : acceptedCall env l = true := by
    simpa [acceptedCall, callsOf] using hacc
  obtain ⟨hlen, hnot, hflags, hop⟩ := hcond hacc2
  have hbusy : w2.cb.flags.NFA_RW_FL_API_BUSY = true := by rw [hflags]
  have hact2 : w2.cb.flags.NFA_RW_FL_ACTIVATED = true := by rw [hflags]; exact hact
  refine ⟨rfl, ?_, ?_, hbusy, ?_, ?_⟩
  · match hc : callsOf l, hlen with
    | [c], _ =>
      refine ⟨c, by simp [callsOf, hc], ?_⟩
      simpa [acceptedCall, hc] using hacc2
  · simpa [notifsOf] using hnot
  · rw [hop]
  · intro q
    have hq : nfa_rw_handle_op_req env q w2 = nfa_rw_op_req_while_busy env q w2 := by
      simp [nfa_rw_handle_op_req, hact2, hbusy]
    rw [hq]
    refine ⟨rfl, ?_, ?_⟩ <;>
      simp only [nfa_rw_op_req_while_busy] <;> split <;> simp [World.since, callsOf]

/-- Witness of `C28_accepted_request_in_flight`: a detect request on an idle
Type-1 session with an engine that accepts. -/
theorem C28_accepted_request_in_flight_witness :
    notifsOf ((nfa_rw_handle_op_req envAccept { op := NFA_RW_OP_DETECT_NDEF } wIdle).2.since
      wIdle) = [] ∧
    (nfa_rw_handle_op_req envAccept { op := NFA_RW_OP_DETECT_NDEF }
      wIdle).2.cb.flags.NFA_RW_FL_API_BUSY = true ∧
    (nfa_rw_handle_op_req envAccept { op := NFA_RW_OP_DETECT_NDEF } wIdle).2.cb.cur_op
      = NFA_RW_OP_DETECT_NDEF :=
  ⟨(C28_accepted_request_in_flight envAccept { op := NFA_RW_OP_DETECT_NDEF } wIdle rfl rfl rfl
      (by decide)).2.2.1,
   (C28_accepted_request_in_flight envAccept { op := NFA_RW_OP_DETECT_NDEF } wIdle rfl rfl rfl
      (by decide)).2.2.2.1,
   (C28_accepted_request_in_flight envAccept { op := NFA_RW_OP_DETECT_NDEF } wIdle rfl rfl rfl
      (by decide)).2.2.2.2.1⟩

/-! ## Successful NDEF detection (claim C29) -/

/-- Claim C29, as stated, fails in its last case: with read-ndef as the current
operation, a successful detection completion that reports a message of size 0
is none of the two chaining cases of the claim, yet no ndef-detect-complete
notification is emitted (the one notification is read-complete with status OK)
and the current operation is still read-ndef. -/
theorem C29_counterexample_empty_message_read :
    wReadDetecting.cb.cur_op = NFA_RW_OP_READ_NDEF ∧
    callsOf (nfa_rw_handle_ndef_detect envAccept { status := OK, cur_size := 0, max_size := 100 }
      wReadDetecting).out = [] ∧
    notifsOf (nfa_rw_handle_ndef_detect envAccept { status := OK, cur_size := 0, max_size := 100 }
      wReadDetecting).out = [(NFA_READ_CPLT_EVT, { status := some OK })] ∧
    (nfa_rw_handle_ndef_detect envAccept { status := OK, cur_size := 0, max_size := 100 }
      wReadDetecting).cb.cur_op = NFA_RW_OP_READ_NDEF := by
  decide

theorem ndef_detect_ok_read_started (env : Env) (p_rw_data : tRW_DATA) (w : World)
    (hs : p_rw_data.status = OK) :
    w.cb.cur_op = NFA_RW_OP_READ_NDEF →
    acceptedCall env ((nfa_rw_handle_ndef_detect env p_rw_data w).since w) = true →
    (∃ c, callsOf ((nfa_rw_handle_ndef_detect env p_rw_data w).since w) = [c]
      ∧ isNdefReadCall c = true ∧ env.rw c = OK) ∧
    notifsOf ((nfa_rw_handle_ndef_detect env p_rw_data w).since w) = [] ∧
    (nfa_rw_handle_ndef_detect env p_rw_data w).cb.flags.NFA_RW_FL_API_BUSY
      = w.cb.flags.NFA_RW_FL_API_BUSY := by
  intro hop
  simp only [nfa_rw_handle_ndef_detect, nfa_rw_start_ndef_read, World.since]
  simp only [hs, hop, if_true]
  (repeat' split) <;> simp_all [acceptedCall, callsOf, notifsOf, isNdefReadCall]

theorem ndef_detect_ok_write_started (env : Env) (p_rw_data : tRW_DATA) (w : World)
    (hs : p_rw_data.status = OK) :
    w.cb.cur_op = NFA_RW_OP_WRITE_NDEF →
    acceptedCall env ((nfa_rw_handle_ndef_detect env p_rw_data w).since w) = true →
    (∃ c, callsOf ((nfa_rw_handle_ndef_detect env p_rw_data w).since w) = [c]
      ∧ isNdefWriteCall c = true ∧ env.rw c = OK) ∧
    notifsOf ((nfa_rw_handle_ndef_detect env p_rw_data w).since w) = [] ∧
    (nfa_rw_handle_ndef_detect env p_rw_data w).cb.flags.NFA_RW_FL_API_BUSY
      = w.cb.flags.NFA_RW_FL_API_BUSY := by
  have hrw : (NFA_RW_OP_WRITE_NDEF : tNFA_RW_OP) ≠ NFA_RW_OP_READ_NDEF := by decide
  intro hop
  simp only [nfa_rw_handle_ndef_detect, nfa_rw_start_ndef_write, World.since]
  simp only [hs, hop, hrw, if_true, if_false]
  (repeat' split) <;> simp_all [acceptedCall, callsOf, notifsOf, isNdefWriteCall]

theorem ndef_detect_ok_other_op (env : Env) (p_rw_data : tRW_DATA) (w : World)
    (hs : p_rw_data.status = OK) :
    w.cb.cur_op ≠ NFA_RW_OP_READ_NDEF → w.cb.cur_op ≠ NFA_RW_OP_WRITE_NDEF →
    callsOf ((nfa_rw_handle_ndef_detect env p_rw_data w).since w) = [] ∧
    notifsOf ((nfa_rw_handle_ndef_detect env p_rw_data w).since w)
      = [(NFA_NDEF_DETECT_EVT,
          { status := some OK, protocol := some p_rw_data.protocol,
            cur_size := some p_rw_data.cur_size, max_size := some p_rw_data.max_size,
            flags := some p_rw_data.flags })] ∧
    (nfa_rw_handle_ndef_detect env p_rw_data w).cb.flags.NFA_RW_FL_API_BUSY = false ∧
    (nfa_rw_handle_ndef_detect env p_rw_data w).cb.cur_op = NFA_RW_OP_MAX := by
  intro hr hw
  simp only [nfa_rw_handle_ndef_detect, World.since]
  simp [hs, hr, hw, callsOf, notifsOf]

theorem ndef_detect_ok_read_not_started (env : Env) (p_rw_data : tRW_DATA) (w : World)
    (hs : p_rw_data.status = OK) :
    w.cb.cur_op = NFA_RW_OP_READ_NDEF →
    acceptedCall env ((nfa_rw_handle_ndef_detect env p_rw_data w).since w) = false →
    notifsOf ((nfa_rw_handle_ndef_detect env p_rw_data w).since w) ≠ [] ∧
    (notifsOf ((nfa_rw_handle_ndef_detect env p_rw_data w).since w)).all
      (fun n => decide (n.1 = NFA_READ_CPLT_EVT)) = true ∧
    (nfa_rw_handle_ndef_detect env p_rw_data w).cb.flags.NFA_RW_FL_API_BUSY = false ∧
    (nfa_rw_handle_ndef_detect env p_rw_data w).cb.cur_op = NFA_RW_OP_READ_NDEF := by
  intro hop
  simp only [nfa_rw_handle_ndef_detect, nfa_rw_start_ndef_read, World.since]
  simp only [hs, hop, if_true]
  (repeat' split) <;> simp_all [acceptedCall, callsOf, notifsOf]

theorem ndef_detect_ok_write_not_started (env : Env) (p_rw_data : tRW_DATA) (w : World)
    (hs : p_rw_data.status = OK) :
    w.cb.cur_op = NFA_RW_OP_WRITE_NDEF →
    acceptedCall env ((nfa_rw_handle_ndef_detect env p_rw_data w).since w) = false →
    notifsOf ((nfa_rw_handle_ndef_detect env p_rw_data w).since w) ≠ [] ∧
    (notifsOf ((nfa_rw_handle_ndef_detect env p_rw_data w).since w)).all
      (fun n => decide (n.1 = NFA_WRITE_CPLT_EVT)) = true ∧
    (nfa_rw_handle_ndef_detect env p_rw_data w).cb.flags.NFA_RW_FL_API_BUSY = false ∧
    (nfa_rw_handle_ndef_detect env p_rw_data w).cb.cur_op = NFA_RW_OP_WRITE_NDEF := by
  have hrw : (NFA_RW_OP_WRITE_NDEF : tNFA_RW_OP) ≠ NFA_RW_OP_READ_NDEF := by decide
  intro hop
  simp only [nfa_rw_handle_ndef_detect, nfa_rw_start_ndef_write, World.since]
  simp only [hs, hop, hrw, if_true, if_false]
  (repeat' split) <;> simp_all [acceptedCall, callsOf, notifsOf]

/-- Claim C29, amended: for every NDEF-detection completion with status OK.  If
the current operation is read-ndef and the read is started (an engine call is
issued and accepted), that call is the only engine call, it is an NDEF read
command, no notification is emitted and Busy keeps its value; likewise with an
NDEF write command if the current operation is write-ndef.  If the current
operation is neither of the two, no engine call is made, exactly one
ndef-detect-complete notification with status OK and the protocol, current
size, maximum size and flags of the completion is emitted, Busy is clear and
the current operation is `NFA_RW_OP_MAX`.  If the current operation is
read-ndef or write-ndef and the chained operation is not started, the outcome
is reported as read-complete, respectively write-complete, never as
ndef-detect-complete: Busy is clear and the current operation keeps its
value. -/
theorem C29_detection_completion (env : Env) (p_rw_data : tRW_DATA) (w : World)
    (hs : p_rw_data.status = OK) :
    (w.cb.cur_op = NFA_RW_OP_READ_NDEF →
      acceptedCall env ((nfa_rw_handle_ndef_detect env p_rw_data w).since w) = true →
      (∃ c, callsOf ((nfa_rw_handle_ndef_detect env p_rw_data w).since w) = [c]
        ∧ isNdefReadCall c = true ∧ env.rw c = OK) ∧
      notifsOf ((nfa_rw_handle_ndef_detect env p_rw_data w).since w) = [] ∧
      (nfa_rw_handle_ndef_detect env p_rw_data w).cb.flags.NFA_RW_FL_API_BUSY
        = w.cb.flags.NFA_RW_FL_API_BUSY) ∧
    (w.cb.cur_op = NFA_RW_OP_WRITE_NDEF →
      acceptedCall env ((nfa_rw_handle_ndef_detect env p_rw_data w).since w) = true →
      (∃ c, callsOf ((nfa_rw_handle_ndef_detect env p_rw_data w).since w) = [c]
        ∧ isNdefWriteCall c = true ∧ env.rw c = OK) ∧
      notifsOf ((nfa_rw_handle_ndef_detect env p_rw_data w).since w) = [] ∧
      (nfa_rw_handle_ndef_detect env p_rw_data w).cb.flags.NFA_RW_FL_API_BUSY
        = w.cb.flags.NFA_RW_FL_API_BUSY) ∧
    (w.cb.cur_op ≠ NFA_RW_OP_READ_NDEF → w.cb.cur_op ≠ NFA_RW_OP_WRITE_NDEF →
      callsOf ((nfa_rw_handle_ndef_detect env p_rw_data w).since w) = [] ∧
      notifsOf ((nfa_rw_handle_ndef_detect env p_rw_data w).since w)
        = [(NFA_NDEF_DETECT_EVT,
            { status := some OK, protocol := some p_rw_data.protocol,
              cur_size := some p_rw_data.cur_size, max_size := some p_rw_data.max_size,
              flags := some p_rw_data.flags })] ∧
      (nfa_rw_handle_ndef_detect env p_rw_data w).cb.flags.NFA_RW_FL_API_BUSY = false ∧
      (nfa_rw_handle_ndef_detect env p_rw_data w).cb.cur_op = NFA_RW_OP_MAX) ∧
    (w.cb.cur_op = NFA_RW_OP_READ_NDEF →
      acceptedCall env ((nfa_rw_handle_ndef_detect env p_rw_data w).since w) = false →
      notifsOf ((nfa_rw_handle_ndef_detect env p_rw_data w).since w) ≠ [] ∧
      (notifsOf ((nfa_rw_handle_ndef_detect env p_rw_data w).since w)).all
        (fun n => decide (n.1 = NFA_READ_CPLT_EVT)) = true ∧
      (nfa_rw_handle_ndef_detect env p_rw_data w).cb.flags.NFA_RW_FL_API_BUSY = false ∧
      (nfa_rw_handle_ndef_detect env p_rw_data w).cb.cur_op = NFA_RW_OP_READ_NDEF) ∧
    (w.cb.cur_op = NFA_RW_OP_WRITE_NDEF →
      acceptedCall env ((nfa_rw_handle_ndef_detect env p_rw_data w).since w) = false →
      notifsOf ((nfa_rw_handle_ndef_detect env p_rw_data w).since w) ≠ [] ∧
      (notifsOf ((nfa_rw_handle_ndef_detect env p_rw_data w).since w)).all
        (fun n => decide (n.1 = NFA_WRITE_CPLT_EVT)) = true ∧
      (nfa_rw_handle_ndef_detect env p_rw_data w).cb.flags.NFA_RW_FL_API_BUSY = false ∧
      (nfa_rw_handle_ndef_detect env p_rw_data w).cb.cur_op = NFA_RW_OP_WRITE_NDEF) :=
  ⟨ndef_detect_ok_read_started env p_rw_data w hs,
   ndef_detect_ok_write_started env p_rw_data w hs,
   ndef_detect_ok_other_op env p_rw_data w hs,
   ndef_detect_ok_read_not_started env p_rw_data w hs,
   ndef_detect_ok_write_not_started env p_rw_data w hs⟩

/-- Witness of `C29_detection_completion`: a detection completion reporting a
message of 5 bytes while read-ndef is the current operation starts the read. -/
theorem C29_detection_completion_witness :
    notifsOf ((nfa_rw_handle_ndef_detect envAccept
      { status := OK, cur_size := 5, max_size := 100 } wReadDetecting).since wReadDetecting)
      = [] ∧
    (nfa_rw_handle_ndef_detect envAccept { status := OK, cur_size := 5, max_size := 100 }
      wReadDetecting).cb.flags.NFA_RW_FL_API_BUSY
      = wReadDetecting.cb.flags.NFA_RW_FL_API_BUSY :=
  ((C29_detection_completion envAccept { status := OK, cur_size := 5, max_size := 100 }
    wReadDetecting rfl).1 rfl (by decide)).2

/-! ## The TLV-detection-state only advances (claim C26) -/

theorem tlvAdvances_refl (a : tNFA_RW_TLV_ST) : tlvAdvances a a :=
  ⟨fun h => h, fun h => h⟩

theorem tlvAdvances_of_eq {a b : tNFA_RW_TLV_ST} (h : b = a) : tlvAdvances a b := by
  subst h
  exact tlvAdvances_refl _

theorem tlvAdvances_complete (a : tNFA_RW_TLV_ST) :
    tlvAdvances a NFA_RW_TLV_DETECT_ST_COMPLETE :=
  ⟨fun _ => rfl, fun _ => rfl⟩

theorem start_ndef_detection_tlv_st (env : Env) (w : World) :
    (nfa_rw_start_ndef_detection env w).2.cb.tlv_st = w.cb.tlv_st := by
  unfold nfa_rw_start_ndef_detection
  split <;> (try split) <;> simp

theorem start_ndef_read_tlv_st (env : Env) (w : World) :
    (nfa_rw_start_ndef_read env w).2.cb.tlv_st = w.cb.tlv_st := by
  unfold nfa_rw_start_ndef_read
  dsimp only
  split
  · simp
  · split
    · simp
    · split <;> (try split) <;> simp

theorem start_ndef_write_tlv_st (env : Env) (w : World) :
    (nfa_rw_start_ndef_write env w).2.cb.tlv_st = w.cb.tlv_st := by
  unfold nfa_rw_start_ndef_write
  split
  · simp
  · split
    · simp
    · split <;> (try split) <;> simp

theorem detect_ndef_tlv_st (env : Env) (w : World) :
    (nfa_rw_detect_ndef env w).cb.tlv_st = w.cb.tlv_st := by
  unfold nfa_rw_detect_ndef
  dsimp only
  split <;> simp [start_ndef_detection_tlv_st]

theorem read_ndef_tlv_st (env : Env) (w : World) :
    (nfa_rw_read_ndef env w).cb.tlv_st = w.cb.tlv_st := by
  unfold nfa_rw_read_ndef
  dsimp only
  split <;> split <;> (try split) <;>
    simp [start_ndef_detection_tlv_st, start_ndef_read_tlv_st]

theorem write_ndef_tlv_st (env : Env) (p_data : tNFA_RW_OPERATION) (w : World) :
    (nfa_rw_write_ndef env p_data w).cb.tlv_st = w.cb.tlv_st := by
  unfold nfa_rw_write_ndef
  dsimp only
  split
  · simp
  · split <;> split <;> (try split) <;>
      simp [start_ndef_detection_tlv_st, start_ndef_write_tlv_st]

theorem format_tag_tlv_st (env : Env) (w : World) :
    (nfa_rw_format_tag env w).cb.tlv_st = w.cb.tlv_st := by
  unfold nfa_rw_format_tag
  dsimp only
  split <;> (repeat' split) <;> simp

theorem detect_tlv_tlv_st (env : Env) (tlv : tTLV_TYPE) (w : World) :
    (nfa_rw_detect_tlv env tlv w).cb.tlv_st = w.cb.tlv_st := by
  unfold nfa_rw_detect_tlv
  dsimp only
  split <;> (repeat' split) <;> simp

theorem config_tag_ro_tlv_st (env : Env) (b : Bool) (w : World) :
    (nfa_rw_config_tag_ro env b w).2.cb.tlv_st = w.cb.tlv_st := by
  unfold nfa_rw_config_tag_ro
  dsimp only
  split <;> (repeat' split) <;> simp

theorem call_or_cleanup_tlv_st (env : Env) (c : tRW_CALL) (ev : tNFA_CONN_EVT) (w : World) :
    (call_or_cleanup env c ev w).cb.tlv_st = w.cb.tlv_st := by
  unfold call_or_cleanup
  dsimp only
  split <;> simp

theorem t1t_write_tlv_st (env : Env) (p_data : tNFA_RW_OPERATION) (w : World) :
    (nfa_rw_t1t_write env p_data w).cb.tlv_st = w.cb.tlv_st := by
  unfold nfa_rw_t1t_write
  dsimp only
  split <;> (repeat' split) <;> simp

theorem t1t_write8_tlv_st (env : Env) (p_data : tNFA_RW_OPERATION) (w : World) :
    (nfa_rw_t1t_write8 env p_data w).cb.tlv_st = w.cb.tlv_st := by
  unfold nfa_rw_t1t_write8
  dsimp only
  split <;> (repeat' split) <;> simp

theorem t2t_read_tlv_st (env : Env) (p_data : tNFA_RW_OPERATION) (w : World) :
    (nfa_rw_t2t_read env p_data w).cb.tlv_st = w.cb.tlv_st := by
  unfold nfa_rw_t2t_read
  dsimp only
  split <;> (repeat' split) <;> simp

theorem t2t_write_tlv_st (env : Env) (p_data : tNFA_RW_OPERATION) (w : World) :
    (nfa_rw_t2t_write env p_data w).cb.tlv_st = w.cb.tlv_st := by
  unfold nfa_rw_t2t_write
  dsimp only
  split <;> (repeat' split) <;> simp

theorem t3t_get_system_codes_tlv_st (env : Env) (w : World) :
    (nfa_rw_t3t_get_system_codes env w).cb.tlv_st = w.cb.tlv_st := by
  unfold nfa_rw_t3t_get_system_codes
  dsimp only
  split <;> simp

theorem i93_command_tlv_st (env : Env) (p_data : tNFA_RW_OPERATION) (w : World) :
    (nfa_rw_i93_command env p_data w).cb.tlv_st = w.cb.tlv_st := by
  unfold nfa_rw_i93_command
  dsimp only
  split <;> split <;> simp

theorem presence_check_rsp_with_tlv_st (h : tNFA_RW_OPERATION → World → World)
    (hh : ∀ m x, (h m x).cb.tlv_st = x.cb.tlv_st)
    (env : Env) (status : tNFC_STATUS) (w : World) :
    (nfa_rw_handle_presence_check_rsp_with h env status w).cb.tlv_st = w.cb.tlv_st := by
  simp only [nfa_rw_handle_presence_check_rsp_with, World.setFlags]
  (repeat' split) <;> simp_all

theorem presence_check_tlv_st (env : Env) (w : World) :
    (nfa_rw_presence_check env w).cb.tlv_st = w.cb.tlv_st := by
  unfold nfa_rw_presence_check
  dsimp only
  split
  · rw [presence_check_rsp_with_tlv_st _ (fun _ _ => rfl)]
    simp
  · simp

theorem handle_op_req_switch_tlv_st (env : Env) (p_data : tNFA_RW_OPERATION) (w : World) :
    (nfa_rw_handle_op_req_switch env p_data w).cb.tlv_st = w.cb.tlv_st := by
  obtain ⟨op, params⟩ := p_data
  cases op <;>
    simp [nfa_rw_handle_op_req_switch, detect_ndef_tlv_st, read_ndef_tlv_st,
      write_ndef_tlv_st, format_tag_tlv_st, detect_tlv_tlv_st, config_tag_ro_tlv_st,
      call_or_cleanup_tlv_st, t1t_write_tlv_st, t1t_write8_tlv_st, t2t_read_tlv_st,
      t2t_write_tlv_st, t3t_get_system_codes_tlv_st, i93_command_tlv_st,
      presence_check_tlv_st,
      nfa_rw_t1t_rid, nfa_rw_t1t_rall, nfa_rw_t1t_read, nfa_rw_t1t_rseg, nfa_rw_t1t_read8,
      nfa_rw_t2t_sector_select, nfa_rw_t3t_read, nfa_rw_t3t_write]

theorem handle_op_req_tlv_st (env : Env) (p_data : tNFA_RW_OPERATION) (w : World) :
    (nfa_rw_handle_op_req env p_data w).2.cb.tlv_st = w.cb.tlv_st := by
  simp only [nfa_rw_handle_op_req, nfa_rw_op_req_while_busy, nfa_rw_stop_presence_check_timer,
    World.setFlags]
  (repeat' split) <;> simp [handle_op_req_switch_tlv_st]

theorem handle_presence_check_rsp_tlv_st (env : Env) (status : tNFC_STATUS) (w : World) :
    (nfa_rw_handle_presence_check_rsp env status w).cb.tlv_st = w.cb.tlv_st :=
  presence_check_rsp_with_tlv_st _
    (fun m x => by simp [nfa_rw_handle_event, handle_op_req_tlv_st]) env status w

theorem handle_ndef_detect_tlv_st (env : Env) (p_rw_data : tRW_DATA) (w : World) :
    (nfa_rw_handle_ndef_detect env p_rw_data w).cb.tlv_st = w.cb.tlv_st := by
  simp only [nfa_rw_handle_ndef_detect]
  (repeat' split) <;> simp [start_ndef_read_tlv_st, start_ndef_write_tlv_st]

theorem store_ndef_rx_buf_tlv_st (p_rw_data : tRW_DATA) (w : World) :
    (nfa_rw_store_ndef_rx_buf p_rw_data w).cb.tlv_st = w.cb.tlv_st := by
  unfold nfa_rw_store_ndef_rx_buf
  split <;> simp

theorem handle_tlv_detect_advances (env : Env) (p_rw_data : tRW_DATA) (w : World) :
    tlvAdvances w.cb.tlv_st (nfa_rw_handle_tlv_detect env p_rw_data w).cb.tlv_st := by
  simp only [nfa_rw_handle_tlv_detect]
  (repeat' split) <;>
    simp_all [tlvAdvances, config_tag_ro_tlv_st, NFA_RW_TLV_DETECT_ST_COMPLETE,
      NFA_RW_TLV_DETECT_ST_LOCK_TLV_OP_COMPLETE, NFA_RW_TLV_DETECT_ST_OP_NOT_STARTED]

theorem t1t_evt_advances (env : Env) (e : tRW_T1T_EVT) (p_rw_data : tRW_DATA) (w : World) :
    tlvAdvances w.cb.tlv_st (nfa_rw_handle_t1t_evt env e p_rw_data w).cb.tlv_st := by
  cases e
  case RW_T1T_TLV_DETECT_EVT => exact handle_tlv_detect_advances env p_rw_data w
  case RW_T1T_NDEF_DETECT_EVT =>
    simp only [nfa_rw_handle_t1t_evt, handle_ndef_detect_tlv_st]
    exact tlvAdvances_complete _
  case RW_T1T_NDEF_READ_EVT =>
    simp only [nfa_rw_handle_t1t_evt, ndef_read_to_consumer]
    (repeat' split) <;> simp [tlvAdvances, NFA_RW_TLV_DETECT_ST_COMPLETE]
  case RW_T1T_NDEF_WRITE_EVT =>
    simp only [nfa_rw_handle_t1t_evt, update_cur_size_on_write]
    (repeat' split) <;> simp [tlvAdvances, NFA_RW_TLV_DETECT_ST_COMPLETE]
  all_goals
    apply tlvAdvances_of_eq
    simp only [nfa_rw_handle_t1t_evt] <;>
      (repeat' split) <;> simp [handle_presence_check_rsp_tlv_st]

theorem t2t_evt_advances (env : Env) (e : tRW_T2T_EVT) (p_rw_data : tRW_DATA) (w : World) :
    tlvAdvances w.cb.tlv_st (nfa_rw_handle_t2t_evt env e p_rw_data w).cb.tlv_st := by
  cases e
  case RW_T2T_TLV_DETECT_EVT => exact handle_tlv_detect_advances env p_rw_data w
  all_goals
    apply tlvAdvances_of_eq
    simp only [nfa_rw_handle_t2t_evt, ndef_read_to_consumer, update_cur_size_on_write] <;>
      (repeat' split) <;>
      simp [handle_presence_check_rsp_tlv_st, handle_ndef_detect_tlv_st]

theorem t3t_evt_tlv_st (env : Env) (e : tRW_T3T_EVT) (p_rw_data : tRW_DATA) (w : World) :
    (nfa_rw_handle_t3t_evt env e p_rw_data w).cb.tlv_st = w.cb.tlv_st := by
  cases e <;>
    simp only [nfa_rw_handle_t3t_evt, ndef_read_to_consumer, update_cur_size_on_write] <;>
    (repeat' split) <;>
    simp [handle_presence_check_rsp_tlv_st, handle_ndef_detect_tlv_st,
      store_ndef_rx_buf_tlv_st]

theorem t4t_evt_tlv_st (env : Env) (e : tRW_T4T_EVT) (p_rw_data : tRW_DATA) (w : World) :
    (nfa_rw_handle_t4t_evt env e p_rw_data w).cb.tlv_st = w.cb.tlv_st := by
  cases e <;>
    simp only [nfa_rw_handle_t4t_evt, ndef_read_cplt, ndef_read_fail, intf_error_notify,
      intf_error_cleanup, update_cur_size_on_write, clear_cur_op] <;>
    (repeat' split) <;>
    simp [handle_presence_check_rsp_tlv_st, handle_ndef_detect_tlv_st,
      store_ndef_rx_buf_tlv_st]

theorem i93_evt_tlv_st (env : Env) (e : tRW_I93_EVT) (p_rw_data : tRW_DATA) (w : World) :
    (nfa_rw_handle_i93_evt env e p_rw_data w).cb.tlv_st = w.cb.tlv_st := by
  cases e <;>
    simp only [nfa_rw_handle_i93_evt, ndef_read_cplt, ndef_read_fail, intf_error_notify,
      intf_error_cleanup, update_cur_size_on_write, clear_cur_op, clear_activation_ntf_pending,
      World.setFlags] <;>
    (repeat' split) <;>
    simp [handle_presence_check_rsp_tlv_st, handle_ndef_detect_tlv_st,
      store_ndef_rx_buf_tlv_st]

/-- Claim C26: for every session state the TLV-detection-state only advances: each
of the two detection bits that is set before an event is still set after it,
for every operation request, every engine completion of every family, the
presence-check timer tick and the deactivation.  (Only the activation handler
sets the state back to NotStarted.) -/
theorem C26_tlv_state_only_advances (env : Env) (w : World) :
    (∀ p_data : tNFA_RW_OPERATION,
      tlvAdvances w.cb.tlv_st (nfa_rw_handle_op_req env p_data w).2.cb.tlv_st) ∧
    (∀ (event : tRW_EVENT) (p_rw_data : tRW_DATA),
      tlvAdvances w.cb.tlv_st (nfa_rw_cback env event p_rw_data w).cb.tlv_st) ∧
    tlvAdvances w.cb.tlv_st (nfa_rw_presence_check_tick env w).2.cb.tlv_st ∧
    tlvAdvances w.cb.tlv_st (nfa_rw_deactivate_ntf w).2.cb.tlv_st := by
  refine ⟨?_, ?_, ?_, ?_⟩
  · intro p_data
    exact tlvAdvances_of_eq (handle_op_req_tlv_st env p_data w)
  · intro event p_rw_data
    cases event with
    | t1t e => exact t1t_evt_advances env e p_rw_data w
    | t2t e => exact t2t_evt_advances env e p_rw_data w
    | t3t e => exact tlvAdvances_of_eq (t3t_evt_tlv_st env e p_rw_data w)
    | t4t e => exact tlvAdvances_of_eq (t4t_evt_tlv_st env e p_rw_data w)
    | i93 e => exact tlvAdvances_of_eq (i93_evt_tlv_st env e p_rw_data w)
    | OTHER => exact tlvAdvances_refl _
  · apply tlvAdvances_of_eq
    simp [nfa_rw_presence_check_tick, presence_check_tlv_st]
  · apply tlvAdvances_of_eq
    simp only [nfa_rw_deactivate_ntf, nfa_rw_stop_presence_check_timer, World.setFlags]
    (repeat' split) <;> simp

/-! ## Read completion of Type-4 and ISO 15693 (claim C31) -/

@[simp]
theorem consumerOf_append (a b : List Effect) :
    consumerOf (a ++ b) = consumerOf a ++ consumerOf b := by
  induction a with
  | nil => rfl
  | cons e t ih => cases e <;> simp [consumerOf, ih]

@[simp]
theorem consumerOf_timer (c : Prop) [Decidable c] :
    consumerOf (if c then [Effect.nfa_sys_start_timer] else []) = [] := by
  split <;> rfl

@[simp]
theorem consumerOf_free (c : Prop) [Decidable c] :
    consumerOf (if c then [Effect.nfa_mem_co_free] else []) = [] := by
  split <;> rfl

@[simp]
theorem store_ndef_rx_buf_trace_consumer (p_rw_data : tRW_DATA) (w : World) :
    consumerOf (nfa_rw_store_ndef_rx_buf_trace p_rw_data w) = [] := by
  unfold nfa_rw_store_ndef_rx_buf_trace
  split
  · rfl
  · induction (ndef_buf_memcpy (w.cb.p_ndef_buf.getD []) w.cb.ndef_rd_offset _).2 with
    | nil => simp [consumerOf]
    | cons a t ih => simpa [consumerOf] using ih

@[simp]
theorem store_ndef_rx_buf_trace_notifs (p_rw_data : tRW_DATA) (w : World) :
    notifsOf (nfa_rw_store_ndef_rx_buf_trace p_rw_data w) = [] := by
  unfold nfa_rw_store_ndef_rx_buf_trace
  split
  · rfl
  · induction (ndef_buf_memcpy (w.cb.p_ndef_buf.getD []) w.cb.ndef_rd_offset _).2 with
    | nil => simp [notifsOf]
    | cons a t ih => simpa [notifsOf] using ih

@[simp]
theorem store_ndef_rx_buf_trace_calls (p_rw_data : tRW_DATA) (w : World) :
    callsOf (nfa_rw_store_ndef_rx_buf_trace p_rw_data w) = [] := by
  unfold nfa_rw_store_ndef_rx_buf_trace
  split
  · rfl
  · induction (ndef_buf_memcpy (w.cb.p_ndef_buf.getD []) w.cb.ndef_rd_offset _).2 with
    | nil => simp [callsOf]
    | cons a t ih => simpa [callsOf] using ih

theorem store_ndef_rx_buf_cur_size (p_rw_data : tRW_DATA) (w : World) :
    (nfa_rw_store_ndef_rx_buf p_rw_data w).cb.ndef_cur_size = w.cb.ndef_cur_size ∧
    (nfa_rw_store_ndef_rx_buf p_rw_data w).cb.flags = w.cb.flags := by
  unfold nfa_rw_store_ndef_rx_buf
  split <;> simp

/-- The trace of a read completion of the Type-4 or ISO 15693 handler up to the
notification, while read-ndef is in flight and the buffer is allocated. -/
theorem ndef_read_cplt_out (env : Env) (p_rw_data : tRW_DATA) (w : World)
    (hop : w.cb.cur_op = NFA_RW_OP_READ_NDEF) (hsome : w.cb.p_ndef_buf.isSome = true) :
    (nfa_rw_command_complete env (ndef_read_cplt p_rw_data w)).out
      = w.out ++ (nfa_rw_store_ndef_rx_buf_trace p_rw_data w
          ++ [Effect.nfa_dm_ndef_handle_message OK
                (nfa_rw_store_ndef_rx_buf p_rw_data w).cb.p_ndef_buf w.cb.ndef_cur_size,
              Effect.nfa_mem_co_free]
          ++ (if env.NFA_DM_AUTO_PRESENCE_CHECK && w.cb.flags.NFA_RW_FL_NOT_EXCL_RF_MODE
              then [Effect.nfa_sys_start_timer] else [])) := by
  have hcs := store_ndef_rx_buf_cur_size p_rw_data w
  simp only [ndef_read_cplt, hop, if_true]
  simp [free_ndef_rx_buf_out, hsome, hcs.1, hcs.2]

theorem ndef_read_cplt_cb (env : Env) (p_rw_data : tRW_DATA) (w : World)
    (hop : w.cb.cur_op = NFA_RW_OP_READ_NDEF) :
    (nfa_rw_command_complete env (ndef_read_cplt p_rw_data w)).cb.p_ndef_buf = none ∧
    (nfa_rw_command_complete env
      (ndef_read_cplt p_rw_data w)).cb.flags.NFA_RW_FL_API_BUSY = false := by
  simp only [ndef_read_cplt, hop, if_true]
  simp

/-- Claim C31: for a Type-4 or ISO 15693 tag with a read-ndef operation in flight
and the buffer allocated, the read-complete completion stores the final
segment, hands the buffer and the detected current size to the NDEF-message
consumer exactly once with status OK, releases the buffer exactly once, clears
Busy, sets the current operation to `NFA_RW_OP_MAX`, makes no engine call and
emits exactly one read-complete notification with status OK.  For a final
segment that fits into the buffer the trace is, in this order: release of the
segment, the message to the consumer with the completed buffer, release of the
buffer, restart of the timer if applicable, the notification. -/
theorem C31_read_complete (env : Env) (p_rw_data : tRW_DATA) (w : World) (buf : List Nat)
    (hop : w.cb.cur_op = NFA_RW_OP_READ_NDEF) (hbuf : w.cb.p_ndef_buf = some buf) :
    (∀ event : tRW_EVENT,
      event = tRW_EVENT.t4t RW_T4T_NDEF_READ_CPLT_EVT
        ∨ event = tRW_EVENT.i93 RW_I93_NDEF_READ_CPLT_EVT →
      consumerOf ((nfa_rw_cback env event p_rw_data w).since w)
        = [(OK, (nfa_rw_store_ndef_rx_buf p_rw_data w).cb.p_ndef_buf, w.cb.ndef_cur_size)] ∧
      releasedOnce w (nfa_rw_cback env event p_rw_data w) ∧
      (nfa_rw_cback env event p_rw_data w).cb.flags.NFA_RW_FL_API_BUSY = false ∧
      (nfa_rw_cback env event p_rw_data w).cb.cur_op = NFA_RW_OP_MAX ∧
      callsOf ((nfa_rw_cback env event p_rw_data w).since w) = [] ∧
      notifsOf ((nfa_rw_cback env event p_rw_data w).since w)
        = [(NFA_READ_CPLT_EVT, { status := some OK })] ∧
      (∀ hdr : BT_HDR, p_rw_data.p_data = some hdr →
        w.cb.ndef_rd_offset + hdr.payload.length ≤ buf.length →
        (nfa_rw_cback env event p_rw_data w).since w
          = [Effect.GKI_freebuf (tGKI_BUF.data hdr),
             Effect.nfa_dm_ndef_handle_message OK
               (some (buf.take w.cb.ndef_rd_offset ++ hdr.payload
                 ++ buf.drop (w.cb.ndef_rd_offset + hdr.payload.length)))
               w.cb.ndef_cur_size,
             Effect.nfa_mem_co_free]
            ++ (if env.NFA_DM_AUTO_PRESENCE_CHECK && w.cb.flags.NFA_RW_FL_NOT_EXCL_RF_MODE
                then [Effect.nfa_sys_start_timer] else [])
            ++ [Effect.nfa_dm_act_conn_cback_notify NFA_READ_CPLT_EVT
                  { status := some OK }])) := by
  have hsome : w.cb.p_ndef_buf.isSome = true := by simp [hbuf]
  have hout := ndef_read_cplt_out env p_rw_data w hop hsome
  have hcb := ndef_read_cplt_cb env p_rw_data w hop
  intro event hev
  have hrun : nfa_rw_cback env event p_rw_data w
      = (clear_cur_op (nfa_rw_command_complete env (ndef_read_cplt p_rw_data w))).emit
          (Effect.nfa_dm_act_conn_cback_notify NFA_READ_CPLT_EVT { status := some OK }) := by
    rcases hev with hev | hev <;> subst hev <;> rfl
  rw [hrun]
  simp only [World.since, releasedOnce, clear_cur_op, World.emit, hout]
  refine ⟨?_, ⟨hcb.1, ?_⟩, hcb.2, trivial, ?_, ?_, ?_⟩
  · simp [consumerOf]
  · simp [List.count_append]
  · simp [callsOf]
  · simp [notifsOf]
  · intro hdr hseg hroom
    have hst := store_ndef_rx_buf_fits w p_rw_data hdr buf hseg hbuf hroom
    have hfit := ndef_buf_memcpy_fits hdr.payload buf w.cb.ndef_rd_offset hroom
    simp [hst, nfa_rw_store_ndef_rx_buf_trace, hseg, hbuf, hfit.1]

/-- Witness of `C31_read_complete`: the Type-4 read of 2 bytes completes with the
segment `[7, 8]`. -/
theorem C31_read_complete_witness :
    consumerOf ((nfa_rw_cback envAccept (tRW_EVENT.t4t RW_T4T_NDEF_READ_CPLT_EVT)
      { status := OK, p_data := some { payload := [7, 8] } } wReading2).since wReading2)
      = [(OK, some [7, 8], 2)] ∧
    notifsOf ((nfa_rw_cback envAccept (tRW_EVENT.t4t RW_T4T_NDEF_READ_CPLT_EVT)
      { status := OK, p_data := some { payload := [7, 8] } } wReading2).since wReading2)
      = [(NFA_READ_CPLT_EVT, { status := some OK })] :=
  ⟨((C31_read_complete envAccept { status := OK, p_data := some { payload := [7, 8] } }
      wReading2 [0, 0] rfl rfl) _ (Or.inl rfl)).1,
   ((C31_read_complete envAccept { status := OK, p_data := some { payload := [7, 8] } }
      wReading2 [0, 0] rfl rfl) _ (Or.inl rfl)).2.2.2.2.2.1⟩

/-! ## Interface error of Type-4 (claim C32) -/

/-- Claim C32: for a Type-4 interface-error completion, for every current
operation, Busy is clear afterwards, the current operation is `NFA_RW_OP_MAX`,
no engine call is made, and exactly one notification carrying the completion
status is emitted, keyed to the operation that was current: read-complete for
read-ndef, write-complete for write-ndef, ndef-detect-complete with sizes 0 and
the flags value `RW_NDEF_FL_UNKNOWN` for detect-ndef, and the interface-error
notification for any other operation.  For read-ndef the NDEF-message consumer
is told of the failure first and the buffer, if there is one, is released; for
any other operation the consumer is not called. -/
theorem C32_t4t_interface_error (env : Env) (p_rw_data : tRW_DATA) (w : World) :
    (nfa_rw_cback env (tRW_EVENT.t4t RW_T4T_INTF_ERROR_EVT) p_rw_data
      w).cb.flags.NFA_RW_FL_API_BUSY = false ∧
    (nfa_rw_cback env (tRW_EVENT.t4t RW_T4T_INTF_ERROR_EVT) p_rw_data w).cb.cur_op
      = NFA_RW_OP_MAX ∧
    callsOf ((nfa_rw_cback env (tRW_EVENT.t4t RW_T4T_INTF_ERROR_EVT) p_rw_data w).since w)
      = [] ∧
    notifsOf ((nfa_rw_cback env (tRW_EVENT.t4t RW_T4T_INTF_ERROR_EVT) p_rw_data w).since w)
      = [if w.cb.cur_op = NFA_RW_OP_READ_NDEF then
            (NFA_READ_CPLT_EVT, { status := some p_rw_data.status })
          else if w.cb.cur_op = NFA_RW_OP_WRITE_NDEF then
            (NFA_WRITE_CPLT_EVT, { status := some p_rw_data.status })
          else if w.cb.cur_op = NFA_RW_OP_DETECT_NDEF then
            (NFA_NDEF_DETECT_EVT,
              { status := some p_rw_data.status, cur_size := some 0, max_size := some 0,
                flags := some env.RW_NDEF_FL_UNKNOWN })
          else (NFA_RW_INTF_ERROR_EVT, { status := some p_rw_data.status })] ∧
    (w.cb.cur_op = NFA_RW_OP_READ_NDEF →
      (nfa_rw_cback env (tRW_EVENT.t4t RW_T4T_INTF_ERROR_EVT) p_rw_data w).since w
        = [Effect.nfa_dm_ndef_handle_message FAILED none 0]
          ++ (if w.cb.p_ndef_buf.isSome then [Effect.nfa_mem_co_free] else [])
          ++ (if env.NFA_DM_AUTO_PRESENCE_CHECK && w.cb.flags.NFA_RW_FL_NOT_EXCL_RF_MODE
              then [Effect.nfa_sys_start_timer] else [])
          ++ [Effect.nfa_dm_act_conn_cback_notify NFA_READ_CPLT_EVT
                { status := some p_rw_data.status }] ∧
      (nfa_rw_cback env (tRW_EVENT.t4t RW_T4T_INTF_ERROR_EVT) p_rw_data w).cb.p_ndef_buf
        = none) ∧
    (w.cb.cur_op ≠ NFA_RW_OP_READ_NDEF →
      consumerOf ((nfa_rw_cback env (tRW_EVENT.t4t RW_T4T_INTF_ERROR_EVT) p_rw_data w).since
        w) = []) := by
  have hwr : (NFA_RW_OP_WRITE_NDEF : tNFA_RW_OP) ≠ NFA_RW_OP_READ_NDEF := by decide
  by_cases hr : w.cb.cur_op = NFA_RW_OP_READ_NDEF
  · simp only [nfa_rw_cback, nfa_rw_handle_t4t_evt, intf_error_notify, intf_error_cleanup,
      clear_cur_op, World.since]
    simp [hr, free_ndef_rx_buf_out, callsOf, notifsOf]
  · by_cases hw : w.cb.cur_op = NFA_RW_OP_WRITE_NDEF
    · simp only [nfa_rw_cback, nfa_rw_handle_t4t_evt, intf_error_notify, intf_error_cleanup,
        clear_cur_op, World.since]
      simp [hw, hwr, callsOf, notifsOf, consumerOf]
    · by_cases hd : w.cb.cur_op = NFA_RW_OP_DETECT_NDEF
      · simp only [nfa_rw_cback, nfa_rw_handle_t4t_evt, intf_error_notify, intf_error_cleanup,
          clear_cur_op, World.since]
        simp [hd, callsOf, notifsOf, consumerOf]
      · simp only [nfa_rw_cback, nfa_rw_handle_t4t_evt, intf_error_notify, intf_error_cleanup,
          clear_cur_op, World.since]
        simp [hr, hw, hd, callsOf, notifsOf, consumerOf]

/-! ## Set-read-only on Type-1 (claim C33) -/

/-- Claim C33: for a Type-1 tag, an executed set-read-only request issues the
lock-TLV locate probe, and nothing else, when the lock TLV has not been located
(TLV-detection-state NotStarted or memory-TLV only), and issues the
make-read-only command directly, and nothing else, when it has.  When the
probe later completes with status OK, exactly one engine call is made: the
make-read-only command whose argument is the hard/soft choice of the
request. -/
theorem C33_t1t_set_read_only_sequence (env : Env) (w : World) (req : tNFA_RW_OPERATION)
    (p_tlv : tRW_DATA)
    (hp : w.cb.protocol = NFC_PROTOCOL_T1T)
    (hop : req.op = NFA_RW_OP_SET_TAG_RO)
    (hact : w.cb.flags.NFA_RW_FL_ACTIVATED = true)
    (hidle : w.cb.flags.NFA_RW_FL_API_BUSY = false)
    (hauto : w.cb.flags.NFA_RW_FL_AUTO_PRESENCE_CHECK_BUSY = false) :
    ((w.cb.tlv_st = NFA_RW_TLV_DETECT_ST_OP_NOT_STARTED
        ∨ w.cb.tlv_st = NFA_RW_TLV_DETECT_ST_MEM_TLV_OP_COMPLETE) →
      callsOf ((nfa_rw_handle_op_req env req w).2.since w)
        = [(tRW_T1T_CALL.RW_T1tLocateTlv TAG_LOCK_CTRL_TLV : tRW_CALL)]) ∧
    (¬ (w.cb.tlv_st = NFA_RW_TLV_DETECT_ST_OP_NOT_STARTED
        ∨ w.cb.tlv_st = NFA_RW_TLV_DETECT_ST_MEM_TLV_OP_COMPLETE) →
      callsOf ((nfa_rw_handle_op_req env req w).2.since w)
        = [(tRW_T1T_CALL.RW_T1tSetTagReadOnly req.params.set_readonly_b_hard_lock
            : tRW_CALL)]) ∧
    ((w.cb.tlv_st = NFA_RW_TLV_DETECT_ST_OP_NOT_STARTED
        ∨ w.cb.tlv_st = NFA_RW_TLV_DETECT_ST_MEM_TLV_OP_COMPLETE) →
      p_tlv.status = OK →
      callsOf ((nfa_rw_cback env (tRW_EVENT.t1t RW_T1T_TLV_DETECT_EVT) p_tlv
          (nfa_rw_handle_op_req env req w).2).since (nfa_rw_handle_op_req env req w).2)
        = [(tRW_T1T_CALL.RW_T1tSetTagReadOnly req.params.set_readonly_b_hard_lock
            : tRW_CALL)]) := by
  obtain ⟨op, params⟩ := req
  simp only at hop
  subst hop
  have hexec : (nfa_rw_handle_op_req env { op := NFA_RW_OP_SET_TAG_RO, params := params } w).2
      = (nfa_rw_config_tag_ro env params.set_readonly_b_hard_lock
          { cb := { w.cb with
                    cur_op := NFA_RW_OP_SET_TAG_RO
                    b_hard_lock := params.set_readonly_b_hard_lock
                    flags := { w.cb.flags with NFA_RW_FL_API_BUSY := true } }
            out := w.out ++ [Effect.nfa_sys_stop_timer] }).2 := by
    simp [nfa_rw_handle_op_req, nfa_rw_handle_op_req_switch, nfa_rw_stop_presence_check_timer,
      World.setFlags, World.emit, hact, hidle, hauto]
  rw [hexec]
  refine ⟨?_, ?_, ?_⟩
  · intro hst
    simp only [nfa_rw_config_tag_ro, World.since]
    simp [hp, hst, callsOf]
  · intro hst
    simp only [nfa_rw_config_tag_ro, World.since]
    simp only [hp, hst, if_false]
    simp only [rw_call_fst, rw_call_snd, emit_out, emit_cb, error_cleanup_out]
    split <;> simp [callsOf]
  · intro hst hs
    have hprobe : (nfa_rw_config_tag_ro env params.set_readonly_b_hard_lock
          { cb := { w.cb with
                    cur_op := NFA_RW_OP_SET_TAG_RO
                    b_hard_lock := params.set_readonly_b_hard_lock
                    flags := { w.cb.flags with NFA_RW_FL_API_BUSY := true } }
            out := w.out ++ [Effect.nfa_sys_stop_timer] }).2
        = { cb := { w.cb with
                    cur_op := NFA_RW_OP_SET_TAG_RO
                    b_hard_lock := params.set_readonly_b_hard_lock
                    flags := { w.cb.flags with NFA_RW_FL_API_BUSY := true } }
            out := w.out ++ [Effect.nfa_sys_stop_timer]
              ++ [Effect.call (tRW_T1T_CALL.RW_T1tLocateTlv TAG_LOCK_CTRL_TLV)] } := by
      simp [nfa_rw_config_tag_ro, hp, hst, rw_call, World.emit]
    rw [hprobe]
    simp only [nfa_rw_cback, nfa_rw_handle_t1t_evt, nfa_rw_handle_tlv_detect, World.since]
    simp only [hs, if_true]
    simp only [nfa_rw_config_tag_ro, hp]
    rcases hst with hst | hst <;>
      simp [hst, NFA_RW_TLV_DETECT_ST_OP_NOT_STARTED, NFA_RW_TLV_DETECT_ST_MEM_TLV_OP_COMPLETE,
        NFA_RW_TLV_DETECT_ST_LOCK_TLV_OP_COMPLETE, NFA_RW_TLV_DETECT_ST_COMPLETE] <;>
      split <;> simp [callsOf]

/-- Witness of `C33_t1t_set_read_only_sequence`: a hard-lock request on a fresh
Type-1 session issues the probe. -/
theorem C33_t1t_set_read_only_sequence_witness :
    callsOf ((nfa_rw_handle_op_req envAccept
      { op := NFA_RW_OP_SET_TAG_RO, params := { set_readonly_b_hard_lock := true } }
      wIdle).2.since wIdle)
      = [(tRW_T1T_CALL.RW_T1tLocateTlv TAG_LOCK_CTRL_TLV : tRW_CALL)] :=
  (C33_t1t_set_read_only_sequence envAccept wIdle
    { op := NFA_RW_OP_SET_TAG_RO, params := { set_readonly_b_hard_lock := true } }
    { status := OK } rfl rfl rfl rfl rfl).1 (Or.inl rfl)

/-! ## Activation of Type-3, Type-2 and Type-4 (claim C34) -/

/-- Claim C34: for an activation of a supported protocol with a successful engine
initialisation.  For Type-3 exactly one engine call is made, the system-code
retrieval.  If the engine accepts it, the activation handler emits no
activation notification and Busy is set on return; the system-codes completion
then emits exactly one activation notification with status OK (with the
reported codes when its status is OK, with zero codes otherwise), makes no
engine call and clears Busy.  If the engine rejects it, the activation handler
emits exactly one activation notification with status OK and zero codes, and
Busy is clear on return.  For Type-2 and Type-4 the activation handler makes no
engine call, emits exactly one activation notification with status OK (with
the UID for Type-2) and Busy is clear on return. -/
theorem C34_activation_notified_once (env : Env) (p_data : tNFA_RW_ACTIVATE_NTF)
    (w : World) (p_rw_data : tRW_DATA)
    (hsup : env.nfa_dm_is_protocol_supported p_data.p_activate_params.protocol
      p_data.p_activate_params.pa_sel_rsp = true)
    (hinit : env.RW_SetActivatedTagType p_data.p_activate_params = OK) :
    (p_data.p_activate_params.protocol = NFC_PROTOCOL_T3T →
      callsOf ((nfa_rw_activate_ntf env p_data w).2.since w)
        = [(tRW_T3T_CALL.RW_T3tGetSystemCodes : tRW_CALL)] ∧
      (env.rw tRW_T3T_CALL.RW_T3tGetSystemCodes = OK →
        activationsOf ((nfa_rw_activate_ntf env p_data w).2.since w) = [] ∧
        (nfa_rw_activate_ntf env p_data w).2.cb.flags.NFA_RW_FL_API_BUSY = true ∧
        activationsOf ((nfa_rw_cback env (tRW_EVENT.t3t RW_T3T_GET_SYSTEM_CODES_EVT) p_rw_data
            (nfa_rw_activate_ntf env p_data w).2).since (nfa_rw_activate_ntf env p_data w).2)
          = [(OK, some (if p_rw_data.status = OK then
                { t3t_num_system_codes := p_rw_data.t3t_sc_num_system_codes,
                  t3t_p_system_codes := p_rw_data.t3t_sc_p_system_codes }
              else { t3t_num_system_codes := 0, t3t_p_system_codes := none }))] ∧
        callsOf ((nfa_rw_cback env (tRW_EVENT.t3t RW_T3T_GET_SYSTEM_CODES_EVT) p_rw_data
            (nfa_rw_activate_ntf env p_data w).2).since (nfa_rw_activate_ntf env p_data w).2)
          = [] ∧
        (nfa_rw_cback env (tRW_EVENT.t3t RW_T3T_GET_SYSTEM_CODES_EVT) p_rw_data
          (nfa_rw_activate_ntf env p_data w).2).cb.flags.NFA_RW_FL_API_BUSY = false) ∧
      (env.rw tRW_T3T_CALL.RW_T3tGetSystemCodes ≠ OK →
        activationsOf ((nfa_rw_activate_ntf env p_data w).2.since w)
          = [(OK, some { t3t_num_system_codes := 0, t3t_p_system_codes := none })] ∧
        (nfa_rw_activate_ntf env p_data w).2.cb.flags.NFA_RW_FL_API_BUSY = false)) ∧
    (p_data.p_activate_params.protocol = NFC_PROTOCOL_T2T →
      callsOf ((nfa_rw_activate_ntf env p_data w).2.since w) = [] ∧
      activationsOf ((nfa_rw_activate_ntf env p_data w).2.since w)
        = [(OK, some { t2t_uid := some p_data.p_activate_params.pa_nfcid1 })] ∧
      (nfa_rw_activate_ntf env p_data w).2.cb.flags.NFA_RW_FL_API_BUSY = false) ∧
    (p_data.p_activate_params.protocol = NFC_PROTOCOL_ISO_DEP →
      callsOf ((nfa_rw_activate_ntf env p_data w).2.since w) = [] ∧
      activationsOf ((nfa_rw_activate_ntf env p_data w).2.since w) = [(OK, some {})] ∧
      (nfa_rw_activate_ntf env p_data w).2.cb.flags.NFA_RW_FL_API_BUSY = false) := by
  obtain ⟨⟨protocol, sel, nfcid, uid, frame⟩, excl⟩ := p_data
  simp only at hsup hinit
  simp only
  refine ⟨?_, ?_, ?_⟩
  · intro hp
    subst hp
    by_cases hacc : env.rw tRW_T3T_CALL.RW_T3tGetSystemCodes = OK
    · simp only [nfa_rw_activate_ntf, nfa_rw_activate_ntf_switch, nfa_rw_handle_op_req,
        nfa_rw_handle_op_req_switch, nfa_rw_t3t_get_system_codes,
        nfa_rw_stop_presence_check_timer, World.setFlags, World.since, nfa_rw_cback,
        nfa_rw_handle_t3t_evt]
      simp [hsup, hinit, hacc, callsOf, activationsOf]
    · simp only [nfa_rw_activate_ntf, nfa_rw_activate_ntf_switch, nfa_rw_handle_op_req,
        nfa_rw_handle_op_req_switch, nfa_rw_t3t_get_system_codes,
        nfa_rw_stop_presence_check_timer, World.setFlags, World.since, nfa_rw_cback,
        nfa_rw_handle_t3t_evt]
      simp [hsup, hinit, hacc, callsOf, activationsOf]
  · intro hp
    subst hp
    simp only [nfa_rw_activate_ntf, nfa_rw_activate_ntf_switch,
      nfa_rw_check_start_presence_check_timer, World.since]
    simp [hsup, hinit]
    split <;> simp [callsOf, activationsOf, World.emit]
  · intro hp
    subst hp
    simp only [nfa_rw_activate_ntf, nfa_rw_activate_ntf_switch,
      nfa_rw_check_start_presence_check_timer, World.since]
    simp [hsup, hinit]
    split <;> simp [callsOf, activationsOf, World.emit]

/-- Witness of `C34_activation_notified_once`: a Type-3 activation with an
accepting engine, followed by the system-codes completion with two codes. -/
theorem C34_activation_notified_once_witness :
    callsOf ((nfa_rw_activate_ntf envAccept actT3 wInactive).2.since wInactive)
      = [(tRW_T3T_CALL.RW_T3tGetSystemCodes : tRW_CALL)] ∧
    activationsOf ((nfa_rw_activate_ntf envAccept actT3 wInactive).2.since wInactive) = [] :=
  ⟨((C34_activation_notified_once envAccept actT3 wInactive
      { status := OK, t3t_sc_num_system_codes := 2, t3t_sc_p_system_codes := some [1, 2] }
      rfl rfl).1 rfl).1,
   (((C34_activation_notified_once envAccept actT3 wInactive
      { status := OK, t3t_sc_num_system_codes := 2, t3t_sc_p_system_codes := some [1, 2] }
      rfl rfl).1 rfl).2.1 rfl).1⟩

/-! ## Successful NDEF detection (claim C35) -/

/-- Claim C35: for every NDEF-detection completion with status OK, whatever
the current operation, the session afterwards has detection state TRUE, the
detected current and maximum size of the completion, and the tag-read-only flag
set exactly when the completion flags contain the read-only bit; every other
flag keeps its value, except that Busy is either kept or cleared, and it is
cleared when the current operation is neither read-ndef nor write-ndef. -/
theorem C35_detection_success_state (env : Env) (p_rw_data : tRW_DATA) (w : World)
    (hst : p_rw_data.status = OK) :
    (nfa_rw_handle_ndef_detect env p_rw_data w).cb.ndef_st = NFA_RW_NDEF_ST_TRUE ∧
    (nfa_rw_handle_ndef_detect env p_rw_data w).cb.ndef_cur_size = p_rw_data.cur_size ∧
    (nfa_rw_handle_ndef_detect env p_rw_data w).cb.ndef_max_size = p_rw_data.max_size ∧
    ((nfa_rw_handle_ndef_detect env p_rw_data w).cb.flags.NFA_RW_FL_TAG_IS_READONLY = true ↔
      p_rw_data.flags &&& env.RW_NDEF_FL_READ_ONLY ≠ 0) ∧
    (nfa_rw_handle_ndef_detect env p_rw_data w).cb.flags
      = { w.cb.flags with
          NFA_RW_FL_TAG_IS_READONLY :=
            (nfa_rw_handle_ndef_detect env p_rw_data w).cb.flags.NFA_RW_FL_TAG_IS_READONLY
          NFA_RW_FL_API_BUSY :=
            (nfa_rw_handle_ndef_detect env p_rw_data w).cb.flags.NFA_RW_FL_API_BUSY } ∧
    ((nfa_rw_handle_ndef_detect env p_rw_data w).cb.flags.NFA_RW_FL_API_BUSY
        = w.cb.flags.NFA_RW_FL_API_BUSY ∨
     (nfa_rw_handle_ndef_detect env p_rw_data w).cb.flags.NFA_RW_FL_API_BUSY = false) ∧
    (w.cb.cur_op ≠ NFA_RW_OP_READ_NDEF → w.cb.cur_op ≠ NFA_RW_OP_WRITE_NDEF →
      (nfa_rw_handle_ndef_detect env p_rw_data w).cb.flags.NFA_RW_FL_API_BUSY = false ∧
      (nfa_rw_handle_ndef_detect env p_rw_data w).cb.cur_op = NFA_RW_OP_MAX) := by
  by_cases hr : w.cb.cur_op = NFA_RW_OP_READ_NDEF
  · simp only [nfa_rw_handle_ndef_detect, nfa_rw_start_ndef_read, hst, hr, if_true]
    (repeat' split) <;> simp
  · by_cases hw : w.cb.cur_op = NFA_RW_OP_WRITE_NDEF
    · simp only [nfa_rw_handle_ndef_detect, nfa_rw_start_ndef_write, hst, hw, if_true]
      simp
      (repeat' split) <;> simp
    · simp only [nfa_rw_handle_ndef_detect, hst, if_true]
      simp [hr, hw]

/-- Witness of `C35_detection_success_state`: a read-only message of 5 bytes in
a data area of 10 is detected on behalf of a read-ndef operation. -/
theorem C35_detection_success_state_witness :
    (nfa_rw_handle_ndef_detect envAccept
        { status := OK, cur_size := 5, max_size := 10, flags := 1 } wReadDetecting).cb.ndef_st
      = NFA_RW_NDEF_ST_TRUE ∧
    (nfa_rw_handle_ndef_detect envAccept
        { status := OK, cur_size := 5, max_size := 10, flags := 1 }
        wReadDetecting).cb.ndef_cur_size = 5 :=
  ⟨(C35_detection_success_state envAccept
      { status := OK, cur_size := 5, max_size := 10, flags := 1 } wReadDetecting rfl).1,
   (C35_detection_success_state envAccept
      { status := OK, cur_size := 5, max_size := 10, flags := 1 } wReadDetecting rfl).2.1⟩

/-! ## Failed NDEF detection (claim C36) -/

/-- Claim C36: for every NDEF-detection completion with a non-OK status the
detection state becomes FALSE, Busy is cleared, the current operation becomes
`NFA_RW_OP_MAX`, no engine call is made, and the notifications are keyed to
the current operation: for read-ndef the NDEF consumer is told of the failure
and then one read-complete notification with status FAILED is emitted; for
write-ndef one write-complete notification with status FAILED; for detect-ndef
one detection notification with status FAILED and the completion's protocol,
with sizes 0 and flags unknown when the status is a timeout and the
completion's sizes and flags otherwise; for any other operation none. -/
theorem C36_detection_failure (env : Env) (p_rw_data : tRW_DATA) (w : World)
    (hst : p_rw_data.status ≠ OK) :
    (nfa_rw_handle_ndef_detect env p_rw_data w).cb.ndef_st = NFA_RW_NDEF_ST_FALSE ∧
    (nfa_rw_handle_ndef_detect env p_rw_data w).cb.flags.NFA_RW_FL_API_BUSY = false ∧
    (nfa_rw_handle_ndef_detect env p_rw_data w).cb.cur_op = NFA_RW_OP_MAX ∧
    callsOf ((nfa_rw_handle_ndef_detect env p_rw_data w).since w) = [] ∧
    notifsOf ((nfa_rw_handle_ndef_detect env p_rw_data w).since w)
      = (if w.cb.cur_op = NFA_RW_OP_READ_NDEF then
           [(NFA_READ_CPLT_EVT, { status := some FAILED })]
         else if w.cb.cur_op = NFA_RW_OP_WRITE_NDEF then
           [(NFA_WRITE_CPLT_EVT, { status := some FAILED })]
         else if w.cb.cur_op = NFA_RW_OP_DETECT_NDEF then
           (if p_rw_data.status = TIMEOUT then
              [(NFA_NDEF_DETECT_EVT,
                { status := some FAILED, protocol := some p_rw_data.protocol,
                  cur_size := some 0, max_size := some 0,
                  flags := some env.RW_NDEF_FL_UNKNOWN })]
            else
              [(NFA_NDEF_DETECT_EVT,
                { status := some FAILED, protocol := some p_rw_data.protocol,
                  cur_size := some p_rw_data.cur_size, max_size := some p_rw_data.max_size,
                  flags := some p_rw_data.flags })])
         else []) ∧
    consumerOf ((nfa_rw_handle_ndef_detect env p_rw_data w).since w)
      = (if w.cb.cur_op = NFA_RW_OP_READ_NDEF then [(FAILED, none, 0)] else []) ∧
    (w.cb.cur_op = NFA_RW_OP_READ_NDEF →
      (nfa_rw_handle_ndef_detect env p_rw_data w).since w
        = (if env.NFA_DM_AUTO_PRESENCE_CHECK && w.cb.flags.NFA_RW_FL_NOT_EXCL_RF_MODE
           then [Effect.nfa_sys_start_timer] else [])
          ++ [Effect.nfa_dm_ndef_handle_message FAILED none 0,
              Effect.nfa_dm_act_conn_cback_notify NFA_READ_CPLT_EVT
                { status := some FAILED }]) := by
  by_cases hr : w.cb.cur_op = NFA_RW_OP_READ_NDEF
  · simp only [nfa_rw_handle_ndef_detect, World.since]
    simp [hst, hr, callsOf, notifsOf, consumerOf]
  · by_cases hw : w.cb.cur_op = NFA_RW_OP_WRITE_NDEF
    · simp only [nfa_rw_handle_ndef_detect, World.since]
      simp [hst, hw, callsOf, notifsOf, consumerOf]
    · by_cases hd : w.cb.cur_op = NFA_RW_OP_DETECT_NDEF
      · by_cases ht : p_rw_data.status = TIMEOUT
        · simp only [nfa_rw_handle_ndef_detect, World.since]
          simp [ht, hd, callsOf, notifsOf, consumerOf]
        · simp only [nfa_rw_handle_ndef_detect, World.since]
          simp [hst, ht, hd, callsOf, notifsOf, consumerOf]
      · simp only [nfa_rw_handle_ndef_detect, World.since]
        simp [hst, hr, hw, hd, callsOf, notifsOf, consumerOf]

/-- Witness of `C36_detection_failure`: a timeout of the detection started by
a read-ndef operation. -/
theorem C36_detection_failure_witness :
    (nfa_rw_handle_ndef_detect envAccept { status := TIMEOUT } wReadDetecting).cb.ndef_st
      = NFA_RW_NDEF_ST_FALSE ∧
    (nfa_rw_handle_ndef_detect envAccept
      { status := TIMEOUT } wReadDetecting).cb.flags.NFA_RW_FL_API_BUSY = false :=
  ⟨(C36_detection_failure envAccept { status := TIMEOUT } wReadDetecting (by decide)).1,
   (C36_detection_failure envAccept { status := TIMEOUT } wReadDetecting (by decide)).2.1⟩

/-! ## The stored size after a write completion (claim C37) -/

/-- Claim C37, as stated, fails for the ISO 15693 interface error handled while
the activation notification is pending: in the session `wI93WritePending` the
write of 3 bytes is in flight (the last engine call is the NDEF update), the
stored current size is 0, and after the interface-error event the stored
current size is still 0, not 3; the event reports the activation and emits no
write-complete notification. -/
theorem C37_counterexample_pending_interface_error :
    wI93WritePending.cb.cur_op = NFA_RW_OP_WRITE_NDEF ∧
    wI93WritePending.cb.flags.NFA_RW_FL_API_BUSY = true ∧
    wI93WritePending.cb.flags.NFA_RW_FL_ACTIVATION_NTF_PENDING = true ∧
    wI93WritePending.cb.ndef_wr_len = 3 ∧
    (callsOf wI93WritePending.out).getLast?
      = some (tRW_I93_CALL.RW_I93UpdateNDef 3 [1, 2, 3] : tRW_CALL) ∧
    (nfa_rw_cback envAccept (tRW_EVENT.i93 RW_I93_INTF_ERROR_EVT) { status := FAILED }
      wI93WritePending).cb.ndef_cur_size = 0 ∧
    notifsOf ((nfa_rw_cback envAccept (tRW_EVENT.i93 RW_I93_INTF_ERROR_EVT) { status := FAILED }
      wI93WritePending).since wI93WritePending) = [] := by
  decide

/-- Claim C37, amended: while the current operation is write-ndef, the stored
current size becomes the requested write length after the Type-1 and Type-2
`NDEF_WRITE` and the Type-3 `UPDATE_CPLT` completion whatever their status,
after the Type-4 and ISO 15693 `NDEF_UPDATE_CPLT` and `NDEF_UPDATE_FAIL`
events, after the Type-4 interface error, and after the ISO 15693 interface
error when no activation notification is pending; the ISO 15693 interface
error handled while the activation notification is pending leaves the stored
current size unchanged. -/
theorem C37_write_completion_sets_cur_size (env : Env) (w : World) (p_rw_data : tRW_DATA)
    (hop : w.cb.cur_op = NFA_RW_OP_WRITE_NDEF) :
    (∀ event ∈ [tRW_EVENT.t1t RW_T1T_NDEF_WRITE_EVT, tRW_EVENT.t2t RW_T2T_NDEF_WRITE_EVT,
        tRW_EVENT.t3t RW_T3T_UPDATE_CPLT_EVT, tRW_EVENT.t4t RW_T4T_NDEF_UPDATE_CPLT_EVT,
        tRW_EVENT.t4t RW_T4T_NDEF_UPDATE_FAIL_EVT, tRW_EVENT.t4t RW_T4T_INTF_ERROR_EVT,
        tRW_EVENT.i93 RW_I93_NDEF_UPDATE_CPLT_EVT, tRW_EVENT.i93 RW_I93_NDEF_UPDATE_FAIL_EVT],
      (nfa_rw_cback env event p_rw_data w).cb.ndef_cur_size = w.cb.ndef_wr_len) ∧
    (w.cb.flags.NFA_RW_FL_ACTIVATION_NTF_PENDING = false →
      (nfa_rw_cback env (tRW_EVENT.i93 RW_I93_INTF_ERROR_EVT) p_rw_data w).cb.ndef_cur_size
        = w.cb.ndef_wr_len) ∧
    (w.cb.flags.NFA_RW_FL_ACTIVATION_NTF_PENDING = true →
      (nfa_rw_cback env (tRW_EVENT.i93 RW_I93_INTF_ERROR_EVT) p_rw_data w).cb.ndef_cur_size
        = w.cb.ndef_cur_size) := by
  refine ⟨?_, ?_, ?_⟩
  · intro event hev
    simp only [List.mem_cons, List.mem_singleton, List.mem_nil_iff, or_false] at hev
    rcases hev with h | h | h | h | h | h | h | h <;> subst h <;>
      by_cases hs : p_rw_data.status = OK <;>
      simp [nfa_rw_cback, nfa_rw_handle_t1t_evt, nfa_rw_handle_t2t_evt, nfa_rw_handle_t3t_evt,
        nfa_rw_handle_t4t_evt, nfa_rw_handle_i93_evt, update_cur_size_on_write,
        intf_error_notify, intf_error_cleanup, clear_cur_op, hop, hs]
  · intro hpend
    simp [nfa_rw_cback, nfa_rw_handle_i93_evt, intf_error_notify, intf_error_cleanup,
      clear_cur_op, hop, hpend]
  · intro hpend
    simp [nfa_rw_cback, nfa_rw_handle_i93_evt, clear_activation_ntf_pending, clear_cur_op,
      World.setFlags,
      hpend]

/-- Witness of `C37_write_completion_sets_cur_size`: the Type-1 write of 3 bytes
completes with status FAILED. -/
theorem C37_write_completion_sets_cur_size_witness :
    wWritingT1.cb.cur_op = NFA_RW_OP_WRITE_NDEF ∧
    (nfa_rw_cback envAccept (tRW_EVENT.t1t RW_T1T_NDEF_WRITE_EVT) { status := FAILED }
      wWritingT1).cb.ndef_cur_size = wWritingT1.cb.ndef_wr_len :=
  ⟨rfl, (C37_write_completion_sets_cur_size envAccept wWritingT1 { status := FAILED } rfl).1
    (tRW_EVENT.t1t RW_T1T_NDEF_WRITE_EVT) (by simp)⟩

/-! ## Raw frames do not occupy the session (claim C38) -/

/-- Claim C38: in an activated state with Busy and AutoPresenceCheckBusy clear,
`nfa_rw_handle_op_req` executes a raw-frame-send request as follows: the frame
is handed to the transport exactly once, no engine call is made and no
notification is emitted, and on return Busy is clear, the session is still
activated, no automatic presence check is in progress and the current operation
is raw-frame-send.  A following request `q` is therefore executed: it takes
the branch of `nfa_rw_handle_op_req` that sets Busy, stops the presence-check
timer, records the operation and runs the handler of `q`. -/
theorem C38_raw_frame_not_in_flight (env : Env) (w : World) (req q : tNFA_RW_OPERATION)
    (hop : req.op = NFA_RW_OP_SEND_RAW_FRAME)
    (hact : w.cb.flags.NFA_RW_FL_ACTIVATED = true)
    (hidle : w.cb.flags.NFA_RW_FL_API_BUSY = false)
    (hauto : w.cb.flags.NFA_RW_FL_AUTO_PRESENCE_CHECK_BUSY = false) :
    (nfa_rw_handle_op_req env req w).1 = true ∧
    framesOf ((nfa_rw_handle_op_req env req w).2.since w)
      = [req.params.send_raw_frame_p_data] ∧
    callsOf ((nfa_rw_handle_op_req env req w).2.since w) = [] ∧
    notifsOf ((nfa_rw_handle_op_req env req w).2.since w) = [] ∧
    (nfa_rw_handle_op_req env req w).2.cb.flags.NFA_RW_FL_API_BUSY = false ∧
    (nfa_rw_handle_op_req env req w).2.cb.flags.NFA_RW_FL_ACTIVATED = true ∧
    (nfa_rw_handle_op_req env req w).2.cb.flags.NFA_RW_FL_AUTO_PRESENCE_CHECK_BUSY = false ∧
    (nfa_rw_handle_op_req env req w).2.cb.cur_op = NFA_RW_OP_SEND_RAW_FRAME ∧
    nfa_rw_handle_op_req env q (nfa_rw_handle_op_req env req w).2
      = (true, nfa_rw_handle_op_req_switch env q
          { (nfa_rw_stop_presence_check_timer
              ((nfa_rw_handle_op_req env req w).2.setFlags
                { (nfa_rw_handle_op_req env req w).2.cb.flags with NFA_RW_FL_API_BUSY := true }))
            with cb :=
              { (nfa_rw_stop_presence_check_timer
                  ((nfa_rw_handle_op_req env req w).2.setFlags
                    { (nfa_rw_handle_op_req env req w).2.cb.flags with
                      NFA_RW_FL_API_BUSY := true })).cb
                with cur_op := q.op } }) := by
  have h1 : (nfa_rw_handle_op_req env req w).1 = true := by
    simp [nfa_rw_handle_op_req, hact, hidle, hauto]
  have ha : (nfa_rw_handle_op_req env req w).2.cb.flags.NFA_RW_FL_ACTIVATED = true := by
    simp [nfa_rw_handle_op_req, nfa_rw_handle_op_req_switch, hop, hact, hidle, hauto,
      nfa_rw_stop_presence_check_timer, World.setFlags, World.emit]
  have hb : (nfa_rw_handle_op_req env req w).2.cb.flags.NFA_RW_FL_API_BUSY = false := by
    simp [nfa_rw_handle_op_req, nfa_rw_handle_op_req_switch, hop, hact, hidle, hauto,
      nfa_rw_stop_presence_check_timer, World.setFlags, World.emit]
  have hc : (nfa_rw_handle_op_req env req w).2.cb.flags.NFA_RW_FL_AUTO_PRESENCE_CHECK_BUSY
      = false := by
    simp [nfa_rw_handle_op_req, nfa_rw_handle_op_req_switch, hop, hact, hidle, hauto,
      nfa_rw_stop_presence_check_timer, World.setFlags, World.emit]
  refine ⟨h1, ?_, ?_, ?_, hb, ha, hc, ?_, ?_⟩
  · simp only [nfa_rw_handle_op_req, nfa_rw_handle_op_req_switch, hop, World.since]
    simp [hact, hidle, hauto, nfa_rw_stop_presence_check_timer, World.setFlags, World.emit,
      framesOf]
    split <;> simp [framesOf]
  · simp only [nfa_rw_handle_op_req, nfa_rw_handle_op_req_switch, hop, World.since]
    simp [hact, hidle, hauto, nfa_rw_stop_presence_check_timer, World.setFlags, World.emit,
      callsOf]
  · simp only [nfa_rw_handle_op_req, nfa_rw_handle_op_req_switch, hop, World.since]
    simp [hact, hidle, hauto, nfa_rw_stop_presence_check_timer, World.setFlags, World.emit,
      notifsOf]
  · simp [nfa_rw_handle_op_req, nfa_rw_handle_op_req_switch, hop, hact, hidle, hauto,
      nfa_rw_stop_presence_check_timer, World.setFlags, World.emit]
  · generalize (nfa_rw_handle_op_req env req w).2 = w1 at ha hb hc ⊢
    simp [nfa_rw_handle_op_req, ha, hb, hc]

/-- Witness of `C38_raw_frame_not_in_flight`: a frame of three bytes sent in the
idle session, followed by a detect-ndef request. -/
theorem C38_raw_frame_not_in_flight_witness :
    framesOf ((nfa_rw_handle_op_req envAccept
        { op := NFA_RW_OP_SEND_RAW_FRAME, params := { send_raw_frame_p_data := [1, 2, 3] } }
        wIdle).2.since wIdle) = [[1, 2, 3]] ∧
    (nfa_rw_handle_op_req envAccept
        { op := NFA_RW_OP_SEND_RAW_FRAME, params := { send_raw_frame_p_data := [1, 2, 3] } }
        wIdle).2.cb.flags.NFA_RW_FL_API_BUSY = false :=
  ⟨(C38_raw_frame_not_in_flight envAccept wIdle
      { op := NFA_RW_OP_SEND_RAW_FRAME, params := { send_raw_frame_p_data := [1, 2, 3] } }
      { op := NFA_RW_OP_DETECT_NDEF } rfl rfl rfl rfl).2.1,
   (C38_raw_frame_not_in_flight envAccept wIdle
      { op := NFA_RW_OP_SEND_RAW_FRAME, params := { send_raw_frame_p_data := [1, 2, 3] } }
      { op := NFA_RW_OP_DETECT_NDEF } rfl rfl rfl rfl).2.2.2.2.1⟩

/-! ## Vicinity activation with a rejected automatic command (claim C39) -/

/-- Claim C39: for an ISO 15693 activation with a supported protocol and a
successful engine initialisation, let `uid` be the tag UID as the handler
stores it.  If the engine rejects the automatic command (INVENTORY with AFI 0
and `uid` for the fixed-layout families, GET-SYSTEM-INFO with `uid` for the
others), the activation handler emits exactly one notification,
`NFA_I93_CMD_CPLT_EVT` with status FAILED and the identifier of the rejected
command, emits no activation notification, and on return Busy is clear while
ActivationNotifyPending and Activated are set. -/
theorem C39_vicinity_activation_rejected (env : Env) (p_data : tNFA_RW_ACTIVATE_NTF)
    (w : World)
    (hsup : env.nfa_dm_is_protocol_supported p_data.p_activate_params.protocol
      p_data.p_activate_params.pa_sel_rsp = true)
    (hinit : env.RW_SetActivatedTagType p_data.p_activate_params = OK)
    (hp : p_data.p_activate_params.protocol = NFC_PROTOCOL_15693) :
    ((env.ARRAY8_TO_STREAM p_data.p_activate_params.pi93_uid).getD 1 0
        = env.I93_UID_IC_MFG_CODE_TI
      ∧ (((env.ARRAY8_TO_STREAM p_data.p_activate_params.pi93_uid).getD 2 0
            &&& env.I93_UID_TAG_IT_HF_I_PRODUCT_ID_MASK)
            = env.I93_UID_TAG_IT_HF_I_STD_CHIP_INLAY
          ∨ ((env.ARRAY8_TO_STREAM p_data.p_activate_params.pi93_uid).getD 2 0
            &&& env.I93_UID_TAG_IT_HF_I_PRODUCT_ID_MASK)
            = env.I93_UID_TAG_IT_HF_I_PRO_CHIP_INLAY) →
      env.rw (tRW_I93_CALL.RW_I93Inventory 0
        (some (env.ARRAY8_TO_STREAM p_data.p_activate_params.pi93_uid))) ≠ OK →
      notifsOf ((nfa_rw_activate_ntf env p_data w).2.since w)
        = [(NFA_I93_CMD_CPLT_EVT,
            { status := some FAILED, sent_command := some I93_CMD_INVENTORY })] ∧
      activationsOf ((nfa_rw_activate_ntf env p_data w).2.since w) = [] ∧
      (nfa_rw_activate_ntf env p_data w).2.cb.flags.NFA_RW_FL_API_BUSY = false ∧
      (nfa_rw_activate_ntf env p_data w).2.cb.flags.NFA_RW_FL_ACTIVATION_NTF_PENDING = true ∧
      (nfa_rw_activate_ntf env p_data w).2.cb.flags.NFA_RW_FL_ACTIVATED = true) ∧
    (¬ ((env.ARRAY8_TO_STREAM p_data.p_activate_params.pi93_uid).getD 1 0
        = env.I93_UID_IC_MFG_CODE_TI
      ∧ (((env.ARRAY8_TO_STREAM p_data.p_activate_params.pi93_uid).getD 2 0
            &&& env.I93_UID_TAG_IT_HF_I_PRODUCT_ID_MASK)
            = env.I93_UID_TAG_IT_HF_I_STD_CHIP_INLAY
          ∨ ((env.ARRAY8_TO_STREAM p_data.p_activate_params.pi93_uid).getD 2 0
            &&& env.I93_UID_TAG_IT_HF_I_PRODUCT_ID_MASK)
            = env.I93_UID_TAG_IT_HF_I_PRO_CHIP_INLAY)) →
      env.rw (tRW_I93_CALL.RW_I93GetSysInfo
        (some (env.ARRAY8_TO_STREAM p_data.p_activate_params.pi93_uid))) ≠ OK →
      notifsOf ((nfa_rw_activate_ntf env p_data w).2.since w)
        = [(NFA_I93_CMD_CPLT_EVT,
            { status := some FAILED, sent_command := some I93_CMD_GET_SYS_INFO })] ∧
      activationsOf ((nfa_rw_activate_ntf env p_data w).2.since w) = [] ∧
      (nfa_rw_activate_ntf env p_data w).2.cb.flags.NFA_RW_FL_API_BUSY = false ∧
      (nfa_rw_activate_ntf env p_data w).2.cb.flags.NFA_RW_FL_ACTIVATION_NTF_PENDING = true ∧
      (nfa_rw_activate_ntf env p_data w).2.cb.flags.NFA_RW_FL_ACTIVATED = true) := by
  obtain ⟨⟨protocol, sel, nfcid, uid, frame⟩, excl⟩ := p_data
  simp only at hp hsup hinit
  subst hp
  simp only
  by_cases hm : (env.ARRAY8_TO_STREAM uid).getD 1 0 = env.I93_UID_IC_MFG_CODE_TI
      ∧ (((env.ARRAY8_TO_STREAM uid).getD 2 0 &&& env.I93_UID_TAG_IT_HF_I_PRODUCT_ID_MASK)
            = env.I93_UID_TAG_IT_HF_I_STD_CHIP_INLAY
          ∨ ((env.ARRAY8_TO_STREAM uid).getD 2 0 &&& env.I93_UID_TAG_IT_HF_I_PRODUCT_ID_MASK)
            = env.I93_UID_TAG_IT_HF_I_PRO_CHIP_INLAY)
  · have hm' := hm
    simp only [List.getD_eq_getElem?_getD] at hm'
    refine ⟨fun _ hrej => ?_, fun h => absurd hm h⟩
    simp only [nfa_rw_activate_ntf, nfa_rw_activate_ntf_switch, nfa_rw_handle_op_req,
      nfa_rw_handle_op_req_switch, nfa_rw_i93_command, nfa_rw_i93_command_select,
      nfa_rw_stop_presence_check_timer, World.setFlags, World.since]
    simp [hsup, hinit, hm', hrej, notifsOf, activationsOf]
  · have hm' := hm
    simp only [List.getD_eq_getElem?_getD] at hm'
    refine ⟨fun h => absurd h hm, fun _ hrej => ?_⟩
    simp only [nfa_rw_activate_ntf, nfa_rw_activate_ntf_switch, nfa_rw_handle_op_req,
      nfa_rw_handle_op_req_switch, nfa_rw_i93_command, nfa_rw_i93_command_select,
      nfa_rw_stop_presence_check_timer, World.setFlags, World.since]
    simp [hsup, hinit, hm', hrej, notifsOf, activationsOf]

/-- Witness of `C39_vicinity_activation_rejected`: a tag of the second
fixed-layout family is activated and the engine rejects INVENTORY. -/
theorem C39_vicinity_activation_rejected_witness :
    notifsOf ((nfa_rw_activate_ntf envReject actI93Pro wInactive).2.since wInactive)
      = [(NFA_I93_CMD_CPLT_EVT,
          { status := some FAILED, sent_command := some I93_CMD_INVENTORY })] ∧
    activationsOf ((nfa_rw_activate_ntf envReject actI93Pro wInactive).2.since wInactive)
      = [] :=
  ⟨((C39_vicinity_activation_rejected envReject actI93Pro wInactive rfl rfl rfl).1
      (by decide) (by decide)).1,
   ((C39_vicinity_activation_rejected envReject actI93Pro wInactive rfl rfl rfl).1
      (by decide) (by decide)).2.1⟩

/-! ## The INVENTORY response during activation (claim C40) -/

/-- Claim C40: for an ISO 15693 session with ActivationNotifyPending set and a
non-zero stored block size, the INVENTORY response clears Busy and issues
exactly one engine call, a read of the single block whose number is the
quotient `q` of the AFI location by the block size (so `q * block size` is at
most the AFI location, which is below `(q + 1) * block size`), reduced modulo
256.  If the call is accepted, the DSFID of the response is stored,
ActivationNotifyPending stays set, the current operation is unchanged and
neither a notification nor an activation notification is emitted.  If it is
rejected, ActivationNotifyPending is cleared, no application notification is
emitted and exactly one activation notification with status OK is emitted,
carrying the DSFID of the response and the stored block size, block count and
UID.  After an activation of a fixed-layout tag the stored block size is the
header constant of the family, hence non-zero when that constant is. -/
theorem C40_inventory_response (env : Env) (p_rw_data : tRW_DATA) (w : World)
    (hpend : w.cb.flags.NFA_RW_FL_ACTIVATION_NTF_PENDING = true)
    (hbs : w.cb.i93_block_size ≠ 0) :
    callsOf ((nfa_rw_cback env (tRW_EVENT.i93 RW_I93_INVENTORY_EVT) p_rw_data w).since w)
      = [(tRW_I93_CALL.RW_I93ReadSingleBlock
          ((w.cb.i93_afi_location / w.cb.i93_block_size) % 256) : tRW_CALL)] ∧
    (w.cb.i93_afi_location / w.cb.i93_block_size) * w.cb.i93_block_size
      ≤ w.cb.i93_afi_location ∧
    w.cb.i93_afi_location
      < (w.cb.i93_afi_location / w.cb.i93_block_size + 1) * w.cb.i93_block_size ∧
    (nfa_rw_cback env (tRW_EVENT.i93 RW_I93_INVENTORY_EVT) p_rw_data w).cb.flags.NFA_RW_FL_API_BUSY
      = false ∧
    (env.rw (tRW_I93_CALL.RW_I93ReadSingleBlock
        ((w.cb.i93_afi_location / w.cb.i93_block_size) % 256)) = OK →
      (nfa_rw_cback env (tRW_EVENT.i93 RW_I93_INVENTORY_EVT) p_rw_data w).cb.i93_dsfid
        = p_rw_data.i93_inventory_dsfid ∧
      (nfa_rw_cback env (tRW_EVENT.i93 RW_I93_INVENTORY_EVT) p_rw_data
        w).cb.flags.NFA_RW_FL_ACTIVATION_NTF_PENDING = true ∧
      (nfa_rw_cback env (tRW_EVENT.i93 RW_I93_INVENTORY_EVT) p_rw_data w).cb.cur_op
        = w.cb.cur_op ∧
      notifsOf ((nfa_rw_cback env (tRW_EVENT.i93 RW_I93_INVENTORY_EVT) p_rw_data w).since w)
        = [] ∧
      activationsOf
        ((nfa_rw_cback env (tRW_EVENT.i93 RW_I93_INVENTORY_EVT) p_rw_data w).since w) = []) ∧
    (env.rw (tRW_I93_CALL.RW_I93ReadSingleBlock
        ((w.cb.i93_afi_location / w.cb.i93_block_size) % 256)) ≠ OK →
      (nfa_rw_cback env (tRW_EVENT.i93 RW_I93_INVENTORY_EVT) p_rw_data
        w).cb.flags.NFA_RW_FL_ACTIVATION_NTF_PENDING = false ∧
      notifsOf ((nfa_rw_cback env (tRW_EVENT.i93 RW_I93_INVENTORY_EVT) p_rw_data w).since w)
        = [] ∧
      activationsOf
        ((nfa_rw_cback env (tRW_EVENT.i93 RW_I93_INVENTORY_EVT) p_rw_data w).since w)
        = [(OK, some
            { i93_info_flags := some (env.I93_INFO_FLAG_DSFID ||| env.I93_INFO_FLAG_MEM_SIZE),
              i93_dsfid := some p_rw_data.i93_inventory_dsfid,
              i93_block_size := some w.cb.i93_block_size,
              i93_num_block := some w.cb.i93_num_block,
              i93_uid := some w.cb.i93_uid })]) ∧
    (∀ (p_data : tNFA_RW_ACTIVATE_NTF) (w0 : World),
      env.nfa_dm_is_protocol_supported p_data.p_activate_params.protocol
        p_data.p_activate_params.pa_sel_rsp = true →
      env.RW_SetActivatedTagType p_data.p_activate_params = OK →
      p_data.p_activate_params.protocol = NFC_PROTOCOL_15693 →
      ((env.ARRAY8_TO_STREAM p_data.p_activate_params.pi93_uid).getD 1 0
          = env.I93_UID_IC_MFG_CODE_TI
        ∧ (((env.ARRAY8_TO_STREAM p_data.p_activate_params.pi93_uid).getD 2 0
              &&& env.I93_UID_TAG_IT_HF_I_PRODUCT_ID_MASK)
              = env.I93_UID_TAG_IT_HF_I_STD_CHIP_INLAY
            ∨ ((env.ARRAY8_TO_STREAM p_data.p_activate_params.pi93_uid).getD 2 0
              &&& env.I93_UID_TAG_IT_HF_I_PRODUCT_ID_MASK)
              = env.I93_UID_TAG_IT_HF_I_PRO_CHIP_INLAY)) →
      (nfa_rw_activate_ntf env p_data w0).2.cb.i93_block_size
          = env.I93_TAG_IT_HF_I_STD_PRO_CHIP_INLAY_BLK_SIZE ∧
        (nfa_rw_activate_ntf env p_data w0).2.cb.flags.NFA_RW_FL_ACTIVATION_NTF_PENDING
          = true ∧
        (env.I93_TAG_IT_HF_I_STD_PRO_CHIP_INLAY_BLK_SIZE ≠ 0 →
          (nfa_rw_activate_ntf env p_data w0).2.cb.i93_block_size ≠ 0)) := by
  have hact : ∀ (p_data : tNFA_RW_ACTIVATE_NTF) (w0 : World),
      env.nfa_dm_is_protocol_supported p_data.p_activate_params.protocol
        p_data.p_activate_params.pa_sel_rsp = true →
      env.RW_SetActivatedTagType p_data.p_activate_params = OK →
      p_data.p_activate_params.protocol = NFC_PROTOCOL_15693 →
      ((env.ARRAY8_TO_STREAM p_data.p_activate_params.pi93_uid).getD 1 0
          = env.I93_UID_IC_MFG_CODE_TI
        ∧ (((env.ARRAY8_TO_STREAM p_data.p_activate_params.pi93_uid).getD 2 0
              &&& env.I93_UID_TAG_IT_HF_I_PRODUCT_ID_MASK)
              = env.I93_UID_TAG_IT_HF_I_STD_CHIP_INLAY
            ∨ ((env.ARRAY8_TO_STREAM p_data.p_activate_params.pi93_uid).getD 2 0
              &&& env.I93_UID_TAG_IT_HF_I_PRODUCT_ID_MASK)
              = env.I93_UID_TAG_IT_HF_I_PRO_CHIP_INLAY)) →
      (nfa_rw_activate_ntf env p_data w0).2.cb.i93_block_size
          = env.I93_TAG_IT_HF_I_STD_PRO_CHIP_INLAY_BLK_SIZE ∧
        (nfa_rw_activate_ntf env p_data w0).2.cb.flags.NFA_RW_FL_ACTIVATION_NTF_PENDING
          = true := by
    intro p_data w0 hsup hinit hp hm
    obtain ⟨⟨protocol, sel, nfcid, uid, frame⟩, excl⟩ := p_data
    simp only at hp hsup hinit hm
    subst hp
    have hm' := hm
    simp only [List.getD_eq_getElem?_getD] at hm'
    constructor <;>
      simp only [nfa_rw_activate_ntf, nfa_rw_activate_ntf_switch, nfa_rw_handle_op_req,
        nfa_rw_handle_op_req_switch, nfa_rw_i93_command, nfa_rw_i93_command_select,
        nfa_rw_stop_presence_check_timer, World.setFlags, World.since] <;>
      simp [hsup, hinit, hm'] <;>
      split <;> simp_all
  refine ⟨?_, Nat.div_mul_le_self _ _, ?_, ?_, ?_, ?_, ?_⟩
  · simp only [nfa_rw_cback, nfa_rw_handle_i93_evt, clear_activation_ntf_pending, clear_cur_op,
      World.setFlags, World.since]
    simp [hpend, callsOf]
    split <;> simp [callsOf]
  · have h := Nat.lt_mul_div_succ w.cb.i93_afi_location (Nat.pos_of_ne_zero hbs)
    rw [Nat.mul_comm]
    exact h
  · simp only [nfa_rw_cback, nfa_rw_handle_i93_evt, clear_activation_ntf_pending, clear_cur_op,
      World.setFlags]
    simp [hpend]
    split <;> simp
  · intro hacc
    simp only [nfa_rw_cback, nfa_rw_handle_i93_evt, clear_activation_ntf_pending, clear_cur_op,
      World.setFlags, World.since]
    simp [hpend, hacc, notifsOf, activationsOf]
  · intro hrej
    simp only [nfa_rw_cback, nfa_rw_handle_i93_evt, clear_activation_ntf_pending, clear_cur_op,
      World.setFlags, World.since]
    simp [hpend, hrej, notifsOf, activationsOf]
  · intro p_data w0 hsup hinit hp hm
    obtain ⟨h1, h2⟩ := hact p_data w0 hsup hinit hp hm
    exact ⟨h1, h2, fun hne => by rw [h1]; exact hne⟩

/-- Witness of `C40_inventory_response`: the INVENTORY response after the
activation of a fixed-layout tag (AFI location 40, block size 4) makes the
engine read block 10. -/
theorem C40_inventory_response_witness :
    wI93Activated.cb.flags.NFA_RW_FL_ACTIVATION_NTF_PENDING = true ∧
    wI93Activated.cb.i93_block_size = 4 ∧
    callsOf ((nfa_rw_cback envAccept (tRW_EVENT.i93 RW_I93_INVENTORY_EVT)
        { status := OK, i93_inventory_dsfid := 9 } wI93Activated).since wI93Activated)
      = [(tRW_I93_CALL.RW_I93ReadSingleBlock 10 : tRW_CALL)] :=
  ⟨by decide, by decide,
   (C40_inventory_response envAccept { status := OK, i93_inventory_dsfid := 9 } wI93Activated
      (by decide) (by decide)).1⟩

end NfaRw
